import Mathlib

/-!
# Verification of the synthetic mobile-game event generator

A shallow embedding in Lean 4 of the deterministic player-simulation engine
(`src/simulation.py`, `src/agents.py`, `src/events.py`, `src/models.py`,
`src/world.py`, `src/validators.py`) together with proofs of the testable
properties stated in the specification.

Modelling conventions, used uniformly below:

* Python `float` values are modelled as exact rationals (`ℚ`); Python `int`
  as `ℤ`.  `int(x)` (truncation toward zero) is `pyTrunc`, Python's
  banker-rounding `round` is `pyRound`.
* `datetime.date` values are day numbers (`ℤ`, days since the epoch);
  `datetime.datetime` values are second counts (`ℤ`).  Calendar rendering
  (ISO strings) is not modelled; it is injective on the values used.
* The seeded pseudo-random generator `random.Random(seed)` is modelled as an
  abstract stream `ℕ → ℚ` with a cursor (`Rng`): each sampling method
  consumes exactly one stream element and maps it deterministically to a
  value.  Every property proved here depends only on the draws being a
  deterministic function of the seeded stream (which holds for the Mersenne
  Twister), never on the distribution of the draws.
* `uuid.uuid4()` is the engine's only source of entropy that is *not*
  derived from the seed.  Its successive calls are modelled as draws from an
  external oracle `u : ℕ → String`: the k-th uuid4 call of a run returns
  `u k`.  Engine-level events store the draw index; `renderEvent` resolves
  indices through the oracle.
* Python `dict`s are insertion-ordered association lists; `AList.set`
  mirrors `d[k] = v`, `List.lookup` mirrors `d.get(k)`.
* `md5` is an uninterpreted parameter `md5 : String → ℕ` standing for
  `int(hashlib.md5(s.encode()).hexdigest(), 16)`; the properties proved
  about A/B assignment hold for every such digest function.
-/

namespace DataGen

/-- Python `int(q)`: truncation of a rational toward zero. -/
def pyTrunc (q : ℚ) : ℤ :=
  if q < 0 then -((-q).floor) else q.floor

/-- Python `round(q)`: round half to even (banker's rounding). -/
def pyRound (q : ℚ) : ℤ :=
  let f := q.floor
  let r := q - (f : ℚ)
  if r < 1/2 then f
  else if r > 1/2 then f + 1
  else if f % 2 = 0 then f else f + 1

/-- Python `round(q, 2)`: rounding to two decimal places. -/
def pyRound2 (q : ℚ) : ℚ := (pyRound (q * 100) : ℚ) / 100

/-- Python `q ** n` for a nonnegative integer exponent (used with `n ≥ 0`). -/
def pyPow (q : ℚ) (n : ℤ) : ℚ := q ^ n.toNat

/-- Decimal rendering of a natural number, left-padded with zeros. -/
def padNat (width : ℕ) (m : ℕ) : String :=
  let s := toString m
  if s.length < width then String.mk (List.replicate (width - s.length) '0') ++ s
  else s

/-- Python `f"{n:0Nd}"` formatting of an integer. -/
def padInt (width : ℕ) (n : ℤ) : String :=
  if n < 0 then "-" ++ padNat (width - 1) n.natAbs else padNat width n.toNat

/-- Python `date.weekday()` for a day number (epoch 1970-01-01 is a Thursday,
weekday 3; Monday is 0). -/
def pyWeekday (day : ℤ) : ℤ := (day + 3) % 7

/-- `d[k] = v` on an insertion-ordered association list: replaces the value
of an existing key in place, otherwise appends the new binding at the end. -/
def AList.set (k : String) (v : α) : List (String × α) → List (String × α)
  | [] => [(k, v)]
  | (k', v') :: rest =>
      if k' = k then (k, v) :: rest else (k', v') :: AList.set k v rest

/-- Increment an integer counter in an association list (used for the
run-metadata install counters). -/
def AList.incr (k : String) (l : List (String × ℤ)) : List (String × ℤ) :=
  AList.set k ((l.lookup k).getD 0 + 1) l

/-! ## The random stream (`random.Random`) -/

/-- Abstract model of a seeded `random.Random` instance: the underlying
stream of the seeded generator plus the cursor of the next draw. -/
structure Rng where
  stream : ℕ → ℚ
  pos : ℕ

/-- Consume one element of the stream. -/
def Rng.next (r : Rng) : ℚ × Rng :=
  (r.stream r.pos, { r with pos := r.pos + 1 })

/-- `rng.random()`: one uniform draw in `[0, 1)`. -/
def Rng.random (r : Rng) : ℚ × Rng := r.next

/-- `rng.randint(a, b)`: deterministic surrogate mapping one unit draw onto
`[a, b]`.  (The claims proved here never depend on the distribution.) -/
def Rng.randint (a b : ℤ) (r : Rng) : ℤ × Rng :=
  let (q, r') := r.next
  (a + pyTrunc (q * ((b : ℚ) - (a : ℚ) + 1)), r')

/-- `rng.choice(l)`: one draw selecting an index of `l` (default `d` for an
empty list, in which case CPython raises instead). -/
def Rng.choice (l : List α) (d : α) (r : Rng) : α × Rng :=
  let (q, r') := r.next
  (l.getD (pyTrunc (q * (l.length : ℚ))).toNat d, r')

/-- `rng.uniform(a, b)`. -/
def Rng.uniform (a b : ℚ) (r : Rng) : ℚ × Rng :=
  let (q, r') := r.next
  (a + q * (b - a), r')

/-- `rng.triangular(lo, hi, mode)`: deterministic surrogate consuming one
draw (the exact inverse-CDF involves a square root and is immaterial to the
claims). -/
def Rng.triangular (lo hi mode : ℚ) (r : Rng) : ℚ × Rng :=
  let (q, r') := r.next
  let _ := mode
  (lo + q * (hi - lo), r')

/-- `rng.choices(items, weights)[0]`: one draw against cumulative weights. -/
def Rng.choicesW (items : List ℤ) (weights : List ℚ) (d : ℤ) (r : Rng) : ℤ × Rng :=
  let (q, r') := r.next
  let total := weights.sum
  let rec walk (its : List ℤ) (ws : List ℚ) (cum : ℚ) : ℤ :=
    match its, ws with
    | i :: its', w :: ws' =>
        if q * total < cum + w then i else walk its' ws' (cum + w)
    | _, _ => d
  (walk items weights 0, r')

/-! ## Data model (`src/models.py`) -/

/-- `PlayerType` player archetypes. -/
inductive PlayerType where
  | WHALE | DOLPHIN | MINNOW | FREE_ENGAGED | FREE_CASUAL | FREE_CHURNER
deriving DecidableEq

/-- `.value` of a `PlayerType` member. -/
def PlayerType.value : PlayerType → String
  | .WHALE => "whale"
  | .DOLPHIN => "dolphin"
  | .MINNOW => "minnow"
  | .FREE_ENGAGED => "free_engaged"
  | .FREE_CASUAL => "free_casual"
  | .FREE_CHURNER => "free_churner"

/-- `PlayerType(s)` enum construction from a string.  An unrecognised
string raises `ValueError` in CPython; the fallback value is never reached
for the configurations considered here. -/
def PlayerType.ofString (s : String) : PlayerType :=
  if s = "whale" then .WHALE
  else if s = "dolphin" then .DOLPHIN
  else if s = "minnow" then .MINNOW
  else if s = "free_engaged" then .FREE_ENGAGED
  else if s = "free_casual" then .FREE_CASUAL
  else .FREE_CHURNER

/-- `HeroRarity` levels. -/
inductive HeroRarity where
  | COMMON | RARE | EPIC | LEGENDARY
deriving DecidableEq

/-- `.value` of a `HeroRarity` member. -/
def HeroRarity.value : HeroRarity → String
  | .COMMON => "common"
  | .RARE => "rare"
  | .EPIC => "epic"
  | .LEGENDARY => "legendary"

/-- `HeroRarity(s)` enum construction from a string. -/
def HeroRarity.ofString (s : String) : HeroRarity :=
  if s = "legendary" then .LEGENDARY
  else if s = "epic" then .EPIC
  else if s = "rare" then .RARE
  else .COMMON

/-- `HeroClass` types, in declaration order (`list(HeroClass)`). -/
inductive HeroClass where
  | WARRIOR | MAGE | ARCHER | HEALER | TANK
deriving DecidableEq

/-- `.value` of a `HeroClass` member. -/
def HeroClass.value : HeroClass → String
  | .WARRIOR => "warrior"
  | .MAGE => "mage"
  | .ARCHER => "archer"
  | .HEALER => "healer"
  | .TANK => "tank"

/-- `list(HeroClass)`. -/
def HeroClass.all : List HeroClass :=
  [.WARRIOR, .MAGE, .ARCHER, .HEALER, .TANK]

/-- Device platforms. -/
inductive Platform where
  | IOS | ANDROID
deriving DecidableEq

/-- `.value` of a `Platform` member. -/
def Platform.value : Platform → String
  | .IOS => "ios"
  | .ANDROID => "android"

/-- `HeroTemplate`: static hero data. -/
structure HeroTemplate where
  hero_id : String
  name : String
  rarity : HeroRarity
  hero_class : HeroClass
  base_power : ℤ
deriving DecidableEq

/-- `HeroInstance`: a hero owned by a player. -/
structure HeroInstance where
  hero_id : String
  template : HeroTemplate
  level : ℤ := 1
  stars : ℤ := 1
  duplicates : ℤ := 0
deriving DecidableEq

/-- `HeroInstance.power`: `int((base + (level-1)*10) * 1.2**(stars-1))`. -/
def HeroInstance.power (h : HeroInstance) : ℤ :=
  let power_per_level : ℚ := 10
  let star_multiplier : ℚ := 12/10
  let base : ℚ := h.template.base_power
  let level_bonus : ℚ := ((h.level - 1 : ℤ) : ℚ) * power_per_level
  let star_bonus : ℚ := pyPow star_multiplier (h.stars - 1)
  pyTrunc ((base + level_bonus) * star_bonus)

/-- `DeviceInfo` snapshot carried by every event. -/
structure DeviceInfo where
  device_id : String
  platform : Platform
  os_version : String
  app_version : String
  device_model : String
  country : String
  language : String
deriving DecidableEq

/-- `UserProperties` snapshot carried by every event (`cohort_date` kept as
a day number, see the date convention above). -/
structure UserProperties where
  player_level : ℤ
  vip_level : ℤ
  total_spent_usd : ℚ
  days_since_install : ℤ
  cohort_date : ℤ
  current_chapter : ℤ
deriving DecidableEq

/-- `DailyQuestProgress`. -/
structure DailyQuestProgress where
  quest_id : String
  quest_name : String
  target : ℤ
  current : ℤ
  completed : Bool := false
  reward_claimed : Bool := false
deriving DecidableEq

/-- `Guild`. -/
structure Guild where
  guild_id : String
  name : String
  member_count : ℤ := 0
  max_members : ℤ := 30
  boss_level : ℤ := 1
  boss_hp_remaining_pct : ℚ := 100
deriving DecidableEq

/-- `Guild.is_full`. -/
def Guild.is_full (g : Guild) : Bool := g.member_count ≥ g.max_members

/-- `GachaBanner` (dates are day numbers). -/
structure GachaBanner where
  banner_id : String
  banner_type : String
  featured_hero_id : Option String := none
  start_date : Option ℤ := none
  end_date : Option ℤ := none
deriving DecidableEq

/-- `GachaBanner.is_active`. -/
def GachaBanner.is_active (b : GachaBanner) (current_date : ℤ) : Bool :=
  if b.banner_type = "standard" then true
  else
    match b.start_date, b.end_date with
    | some s, some e => s ≤ current_date ∧ current_date ≤ e
    | _, _ => false

/-- One milestone of a `GameEvent`; the heterogeneous milestone dicts of the
source are represented with optional per-kind fields. -/
structure Milestone where
  day : Option ℤ := none
  pulls_required : Option ℤ := none
  spend_usd : Option ℤ := none
  tokens_required : Option ℤ := none
  reward_currency : String
  reward_amount : ℤ
deriving DecidableEq

/-- `GameEvent`: a time-boxed activity. -/
structure GameEvent where
  event_id : String
  event_type : String
  event_name : String
  start_date : ℤ
  end_date : ℤ
  milestones : List Milestone := []
deriving DecidableEq

/-! ## Configuration (`src/config.py`)

The raw YAML tree is represented as a typed record tree.  Keys that the
source reads with `.get(..., default)` are `Option`-typed with the default
applied at the point of use; keys read by direct indexing (which would raise
`KeyError` when absent) are plain-typed. -/

/-- `player_types.<name>.retention` anchors. -/
structure RetentionCfg where
  d1 : Option ℚ := none
  d7 : Option ℚ := none
  d30 : Option ℚ := none
  d90 : Option ℚ := none
deriving DecidableEq

/-- One `player_types` entry. -/
structure PlayerTypeCfg where
  share : ℚ
  retention : RetentionCfg := {}
  sessions_per_day : Option (ℤ × ℤ) := none
  session_duration_min : Option (ℤ × ℤ) := none
  gacha_desire : Option ℚ := none
  ad_watch_probability : Option ℚ := none
  guild_engagement : Option ℚ := none
  arena_engagement : Option ℚ := none
deriving DecidableEq

/-- One `installs.sources` entry. -/
structure SourceCfg where
  share : ℚ
  retention_modifier : Option ℚ := none
  monetization_modifier : Option ℚ := none
deriving DecidableEq

/-- One `ab_tests` entry.  `activation_days_since_install` models an
`activation_condition` mapping containing a `days_since_install` key. -/
structure ABTestCfg where
  enabled : Bool := false
  variants : List String := []
  weights : List ℚ := []
  activation_days_since_install : Option ℤ := none
  effects : List (String × List (String × ℚ)) := []
deriving DecidableEq

/-- `gacha.rates`. -/
structure GachaRates where
  common : ℚ
  rare : ℚ
  epic : ℚ
  legendary : ℚ
deriving DecidableEq

/-- `gacha.pity`. -/
structure PityCfg where
  threshold : ℤ
  soft_pity_start : ℤ
  soft_pity_rate_boost : ℚ
deriving DecidableEq

/-- `gacha`. -/
structure GachaCfg where
  single_gems : ℤ
  multi_gems : ℤ
  rates : GachaRates
  pity : PityCfg
deriving DecidableEq

/-- `economy.initial`. -/
structure EconomyInitialCfg where
  gold : ℤ
  gems : ℤ
  summon_tickets : ℤ
  energy : ℤ
deriving DecidableEq

/-- `economy.energy`. -/
structure EnergyCfg where
  max : ℤ
  regen_minutes : ℤ
  stage_cost : ℤ
deriving DecidableEq

/-- `economy.stage_rewards`. -/
structure StageRewardsCfg where
  gold_base : Option ℤ := none
  gold_per_chapter : Option ℤ := none
  exp_base : Option ℤ := none
  exp_per_chapter : Option ℤ := none
deriving DecidableEq

/-- `economy.idle_rewards`. -/
structure IdleRewardsCfg where
  gold_per_hour_base : Option ℤ := none
  gold_per_stage_mult : Option ℚ := none
  max_hours : Option ℚ := none
deriving DecidableEq

/-- `economy.hero_levelup`. -/
structure HeroLevelupCfg where
  gold_base : Option ℤ := none
  gold_per_level_mult : Option ℚ := none
deriving DecidableEq

/-- `economy`. -/
structure EconomyCfg where
  initial : EconomyInitialCfg
  energy : EnergyCfg
  stage_rewards : StageRewardsCfg := {}
  idle_rewards : IdleRewardsCfg := {}
  hero_levelup : HeroLevelupCfg := {}
deriving DecidableEq

/-- One `shop.products` entry. -/
structure ProductCfg where
  price_usd : Option ℚ := none
  gems : Option ℤ := none
  gems_immediate : Option ℤ := none
  gems_daily : Option ℤ := none
  summon_tickets : Option ℤ := none
deriving DecidableEq

/-- `shop.ads`. -/
structure AdsCfg where
  reward_gems : ℤ
  max_per_day : ℤ
  cooldown_minutes : ℤ
deriving DecidableEq

/-- `shop`. -/
structure ShopCfg where
  products : List (String × ProductCfg) := []
  ads : AdsCfg
deriving DecidableEq

/-- One `vip.levels` entry (keys are the integer levels). -/
structure VipLevelCfg where
  threshold : ℚ
  energy_bonus : Option ℤ := none
  gold_bonus : Option ℤ := none
deriving DecidableEq

/-- `progression.player_level`. -/
structure PlayerLevelCfg where
  max : Option ℤ := none
  exp_per_level_base : Option ℤ := none
  exp_per_level_mult : Option ℚ := none
deriving DecidableEq

/-- `progression.stage_power`. -/
structure StagePowerCfg where
  base : Option ℤ := none
  per_stage_mult : Option ℚ := none
deriving DecidableEq

/-- `progression`. -/
structure ProgressionCfg where
  chapters : ℤ
  stages_per_chapter : ℤ
  unlocks : List (String × ℤ) := []
  player_level : PlayerLevelCfg := {}
  stage_power : StagePowerCfg := {}
deriving DecidableEq

/-- `heroes`. -/
structure HeroesCfg where
  pool : List (String × ℤ)
  base_power : List (String × ℤ)
deriving DecidableEq

/-- `social.arena`. -/
structure ArenaCfg where
  daily_attempts : ℤ
  attempt_cost_gems : ℤ
  rating_start : ℤ
  rating_k_factor : ℤ
deriving DecidableEq

/-- `social.guilds`. -/
structure GuildsCfg where
  count : ℤ
  max_members : ℤ
deriving DecidableEq

/-- `social`. -/
structure SocialCfg where
  arena : ArenaCfg
  guilds : GuildsCfg
deriving DecidableEq

/-- `devices`. -/
structure DevicesCfg where
  platforms : List (String × ℚ) := []
  countries : List (String × ℚ) := []
  ios_models : List String := []
  android_models : List String := []
  app_versions : List String := []
  app_version_weights : List ℚ := []
deriving DecidableEq

/-- `installs`. -/
structure InstallsCfg where
  total : ℤ
  distribution : String
  decay_rate : Option ℚ := none
  sources : List (String × SourceCfg) := []
deriving DecidableEq

/-- `simulation`. -/
structure SimulationParamsCfg where
  seed : ℤ
  start_date : ℤ
  duration_days : ℤ
deriving DecidableEq

/-- `scenarios.bad_traffic`. -/
structure BadTrafficCfg where
  enabled : Bool := false
  day : Option ℤ := none
  volume : Option ℤ := none
  source_name : Option String := none
  bot_ratio : Option ℚ := none
  retention_modifier : Option ℚ := none
  monetization_modifier : Option ℚ := none
deriving DecidableEq

/-- `SimulationConfig`: the validated configuration tree with typed
accessors (`src/config.py`). -/
structure SimulationConfig where
  simulation : SimulationParamsCfg
  installs : InstallsCfg
  player_types : List (String × PlayerTypeCfg)
  economy : EconomyCfg
  gacha : GachaCfg
  shop : ShopCfg
  vip_levels : List (ℤ × VipLevelCfg) := []
  progression : ProgressionCfg
  heroes : HeroesCfg
  social : SocialCfg
  ab_tests : List (String × ABTestCfg) := []
  devices : DevicesCfg
  scenarios_bad_traffic : Option BadTrafficCfg := none
deriving DecidableEq

/-- `config.seed`. -/
def SimulationConfig.seed (c : SimulationConfig) : ℤ := c.simulation.seed

/-- `config.start_date` (as a day number). -/
def SimulationConfig.start_date (c : SimulationConfig) : ℤ := c.simulation.start_date

/-- `config.duration_days`. -/
def SimulationConfig.duration_days (c : SimulationConfig) : ℤ := c.simulation.duration_days

/-- `config.total_installs`. -/
def SimulationConfig.total_installs (c : SimulationConfig) : ℤ := c.installs.total

/-- `config.install_distribution`. -/
def SimulationConfig.install_distribution (c : SimulationConfig) : String :=
  c.installs.distribution

/-- `config.install_decay_rate` (default `0.02`). -/
def SimulationConfig.install_decay_rate (c : SimulationConfig) : ℚ :=
  c.installs.decay_rate.getD (2/100)

/-- `config.install_sources`. -/
def SimulationConfig.install_sources (c : SimulationConfig) : List (String × SourceCfg) :=
  c.installs.sources

/-- `config.initial_gold`. -/
def SimulationConfig.initial_gold (c : SimulationConfig) : ℤ := c.economy.initial.gold

/-- `config.initial_gems`. -/
def SimulationConfig.initial_gems (c : SimulationConfig) : ℤ := c.economy.initial.gems

/-- `config.initial_summon_tickets`. -/
def SimulationConfig.initial_summon_tickets (c : SimulationConfig) : ℤ :=
  c.economy.initial.summon_tickets

/-- `config.initial_energy`. -/
def SimulationConfig.initial_energy (c : SimulationConfig) : ℤ := c.economy.initial.energy

/-- `config.max_energy`. -/
def SimulationConfig.max_energy (c : SimulationConfig) : ℤ := c.economy.energy.max

/-- `config.stage_energy_cost`. -/
def SimulationConfig.stage_energy_cost (c : SimulationConfig) : ℤ :=
  c.economy.energy.stage_cost

/-- `config.gacha_single_cost`. -/
def SimulationConfig.gacha_single_cost (c : SimulationConfig) : ℤ := c.gacha.single_gems

/-- `config.gacha_multi_cost`. -/
def SimulationConfig.gacha_multi_cost (c : SimulationConfig) : ℤ := c.gacha.multi_gems

/-- `config.gacha_rates`. -/
def SimulationConfig.gacha_rates (c : SimulationConfig) : GachaRates := c.gacha.rates

/-- `config.pity_threshold`. -/
def SimulationConfig.pity_threshold (c : SimulationConfig) : ℤ := c.gacha.pity.threshold

/-- `config.soft_pity_start`. -/
def SimulationConfig.soft_pity_start (c : SimulationConfig) : ℤ :=
  c.gacha.pity.soft_pity_start

/-- `config.soft_pity_rate_boost`. -/
def SimulationConfig.soft_pity_rate_boost (c : SimulationConfig) : ℚ :=
  c.gacha.pity.soft_pity_rate_boost

/-- `config.shop_products`. -/
def SimulationConfig.shop_products (c : SimulationConfig) : List (String × ProductCfg) :=
  c.shop.products

/-- `config.ad_reward_gems`. -/
def SimulationConfig.ad_reward_gems (c : SimulationConfig) : ℤ := c.shop.ads.reward_gems

/-- `config.max_ads_per_day`. -/
def SimulationConfig.max_ads_per_day (c : SimulationConfig) : ℤ := c.shop.ads.max_per_day

/-- `config.total_chapters`. -/
def SimulationConfig.total_chapters (c : SimulationConfig) : ℤ := c.progression.chapters

/-- `config.stages_per_chapter`. -/
def SimulationConfig.stages_per_chapter (c : SimulationConfig) : ℤ :=
  c.progression.stages_per_chapter

/-- `config.feature_unlocks`. -/
def SimulationConfig.feature_unlocks (c : SimulationConfig) : List (String × ℤ) :=
  c.progression.unlocks

/-- `config.hero_pool`. -/
def SimulationConfig.hero_pool (c : SimulationConfig) : List (String × ℤ) := c.heroes.pool

/-- `config.hero_base_power`. -/
def SimulationConfig.hero_base_power (c : SimulationConfig) : List (String × ℤ) :=
  c.heroes.base_power

/-- `config.arena_attempt_cost_gems`. -/
def SimulationConfig.arena_attempt_cost_gems (c : SimulationConfig) : ℤ :=
  c.social.arena.attempt_cost_gems

/-- `config.arena_rating_k_factor`. -/
def SimulationConfig.arena_rating_k_factor (c : SimulationConfig) : ℤ :=
  c.social.arena.rating_k_factor

/-- `config.guild_count`. -/
def SimulationConfig.guild_count (c : SimulationConfig) : ℤ := c.social.guilds.count

/-- `config.guild_max_members`. -/
def SimulationConfig.guild_max_members (c : SimulationConfig) : ℤ :=
  c.social.guilds.max_members

/-- `config.platform_distribution`. -/
def SimulationConfig.platform_distribution (c : SimulationConfig) : List (String × ℚ) :=
  c.devices.platforms

/-- `config.country_distribution`. -/
def SimulationConfig.country_distribution (c : SimulationConfig) : List (String × ℚ) :=
  c.devices.countries

/-- `config.bad_traffic_config`. -/
def SimulationConfig.bad_traffic_config (c : SimulationConfig) : Option BadTrafficCfg :=
  match c.scenarios_bad_traffic with
  | some bt => if bt.enabled then some bt else none
  | none => none

/-- `config.get_vip_level_for_spend`. -/
def SimulationConfig.get_vip_level_for_spend (c : SimulationConfig) (total_spent : ℚ) : ℤ :=
  c.vip_levels.foldl
    (fun current_level (lv : ℤ × VipLevelCfg) =>
      if total_spent ≥ lv.2.threshold ∧ lv.1 > current_level then lv.1 else current_level)
    0

/-! ## Agent state (`src/models.py`) -/

/-- `AgentState`: the complete state of one player agent.  The ad hoc
runtime attributes `_source_retention_mod`, `_source_monetization_mod` and
`_is_bot` (set by the factory/engine, read through `getattr` with defaults
`1.0`, `1.0`, `False`) are modelled as the explicit fields
`source_retention_mod`, `source_monetization_mod`, `is_bot` with those
defaults.  `current_session_id` stores the index of the uuid4 draw that
produced the live session id (see the uuid convention at the top). -/
structure AgentState where
  user_id : String
  device_id : String
  agent_type : PlayerType
  install_date : ℤ
  install_source : String
  country : String
  platform : Platform
  device_model : String
  os_version : String
  app_version : String
  language : String := "en"
  ab_tests : List (String × String) := []
  player_level : ℤ := 1
  player_exp : ℤ := 0
  current_chapter : ℤ := 1
  current_stage : ℤ := 1
  max_chapter : ℤ := 1
  max_stage : ℤ := 1
  total_stages_cleared : ℤ := 0
  tutorial_completed : Bool := false
  tutorial_step : ℤ := 0
  gold : ℤ := 1000
  gems : ℤ := 100
  summon_tickets : ℤ := 5
  energy : ℤ := 120
  max_energy : ℤ := 120
  energy_last_update : Option ℤ := none
  total_spent_usd : ℚ := 0
  vip_level : ℤ := 0
  vip_points : ℤ := 0
  purchase_count : ℤ := 0
  bought_starter_pack : Bool := false
  has_active_monthly : Bool := false
  monthly_pass_day : ℤ := 0
  monthly_pass_start : Option ℤ := none
  heroes : List (String × HeroInstance) := []
  team : List String := []
  team_power : ℤ := 0
  pity_counter : ℤ := 0
  total_gacha_pulls : ℤ := 0
  guild_id : Option String := none
  guild_joined_date : Option ℤ := none
  arena_rank : ℤ := 0
  arena_rating : ℤ := 1000
  sessions_today : ℤ := 0
  ads_watched_today : ℤ := 0
  arena_attempts_today : ℤ := 5
  attacked_guild_boss_today : Bool := false
  claimed_daily_login : Bool := false
  claimed_idle_today : Bool := false
  daily_quests : List DailyQuestProgress := []
  total_sessions : ℤ := 0
  total_playtime_sec : ℤ := 0
  last_session_date : Option ℤ := none
  last_session_end : Option ℤ := none
  login_streak : ℤ := 0
  consecutive_losses : ℤ := 0
  got_legendary_recently : Bool := false
  is_churned : Bool := false
  churn_date : Option ℤ := none
  current_session_id : Option ℕ := none
  current_session_start : Option ℤ := none
  current_session_events : ℤ := 0
  session_stages_played : ℤ := 0
  session_gems_spent : ℤ := 0
  session_gold_spent : ℤ := 0
  source_retention_mod : ℚ := 1
  source_monetization_mod : ℚ := 1
  is_bot : Bool := false
deriving DecidableEq

/-- `AgentState.get_device_info`. -/
def AgentState.get_device_info (a : AgentState) : DeviceInfo :=
  { device_id := a.device_id
    platform := a.platform
    os_version := a.os_version
    app_version := a.app_version
    device_model := a.device_model
    country := a.country
    language := a.language }

/-- `AgentState.get_user_properties`. -/
def AgentState.get_user_properties (a : AgentState) (current_date : ℤ) : UserProperties :=
  { player_level := a.player_level
    vip_level := a.vip_level
    total_spent_usd := pyRound2 a.total_spent_usd
    days_since_install := current_date - a.install_date
    cohort_date := a.install_date
    current_chapter := a.current_chapter }

/-- `AgentState.reset_daily_state`. -/
def AgentState.reset_daily_state (a : AgentState) : AgentState :=
  { a with
    sessions_today := 0
    ads_watched_today := 0
    arena_attempts_today := 5
    attacked_guild_boss_today := false
    claimed_daily_login := false
    claimed_idle_today := false
    daily_quests := []
    got_legendary_recently := false }

/-- The sum computed by `AgentState.calculate_team_power`: total power of
the team hero ids, skipping ids without a hero instance. -/
def AgentState.team_power_sum (a : AgentState) : ℤ :=
  (a.team.map (fun hero_id =>
    match a.heroes.lookup hero_id with
    | some h => h.power
    | none => 0)).sum

/-- `AgentState.calculate_team_power` (state update part). -/
def AgentState.calculate_team_power (a : AgentState) : AgentState :=
  { a with team_power := a.team_power_sum }

/-- `AgentState.add_hero`: returns the updated agent, the (possibly
pre-existing) instance and the `is_new` flag. -/
def AgentState.add_hero (a : AgentState) (template : HeroTemplate) :
    AgentState × HeroInstance × Bool :=
  match a.heroes.lookup template.hero_id with
  | some existing =>
      let inst := { existing with duplicates := existing.duplicates + 1 }
      let a' := { a with heroes := AList.set template.hero_id inst a.heroes }
      (a', inst, false)
  | none =>
      let inst : HeroInstance :=
        { hero_id := template.hero_id, template := template
          level := 1, stars := 1, duplicates := 0 }
      let a' := { a with heroes := a.heroes ++ [(template.hero_id, inst)] }
      let a'' :=
        if a'.team.length < 5 then
          AgentState.calculate_team_power { a' with team := a'.team ++ [template.hero_id] }
        else a'
      (a'', inst, true)

/-- `AgentState.get_heroes_by_rarity`: counts of owned heroes by rarity. -/
def AgentState.get_heroes_by_rarity (a : AgentState) : List (String × ℤ) :=
  a.heroes.foldl
    (fun counts (h : String × HeroInstance) => AList.incr h.2.template.rarity.value counts)
    [("common", 0), ("rare", 0), ("epic", 0), ("legendary", 0)]

/-- `AgentState.get_max_hero_level`. -/
def AgentState.get_max_hero_level (a : AgentState) : ℤ :=
  if a.heroes.isEmpty then 0
  else (a.heroes.map (fun h => h.2.level)).foldl max 0

/-- `AgentState.get_max_hero_stars`. -/
def AgentState.get_max_hero_stars (a : AgentState) : ℤ :=
  if a.heroes.isEmpty then 0
  else (a.heroes.map (fun h => h.2.stars)).foldl max 0

/-! ## Event records (`src/models.py`, `src/events.py`)

Engine-level events (`EventR`) store uuid draw indices; `renderEvent`
resolves them against the uuid oracle, producing the serialisable record
(`Event`).  `scrubEvent` erases exactly the two inherently unique
identifier fields. -/

/-- A JSON-like value of an `event_properties` map. -/
inductive Val where
  | i : ℤ → Val
  | q : ℚ → Val
  | s : String → Val
  | b : Bool → Val
  | null : Val
  | list : List Val → Val
  | obj : List (String × Val) → Val

/-- An optional string property (`None` or a string). -/
def Val.optS : Option String → Val
  | some v => .s v
  | none => .null

/-- An optional integer property (`None` or an int). -/
def Val.optI : Option ℤ → Val
  | some v => .i v
  | none => .null

/-- Engine-level event record, ids as uuid draw indices. -/
structure EventR where
  event_id : ℕ
  event_name : String
  event_timestamp : ℤ
  user_id : String
  session_id : Option ℕ
  device : DeviceInfo
  user_properties : UserProperties
  ab_tests : List (String × String)
  event_properties : List (String × Val)

/-- Serialisable event record (`Event` of `src/models.py`), ids rendered. -/
structure Event where
  event_id : String
  event_name : String
  event_timestamp : ℤ
  user_id : String
  session_id : String
  device : DeviceInfo
  user_properties : UserProperties
  ab_tests : List (String × String)
  event_properties : List (String × Val)

/-- Resolve the uuid draw indices of an engine event through the uuid
oracle `u`: `generate_event_id` yields `"evt_" + uuid4()`;
`generate_session_id` yields `"s_" + uuid4().hex[:12]` (truncation is
modelled by `take`); a `None` session id renders as `""`. -/
def renderEvent (u : ℕ → String) (e : EventR) : Event :=
  { event_id := "evt_" ++ u e.event_id
    event_name := e.event_name
    event_timestamp := e.event_timestamp
    user_id := e.user_id
    session_id :=
      match e.session_id with
      | some i => "s_" ++ (u i).take 12
      | none => ""
    device := e.device
    user_properties := e.user_properties
    ab_tests := e.ab_tests
    event_properties := e.event_properties }

/-- An event with the two inherently unique identifier fields erased. -/
structure EventCore where
  event_name : String
  event_timestamp : ℤ
  user_id : String
  device : DeviceInfo
  user_properties : UserProperties
  ab_tests : List (String × String)
  event_properties : List (String × Val)

/-- Erase `event_id` and `session_id` from a rendered event. -/
def scrubEvent (e : Event) : EventCore :=
  { event_name := e.event_name
    event_timestamp := e.event_timestamp
    user_id := e.user_id
    device := e.device
    user_properties := e.user_properties
    ab_tests := e.ab_tests
    event_properties := e.event_properties }

/-! ## Behavior model (`src/agents.py`) -/

/-- Python truthiness of an `Optional[str]` (`None` and `""` are falsy). -/
def truthyOptStr : Option String → Bool
  | some v => v ≠ ""
  | none => false

/-- The empty player-type mapping `{}` returned by
`config.player_types.get(name, {})` for an unconfigured type; its `share`
is never read on that path. -/
def PlayerTypeCfg.empty : PlayerTypeCfg := { share := 0 }

/-- `config.player_types.get(agent_type.value, {})`. -/
def SimulationConfig.player_type_config (cfg : SimulationConfig) (a : AgentState) :
    PlayerTypeCfg :=
  (cfg.player_types.lookup a.agent_type.value).getD PlayerTypeCfg.empty

/-- `SESSION_TIME_WEIGHTS`: weekly time-of-day buckets. -/
def SESSION_TIME_WEIGHTS : List (ℤ × ℤ × ℚ) :=
  [(0, 7, 5/100), (7, 9, 15/100), (9, 12, 10/100), (12, 14, 20/100),
   (14, 18, 10/100), (18, 21, 25/100), (21, 24, 15/100)]

/-- The hash input `f"{seed}:{test_name}:{user_id}"` of `get_ab_group`. -/
def hashInput (seed : ℤ) (test_name user_id : String) : String :=
  toString seed ++ ":" ++ test_name ++ ":" ++ user_id

/-- The cumulative-threshold scan shared by all weighted selections of the
source (`cumulative += w; if value < cumulative: return x`). -/
def cumPick (value : ℚ) : List (α × ℚ) → ℚ → Option α
  | [], _ => none
  | (x, w) :: rest, cum =>
      let cum' := cum + w
      if value < cum' then some x else cumPick value rest cum'

/-- `get_ab_group`: deterministic A/B test group assignment.  `md5` stands
for `int(hashlib.md5(·).hexdigest(), 16)` (see the conventions above). -/
def get_ab_group (md5 : String → ℕ) (user_id test_name : String)
    (variants : List String) (weights : List ℚ) (seed : ℤ) : String :=
  let hash_value : ℕ := md5 (hashInput seed test_name user_id)
  let total := weights.sum
  let normalized_weights := weights.map (fun w => w / total)
  let random_value : ℚ := ((hash_value % 10000 : ℕ) : ℚ) / 10000
  match cumPick random_value (variants.zip normalized_weights) 0 with
  | some v => v
  | none => variants.getLastD ""

/-- SPEC-MODELLED definition, written from the spec sentence
`variant = weighted_bucket(md5(seed:test_name:user_id) mod 10000 / 10000,
variants, weights)` rather than from the source: the variant whose
weight-proportional slice of the unit interval contains `value` (the
cumulative scan is run against `value` scaled by the total weight, which
is exactly the proportional partition), with the last variant as
fallback. -/
def specWeightedBucket (value : ℚ) (variants : List String)
    (weights : List ℚ) : String :=
  match cumPick (value * weights.sum) (variants.zip weights) 0 with
  | some v => v
  | none => variants.getLastD ""

/-- `AgentFactory._select_player_type`. -/
def AgentFactory.select_player_type (cfg : SimulationConfig) (is_bot : Bool) (r : Rng) :
    PlayerType × Rng :=
  if is_bot then (PlayerType.FREE_CHURNER, r)
  else
    let shares := cfg.player_types.map (fun p => (p.1, p.2.share))
    let (value, r') := r.random
    match cumPick value shares 0 with
    | some pt => (PlayerType.ofString pt, r')
    | none => (PlayerType.ofString ((cfg.player_types.map Prod.fst).getLastD ""), r')

/-- `AgentFactory._select_device`. -/
def AgentFactory.select_device (cfg : SimulationConfig) (r : Rng) :
    (Platform × String × String) × Rng :=
  let platforms := cfg.platform_distribution
  let (platform_value, r1) := r.random
  if platform_value < (platforms.lookup "ios").getD (45/100) then
    let (major, r2) := r1.randint 15 17
    let (minor, r3) := r2.randint 0 5
    let os_version := toString major ++ "." ++ toString minor
    let (device_model, r4) := Rng.choice cfg.devices.ios_models "" r3
    ((Platform.IOS, device_model, os_version), r4)
  else
    let (v, r2) := r1.randint 11 14
    let os_version := toString v
    let (device_model, r3) := Rng.choice cfg.devices.android_models "" r2
    ((Platform.ANDROID, device_model, os_version), r3)

/-- `AgentFactory._select_country`. -/
def AgentFactory.select_country (cfg : SimulationConfig) (r : Rng) : String × Rng :=
  let (value, r') := r.random
  match cumPick value cfg.country_distribution 0 with
  | some c => (c, r')
  | none => ("other", r')

/-- `AgentFactory._select_app_version`. -/
def AgentFactory.select_app_version (cfg : SimulationConfig) (r : Rng) : String × Rng :=
  let versions := cfg.devices.app_versions
  let weights := cfg.devices.app_version_weights
  let (value, r') := r.random
  match cumPick value (versions.zip weights) 0 with
  | some v => (v, r')
  | none => (versions.getLastD "", r')

/-- `AgentFactory._get_language_for_country`. -/
def AgentFactory.get_language_for_country (country : String) : String :=
  if country = "RU" then "ru"
  else if country = "US" then "en"
  else if country = "DE" then "de"
  else if country = "BR" then "pt"
  else if country = "JP" then "ja"
  else if country = "KR" then "ko"
  else if country = "other" then "en"
  else "en"

/-- One iteration of the `_assign_ab_tests` loop body. -/
def AgentFactory.assignStep (md5 : String → ℕ) (seed : ℤ) (user_id : String)
    (ab_tests : List (String × String)) (t : String × ABTestCfg) :
    List (String × String) :=
  if ¬ t.2.enabled then ab_tests
  else if t.2.activation_days_since_install.isSome then ab_tests
  else if t.2.variants ≠ [] ∧ t.2.weights ≠ [] then
    AList.set t.1 (get_ab_group md5 user_id t.1 t.2.variants t.2.weights seed) ab_tests
  else ab_tests

/-- `AgentFactory._assign_ab_tests`: assigns a variant for every enabled
test whose activation is not deferred to a later simulation day. -/
def AgentFactory.assign_ab_tests (cfg : SimulationConfig) (md5 : String → ℕ) (seed : ℤ)
    (user_id : String) : List (String × String) :=
  cfg.ab_tests.foldl (AgentFactory.assignStep md5 seed user_id) []

/-- `generate_user_id`. -/
def generate_user_id (index : ℤ) : String := "u_" ++ padInt 6 index

/-- `generate_device_id`. -/
def generate_device_id (index : ℤ) : String := "d_" ++ padInt 6 index

/-- `AgentFactory.create_agent`.  The factory's mutable `agent_counter` is
threaded explicitly; returns the new agent and the incremented counter. -/
def AgentFactory.create_agent (cfg : SimulationConfig) (md5 : String → ℕ) (seed : ℤ)
    (agent_counter : ℤ) (install_date : ℤ) (install_source : String) (r : Rng)
    (is_bot : Bool) : AgentState × ℤ × Rng :=
  let agent_counter := agent_counter + 1
  let user_id := generate_user_id agent_counter
  let device_id := generate_device_id agent_counter
  let (player_type, r1) := AgentFactory.select_player_type cfg is_bot r
  let ((platform, device_model, os_version), r2) := AgentFactory.select_device cfg r1
  let (country, r3) := AgentFactory.select_country cfg r2
  let (app_version, r4) := AgentFactory.select_app_version cfg r3
  let language := AgentFactory.get_language_for_country country
  let ab_tests := AgentFactory.assign_ab_tests cfg md5 seed user_id
  let source_config := cfg.install_sources.lookup install_source
  let agent : AgentState :=
    { user_id := user_id
      device_id := device_id
      agent_type := player_type
      install_date := install_date
      install_source := install_source
      country := country
      platform := platform
      device_model := device_model
      os_version := os_version
      app_version := app_version
      language := language
      ab_tests := ab_tests
      gold := cfg.initial_gold
      gems := cfg.initial_gems
      summon_tickets := cfg.initial_summon_tickets
      energy := cfg.initial_energy
      max_energy := cfg.max_energy
      source_retention_mod :=
        match source_config with
        | some sc => sc.retention_modifier.getD 1
        | none => 1
      source_monetization_mod :=
        match source_config with
        | some sc => sc.monetization_modifier.getD 1
        | none => 1
      is_bot := is_bot }
  (agent, agent_counter, r4)

/-- `AgentBehavior._get_ab_retention_modifier`. -/
def AgentBehavior.get_ab_retention_modifier (cfg : SimulationConfig) (a : AgentState)
    (day : ℤ) : ℚ :=
  let modifier : ℚ := 1
  let modifier :=
    match a.ab_tests.lookup "onboarding_length" with
    | some onboarding =>
        if onboarding = "" then modifier
        else
          let effects := ((cfg.ab_tests.lookup "onboarding_length").getD {}).effects
          let variant_effects := (effects.lookup onboarding).getD []
          if day = 1 then modifier * ((variant_effects.lookup "d1_retention_mult").getD 1)
          else if day ≤ 7 then
            modifier * ((variant_effects.lookup "d7_retention_mult").getD 1)
          else modifier
    | none => modifier
  match a.ab_tests.lookup "late_game_offer" with
  | some late_game =>
      if late_game ≠ "" ∧ 30 ≤ day ∧ day ≤ 60 then
        let effects := ((cfg.ab_tests.lookup "late_game_offer").getD {}).effects
        let variant_effects := (effects.lookup late_game).getD []
        modifier * ((variant_effects.lookup "d30_d60_retention_mult").getD 1)
      else modifier
  | none => modifier

/-- `AgentBehavior.get_retention_probability`. -/
def AgentBehavior.get_retention_probability (cfg : SimulationConfig) (a : AgentState)
    (day_since_install : ℤ) : ℚ :=
  let ret := (cfg.player_type_config a).retention
  if day_since_install = 0 then 1
  else
    let base :=
      if day_since_install = 1 then ret.d1.getD (5/10)
      else if day_since_install ≤ 7 then
        let d1 := ret.d1.getD (5/10)
        let d7 := ret.d7.getD (2/10)
        let t : ℚ := ((day_since_install - 1 : ℤ) : ℚ) / 6
        d1 * (1 - t) + d7 * t
      else if day_since_install ≤ 30 then
        let d7 := ret.d7.getD (2/10)
        let d30 := ret.d30.getD (1/10)
        let t : ℚ := ((day_since_install - 7 : ℤ) : ℚ) / 23
        d7 * (1 - t) + d30 * t
      else if day_since_install ≤ 90 then
        let d30 := ret.d30.getD (1/10)
        let d90 := ret.d90.getD (5/100)
        let t : ℚ := ((day_since_install - 30 : ℤ) : ℚ) / 60
        d30 * (1 - t) + d90 * t
      else ret.d90.getD (5/100) * (8/10)
    let modifiers : ℚ := 1
    let modifiers := modifiers * a.source_retention_mod
    let modifiers := modifiers * AgentBehavior.get_ab_retention_modifier cfg a day_since_install
    let modifiers := if a.consecutive_losses > 3 then modifiers * (85/100) else modifiers
    let modifiers := if a.got_legendary_recently then modifiers * (115/100) else modifiers
    let modifiers := if truthyOptStr a.guild_id then modifiers * (110/100) else modifiers
    let modifiers := if a.is_bot then modifiers * (3/10) else modifiers
    min (base * modifiers) (99/100)

/-- `AgentBehavior.will_return_today`. -/
def AgentBehavior.will_return_today (cfg : SimulationConfig) (a : AgentState)
    (current_date : ℤ) (r : Rng) : Bool × Rng :=
  if a.is_churned then (false, r)
  else
    let day_since_install := current_date - a.install_date
    let prob := AgentBehavior.get_retention_probability cfg a day_since_install
    let (q, r') := r.random
    (q < prob, r')

/-- `AgentBehavior.get_sessions_count`. -/
def AgentBehavior.get_sessions_count (cfg : SimulationConfig) (a : AgentState)
    (current_date : ℤ) (r : Rng) : ℤ × Rng :=
  let sessions_range := (cfg.player_type_config a).sessions_per_day.getD (1, 2)
  let min_sessions : ℚ := sessions_range.1
  let max_sessions : ℚ := sessions_range.2
  let (base, r1) := r.triangular min_sessions max_sessions (min_sessions * (12/10))
  let base := if pyWeekday current_date ≥ 5 then base * (12/10) else base
  let base :=
    match a.ab_tests.lookup "energy_regen_rate" with
    | some energy_test =>
        if energy_test = "" then base
        else
          let effects := ((cfg.ab_tests.lookup "energy_regen_rate").getD {}).effects
          let variant_effects := (effects.lookup energy_test).getD []
          base * ((variant_effects.lookup "sessions_mult").getD 1)
    | none => base
  if a.is_bot then
    let (b, r2) := r1.randint 1 2
    (max 1 (pyRound (b : ℚ)), r2)
  else
    (max 1 (pyRound base), r1)

/-- `AgentBehavior.get_session_start_time`: the second-of-day of a session
start (the source returns a `datetime` on the dummy date 2000-01-01 of
which only `.time()` is used). -/
def AgentBehavior.get_session_start_time (r : Rng) : ℤ × Rng :=
  let (value, r1) := r.random
  match cumPick value (SESSION_TIME_WEIGHTS.map (fun w => ((w.1, w.2.1), w.2.2))) 0 with
  | some (start_hour, end_hour) =>
      let (hour, r2) := r1.randint start_hour (end_hour - 1)
      let (minute, r3) := r2.randint 0 59
      let (second, r4) := r3.randint 0 59
      (hour * 3600 + minute * 60 + second, r4)
  | none => (12 * 3600, r1)

/-- `AgentBehavior.get_session_duration_minutes`. -/
def AgentBehavior.get_session_duration_minutes (cfg : SimulationConfig) (a : AgentState)
    (session_number : ℤ) (r : Rng) : ℤ × Rng :=
  let duration_range := (cfg.player_type_config a).session_duration_min.getD (5, 15)
  let min_dur : ℚ := duration_range.1
  let max_dur : ℚ := duration_range.2
  let (base, r1) :=
    if session_number = 1 then r.triangular min_dur max_dur (max_dur * (7/10))
    else r.triangular min_dur (max_dur * (7/10)) (min_dur * (13/10))
  if a.is_bot then
    let (b, r2) := r1.randint 2 5
    (max 2 (pyRound (b : ℚ)), r2)
  else
    (max 2 (pyRound base), r1)

/-- `AgentBehavior.should_do_gacha`. -/
def AgentBehavior.should_do_gacha (cfg : SimulationConfig) (a : AgentState) (r : Rng) :
    Bool × Rng :=
  let gacha_desire := (cfg.player_type_config a).gacha_desire.getD (3/10)
  let can_afford_single := a.gems ≥ cfg.gacha_single_cost ∨ a.summon_tickets ≥ 1
  if ¬ can_afford_single then (false, r)
  else
    let desire := gacha_desire
    let desire :=
      if a.pity_counter ≥ 75 then desire + 4/10
      else if a.pity_counter ≥ 50 then desire + 2/10
      else desire
    let desire :=
      if a.ab_tests.lookup "gacha_pity_display" = some "visible" ∧ a.pity_counter ≥ 50 then
        desire + 15/100
      else desire
    let (q, r') := r.random
    (q < desire, r')

/-- The result of `AgentBehavior.get_gacha_pull_type`. -/
structure PullInfo where
  ptype : String
  currency : Option String
  count : ℤ
deriving DecidableEq

/-- `AgentBehavior.get_gacha_pull_type` (its `rng` parameter is unused in
the source and therefore omitted). -/
def AgentBehavior.get_gacha_pull_type (cfg : SimulationConfig) (a : AgentState) : PullInfo :=
  let single_cost := cfg.gacha_single_cost
  let multi_cost := cfg.gacha_multi_cost
  let can_single_ticket := a.summon_tickets ≥ 1
  let can_multi_ticket := a.summon_tickets ≥ 10
  let can_single_gems := a.gems ≥ single_cost
  let can_multi_gems := a.gems ≥ multi_cost
  if can_multi_ticket then { ptype := "multi", currency := some "tickets", count := 10 }
  else if can_multi_gems ∧ (a.agent_type = .WHALE ∨ a.agent_type = .DOLPHIN) then
    { ptype := "multi", currency := some "gems", count := 10 }
  else if can_single_ticket then { ptype := "single", currency := some "tickets", count := 1 }
  else if can_single_gems then { ptype := "single", currency := some "gems", count := 1 }
  else { ptype := "none", currency := none, count := 0 }

/-- The soft-pity rate adjustment of `AgentBehavior.roll_gacha` (the body
of the `pity >= soft_start` branch applied to the configured rates). -/
def AgentBehavior.soft_adjusted_rates (cfg : SimulationConfig) (pity : ℤ) : GachaRates :=
  let rates := cfg.gacha_rates
  if pity ≥ cfg.soft_pity_start then
    let boost_amount := ((pity - cfg.soft_pity_start + 1 : ℤ) : ℚ) * cfg.soft_pity_rate_boost
    let leg := min (rates.legendary + boost_amount) 1
    let remaining := 1 - leg
    let non_legendary_total := rates.common + rates.rare + rates.epic
    if non_legendary_total > 0 then
      let factor := remaining / non_legendary_total
      { common := rates.common * factor
        rare := rates.rare * factor
        epic := rates.epic * factor
        legendary := leg }
    else { rates with legendary := leg }
  else rates

/-- The four rarity probabilities governing a roll at a given pity counter:
at hard pity the roll is the constant `LEGENDARY` (probability vector
`(0,0,0,1)`), otherwise the soft-pity-adjusted configured rates. -/
def AgentBehavior.effective_gacha_rates (cfg : SimulationConfig) (pity : ℤ) : GachaRates :=
  if pity ≥ cfg.pity_threshold - 1 then
    { common := 0, rare := 0, epic := 0, legendary := 1 }
  else AgentBehavior.soft_adjusted_rates cfg pity

/-- `AgentBehavior.roll_gacha`.  The hard-pity branch returns before the
uniform draw; otherwise one draw is classified against the cumulative rates
in the order legendary → epic → rare → common (with `COMMON` as the
fall-through result). -/
def AgentBehavior.roll_gacha (cfg : SimulationConfig) (a : AgentState) (r : Rng) :
    HeroRarity × Rng :=
  let pity := a.pity_counter
  if pity ≥ cfg.pity_threshold - 1 then (HeroRarity.LEGENDARY, r)
  else
    let rates := AgentBehavior.soft_adjusted_rates cfg pity
    let (value, r') := r.random
    let rarity :=
      if value < rates.legendary then HeroRarity.LEGENDARY
      else if value < rates.legendary + rates.epic then HeroRarity.EPIC
      else if value < rates.legendary + rates.epic + rates.rare then HeroRarity.RARE
      else if value < rates.legendary + rates.epic + rates.rare + rates.common then
        HeroRarity.COMMON
      else HeroRarity.COMMON
    (rarity, r')

/-- `AgentBehavior.should_watch_ad`. -/
def AgentBehavior.should_watch_ad (cfg : SimulationConfig) (a : AgentState) (r : Rng) :
    Bool × Rng :=
  if a.ads_watched_today ≥ cfg.max_ads_per_day then (false, r)
  else
    let base_prob := (cfg.player_type_config a).ad_watch_probability.getD (5/10)
    let base_prob :=
      match a.ab_tests.lookup "ad_reward_amount" with
      | some ad_test =>
          if ad_test = "" then base_prob
          else
            let effects := ((cfg.ab_tests.lookup "ad_reward_amount").getD {}).effects
            let variant_effects := (effects.lookup ad_test).getD []
            base_prob * ((variant_effects.lookup "ad_watch_mult").getD 1)
      | none => base_prob
    let base_prob := if a.gems > 1000 then base_prob * (7/10) else base_prob
    let (q, r') := r.random
    (q < base_prob, r')

/-- The `trigger_probs` table of `AgentBehavior.should_attempt_iap`. -/
def iapTriggerProb (trigger : String) : ℚ :=
  if trigger = "starter_pack_offer" then 15/100
  else if trigger = "out_of_gems_gacha" then 8/100
  else if trigger = "out_of_energy" then 3/100
  else if trigger = "pity_close" then 12/100
  else if trigger = "limited_banner_ending" then 10/100
  else if trigger = "stuck_progression" then 5/100
  else if trigger = "monthly_pass_reminder" then 20/100
  else if trigger = "late_game_offer" then 10/100
  else 2/100

/-- The `type_mults` table of `AgentBehavior.should_attempt_iap`. -/
def iapTypeMult : PlayerType → ℚ
  | .WHALE => 3
  | .DOLPHIN => 3/2
  | .MINNOW => 8/10
  | .FREE_ENGAGED => 1/10
  | .FREE_CASUAL => 5/100
  | .FREE_CHURNER => 2/100

/-- `AgentBehavior.should_attempt_iap`.  Free archetypes first face a
`0.1%` gate (one draw); passing it falls through to the general
computation, which consumes a second draw. -/
def AgentBehavior.should_attempt_iap (cfg : SimulationConfig) (a : AgentState)
    (trigger : String) (r : Rng) : Bool × Rng :=
  let free_gate :=
    a.agent_type = .FREE_ENGAGED ∨ a.agent_type = .FREE_CASUAL ∨
      a.agent_type = .FREE_CHURNER
  let (gate_failed, r1) :=
    if free_gate then
      let (q, r') := r.random
      (q > 1/1000, r')
    else (false, r)
  if gate_failed then (false, r1)
  else
    let base_prob := iapTriggerProb trigger
    let base_prob := base_prob * iapTypeMult a.agent_type
    let base_prob := base_prob * a.source_monetization_mod
    let base_prob :=
      if trigger = "starter_pack_offer" then
        match a.ab_tests.lookup "starter_pack_price" with
        | some t =>
            if t = "" then base_prob
            else
              let effects := ((cfg.ab_tests.lookup "starter_pack_price").getD {}).effects
              base_prob * (((effects.lookup t).getD []).lookup "conversion_mult").getD 1
        | none => base_prob
      else base_prob
    let base_prob :=
      if trigger = "late_game_offer" then
        match a.ab_tests.lookup "late_game_offer" with
        | some t =>
            if t = "" then base_prob
            else
              let effects := ((cfg.ab_tests.lookup "late_game_offer").getD {}).effects
              base_prob * (((effects.lookup t).getD []).lookup "iap_conversion_mult").getD 1
        | none => base_prob
      else base_prob
    let base_prob :=
      match a.ab_tests.lookup "ad_reward_amount" with
      | some ad_test =>
          if ad_test = "" then base_prob
          else
            let effects := ((cfg.ab_tests.lookup "ad_reward_amount").getD {}).effects
            base_prob * (((effects.lookup ad_test).getD []).lookup "iap_conversion_mult").getD 1
      | none => base_prob
    let (q, r2) := r1.random
    (q < base_prob, r2)

/-- `AgentBehavior.select_iap_product`. -/
def AgentBehavior.select_iap_product (a : AgentState) (trigger : String) (r : Rng) :
    String × Rng :=
  if trigger = "starter_pack_offer" ∧ ¬ a.bought_starter_pack then ("starter_pack", r)
  else if trigger = "monthly_pass_reminder" ∧ ¬ a.has_active_monthly then ("monthly_pass", r)
  else if a.agent_type = .WHALE then Rng.choice ["gems_tier4", "gems_tier5"] "" r
  else if a.agent_type = .DOLPHIN then Rng.choice ["gems_tier2", "gems_tier3", "gems_tier4"] "" r
  else Rng.choice ["gems_tier1", "gems_tier2"] "" r

/-- `AgentBehavior.should_join_guild`. -/
def AgentBehavior.should_join_guild (cfg : SimulationConfig) (a : AgentState) (r : Rng) :
    Bool × Rng :=
  if truthyOptStr a.guild_id then (false, r)
  else if a.player_level < (cfg.feature_unlocks.lookup "guild").getD 15 then (false, r)
  else
    let engagement := (cfg.player_type_config a).guild_engagement.getD (5/10)
    let (q, r') := r.random
    (q < engagement * (3/10), r')

/-- `AgentBehavior.should_do_arena`. -/
def AgentBehavior.should_do_arena (cfg : SimulationConfig) (a : AgentState) (r : Rng) :
    Bool × Rng :=
  if a.player_level < (cfg.feature_unlocks.lookup "arena").getD 10 then (false, r)
  else if a.arena_attempts_today ≤ 0 then
    if (a.agent_type = .WHALE ∨ a.agent_type = .DOLPHIN) ∧
        a.gems ≥ cfg.arena_attempt_cost_gems then
      let (q, r') := r.random
      (q < 2/10, r')
    else (false, r)
  else
    let engagement := (cfg.player_type_config a).arena_engagement.getD (5/10)
    let (q, r') := r.random
    (q < engagement, r')

/-- `AgentBehavior.should_attack_guild_boss`. -/
def AgentBehavior.should_attack_guild_boss (cfg : SimulationConfig) (a : AgentState)
    (r : Rng) : Bool × Rng :=
  if ¬ truthyOptStr a.guild_id then (false, r)
  else if a.attacked_guild_boss_today then (false, r)
  else
    let engagement := (cfg.player_type_config a).guild_engagement.getD (5/10)
    let (q, r') := r.random
    (q < engagement, r')

/-- `AgentBehavior.generate_daily_quests` (its `rng` parameter is unused in
the source and therefore omitted). -/
def AgentBehavior.generate_daily_quests (cfg : SimulationConfig) (a : AgentState) :
    List DailyQuestProgress :=
  if a.player_level < (cfg.feature_unlocks.lookup "daily_quests").getD 5 then []
  else
    [{ quest_id := "dq_stages", quest_name := "Complete 5 stages", target := 5, current := 0 },
     { quest_id := "dq_gacha", quest_name := "Perform 3 summons", target := 3, current := 0 },
     { quest_id := "dq_levelup", quest_name := "Level up any hero", target := 1, current := 0 },
     { quest_id := "dq_arena", quest_name := "Win 1 arena battle", target := 1, current := 0 },
     { quest_id := "dq_login", quest_name := "Log in today", target := 1, current := 1,
       completed := true }]

/-- `AgentBehavior.should_attempt_stage`. -/
def AgentBehavior.should_attempt_stage (cfg : SimulationConfig) (a : AgentState)
    (required_power : ℤ) (r : Rng) : Bool × Rng :=
  if a.energy < cfg.stage_energy_cost then (false, r)
  else
    let power_ratio : ℚ :=
      if required_power > 0 then (a.team_power : ℚ) / (required_power : ℚ) else 1
    if power_ratio ≥ 12/10 then (true, r)
    else if power_ratio ≥ 1 then
      let (q, r') := r.random
      (q < 80/100, r')
    else if power_ratio ≥ 8/10 then
      let (q, r') := r.random
      (q < 40/100, r')
    else
      let (q, r') := r.random
      (q < 10/100, r')

/-- `AgentBehavior.simulate_stage_result`: returns `(success, stars)`. -/
def AgentBehavior.simulate_stage_result (a : AgentState) (required_power : ℤ) (r : Rng) :
    (Bool × ℤ) × Rng :=
  let power_ratio : ℚ :=
    if required_power > 0 then (a.team_power : ℚ) / (required_power : ℚ) else 1
  let success_prob : ℚ :=
    if power_ratio ≥ 13/10 then 98/100
    else if power_ratio ≥ 11/10 then 85/100
    else if power_ratio ≥ 1 then 70/100
    else if power_ratio ≥ 9/10 then 45/100
    else if power_ratio ≥ 8/10 then 25/100
    else 10/100
  let (q, r1) := r.random
  let success := q < success_prob
  if success then
    if power_ratio ≥ 13/10 then ((true, 3), r1)
    else if power_ratio ≥ 11/10 then
      let (q2, r2) := r1.random
      ((true, if q2 < 7/10 then 3 else 2), r2)
    else
      let (stars, r2) := Rng.choicesW [1, 2, 3] [3/10, 5/10, 2/10] 1 r1
      ((true, stars), r2)
  else ((false, 0), r1)

/-- `AgentBehavior.simulate_arena_result`. -/
def AgentBehavior.simulate_arena_result (a : AgentState) (opponent_power : ℤ) (r : Rng) :
    Bool × Rng :=
  let power_ratio : ℚ :=
    if opponent_power > 0 then (a.team_power : ℚ) / (opponent_power : ℚ) else 1
  let win_prob : ℚ :=
    if power_ratio ≥ 12/10 then 85/100
    else if power_ratio ≥ 1 then 60/100
    else if power_ratio ≥ 8/10 then 35/100
    else 15/100
  let (q, r') := r.random
  (q < win_prob, r')

/-- Rational surrogate for the float `10 ** x` of the ELO formula (exact
real exponentiation is irrational; no claim depends on its value, only on
its determinism). -/
def pow10Q (x : ℚ) : ℚ := (10 : ℚ) ^ x.floor

/-- `AgentBehavior.calculate_arena_rating_change`: standard ELO update. -/
def AgentBehavior.calculate_arena_rating_change (cfg : SimulationConfig)
    (agent_rating opponent_rating : ℤ) (won : Bool) : ℤ :=
  let k : ℚ := cfg.arena_rating_k_factor
  let expected : ℚ :=
    1 / (1 + pow10Q (((opponent_rating - agent_rating : ℤ) : ℚ) / 400))
  let actual : ℚ := if won then 1 else 0
  pyTrunc (k * (actual - expected))

/-! ## World state (`src/world.py`) -/

/-- `HERO_NAMES` pools by class. -/
def heroNamesFor : HeroClass → List String
  | .WARRIOR =>
      ["Blade Master", "Iron Knight", "Steel Guardian", "War Chief",
       "Battle Titan", "Sword Saint", "Crusader", "Berserker",
       "Champion", "Gladiator", "Warlord", "Paladin",
       "Vanguard", "Sentinel", "Defender", "Conqueror",
       "Ravager", "Slayer", "Reaver", "Destroyer"]
  | .MAGE =>
      ["Frost Witch", "Fire Sage", "Storm Caller", "Archmage",
       "Void Walker", "Crystal Seer", "Shadow Weaver", "Light Bringer",
       "Elementalist", "Enchanter", "Sorcerer", "Wizard",
       "Necromancer", "Illusionist", "Conjurer", "Warlock",
       "Mystic", "Oracle", "Diviner", "Spellbinder"]
  | .ARCHER =>
      ["Eagle Eye", "Swift Arrow", "Wind Runner", "Shadow Hunter",
       "Forest Ranger", "Sniper", "Marksman", "Sharpshooter",
       "Tracker", "Scout", "Pathfinder", "Stalker",
       "Hawk Eye", "Silent Shot", "Death Dealer", "Venomstrike",
       "Crossbow Master", "Bow Master", "Hunter", "Predator"]
  | .HEALER =>
      ["Life Keeper", "Holy Priest", "Light Bearer", "Soul Mender",
       "Nature's Grace", "Divine Touch", "Restoration Master", "Mercy",
       "Cleric", "Bishop", "Saint", "Seraph",
       "Medicine Woman", "Shaman", "Druid", "Herbalist",
       "Angel", "Guardian Spirit", "Beacon", "Hope Bringer"]
  | .TANK =>
      ["Stone Wall", "Iron Fortress", "Shield Bearer", "Mountain Guard",
       "Bulwark", "Rampart", "Bastion", "Colossus",
       "Golem", "Juggernaut", "Behemoth", "Titan",
       "Protector", "Aegis", "Barrier", "Fortress",
       "Earthshaker", "Rock Solid", "Immovable", "Anchor"]

/-- Global state of the game world (`WorldState`; the configuration is
passed separately instead of being stored). -/
structure WorldState where
  current_date : ℤ
  day_number : ℤ := 1
  hero_templates : List (String × HeroTemplate) := []
  guilds : List Guild := []
  banners : List GachaBanner := []
  game_events : List GameEvent := []
  total_installs : ℤ := 0
  total_events_generated : ℤ := 0

/-- Fallback hero template for `rng.choice` on a hero list (CPython would
raise on an empty pool; never reached for generated worlds). -/
def dummyHero : HeroTemplate :=
  { hero_id := "", name := "", rarity := .COMMON, hero_class := .WARRIOR, base_power := 0 }

/-- Inner loop of `WorldState._generate_hero_templates` for one rarity
bucket: generates heroes numbered `i, i+1, ...` (`n` of them). -/
def generateHeroesForRarity (rarity_name : String) (base_power : ℤ) :
    ℕ → ℤ → Rng → List (String × HeroTemplate) × Rng
  | 0, _, r => ([], r)
  | n + 1, i, r =>
      let hero_id := "hero_" ++ rarity_name ++ "_" ++ padInt 3 i
      let (hero_class, r1) := Rng.choice HeroClass.all HeroClass.WARRIOR r
      let (nm, r2) := Rng.choice (heroNamesFor hero_class) "" r1
      let display_name := nm ++ " (" ++ rarity_name.capitalize ++ ")"
      let template : HeroTemplate :=
        { hero_id := hero_id, name := display_name
          rarity := HeroRarity.ofString rarity_name
          hero_class := hero_class, base_power := base_power }
      let (rest, r3) := generateHeroesForRarity rarity_name base_power n (i + 1) r2
      ((hero_id, template) :: rest, r3)

/-- `WorldState._generate_hero_templates`. -/
def generateHeroTemplates (cfg : SimulationConfig) (r : Rng) :
    List (String × HeroTemplate) × Rng :=
  cfg.hero_pool.foldl
    (fun (acc : List (String × HeroTemplate) × Rng) (bucket : String × ℤ) =>
      let base_power := (cfg.hero_base_power.lookup bucket.1).getD 0
      let (generated, r') :=
        generateHeroesForRarity bucket.1 base_power bucket.2.toNat 1 acc.2
      (acc.1 ++ generated, r'))
    ([], r)

/-- Guild name first components. -/
def guildNameFirsts : List String :=
  ["Royal", "Shadow", "Dragon", "Phoenix", "Iron",
   "Golden", "Silver", "Dark", "Light", "Storm",
   "Fire", "Ice", "Thunder", "Crystal", "Ancient"]

/-- Guild name second components. -/
def guildNameSeconds : List String :=
  ["Knights", "Legion", "Order", "Guard", "Warriors",
   "Hunters", "Raiders", "Champions", "Defenders", "Alliance",
   "Brigade", "Battalion", "Corps", "Squad", "Force"]

/-- Loop body of `WorldState._generate_guilds` for guilds numbered
`i, i+1, ...` (`n` of them). -/
def generateGuildsLoop (max_members : ℤ) : ℕ → ℤ → Rng → List Guild × Rng
  | 0, _, r => ([], r)
  | n + 1, i, r =>
      let (p, r1) := Rng.choice guildNameFirsts "" r
      let (sfx, r2) := Rng.choice guildNameSeconds "" r1
      let guild : Guild :=
        { guild_id := "guild_" ++ padInt 4 i, name := p ++ " " ++ sfx
          member_count := 0, max_members := max_members
          boss_level := 1, boss_hp_remaining_pct := 100 }
      let (rest, r3) := generateGuildsLoop max_members n (i + 1) r2
      (guild :: rest, r3)

/-- `WorldState._generate_guilds`. -/
def generateGuilds (cfg : SimulationConfig) (r : Rng) : List Guild × Rng :=
  generateGuildsLoop cfg.guild_max_members cfg.guild_count.toNat 1 r

/-- Loop of `WorldState._generate_banners` producing the sequential 14-day
limited banners (fuel-bounded recursion; the source loop always terminates
because each iteration advances the date by at least two days). -/
def generateLimitedBanners (legendary_heroes : List HeroTemplate) (end_date : ℤ) :
    ℕ → ℤ → ℤ → Rng → List GachaBanner × Rng
  | 0, _, _, r => ([], r)
  | fuel + 1, current, banner_num, r =>
      if current < end_date then
        let (featured, r1) := Rng.choice legendary_heroes dummyHero r
        let banner_end := min (current + 14) end_date
        let banner : GachaBanner :=
          { banner_id := "limited_banner_" ++ padInt 3 banner_num
            banner_type := "limited"
            featured_hero_id := some featured.hero_id
            start_date := some current, end_date := some banner_end }
        let (rest, r2) :=
          generateLimitedBanners legendary_heroes end_date fuel (banner_end + 1)
            (banner_num + 1) r1
        (banner :: rest, r2)
      else ([], r)

/-- `WorldState._generate_banners`. -/
def generateBanners (cfg : SimulationConfig)
    (hero_templates : List (String × HeroTemplate)) (r : Rng) : List GachaBanner × Rng :=
  let start_date := cfg.start_date
  let end_date := start_date + cfg.duration_days
  let standard_banner : GachaBanner :=
    { banner_id := "standard_banner", banner_type := "standard"
      featured_hero_id := none
      start_date := some start_date, end_date := some end_date }
  let legendary_heroes :=
    (hero_templates.map Prod.snd).filter (fun h => h.rarity = .LEGENDARY)
  let (limited, r') :=
    generateLimitedBanners legendary_heroes end_date
      (cfg.duration_days.toNat + 2) start_date 1 r
  (standard_banner :: limited, r')

/-- The rotation order of game-event types. -/
def gameEventTypes : List String :=
  ["login_event", "summon_event", "spending_event", "collection_event"]

/-- The name pools of `WorldState._generate_game_events`. -/
def gameEventNames (event_type : String) : List String :=
  if event_type = "login_event" then
    ["New Year Celebration", "Spring Festival", "Summer Bash", "Autumn Harvest"]
  else if event_type = "summon_event" then
    ["Hero Festival", "Lucky Draw", "Summoner's Blessing", "Divine Fortune"]
  else if event_type = "spending_event" then
    ["Gem Rush", "Shopping Spree", "Treasure Hunt", "Fortune Fever"]
  else
    ["Artifact Hunt", "Rune Collection", "Fragment Gathering", "Token Chase"]

/-- The milestone ladder of one game event. -/
def gameEventMilestones (event_type : String) (duration : ℤ) : List Milestone :=
  if event_type = "login_event" then
    (List.range (min (duration + 1) 8).toNat).filterMap (fun d =>
      if d = 0 then none
      else
        let d : ℤ := d
        some { day := some d
               reward_currency := if d % 3 = 0 then "gems" else "gold"
               reward_amount := if d % 3 = 0 then 50 * d else 500 * d })
  else if event_type = "summon_event" then
    [10, 30, 50, 100].map (fun pulls =>
      { pulls_required := some pulls, reward_currency := "summon_tickets"
        reward_amount := pulls / 10 })
  else if event_type = "spending_event" then
    [5, 20, 50, 100].map (fun spend =>
      { spend_usd := some spend, reward_currency := "gems", reward_amount := spend * 20 })
  else
    [100, 300, 500, 1000].map (fun tokens =>
      { tokens_required := some tokens, reward_currency := "gems"
        reward_amount := tokens / 5 })

/-- Loop of `WorldState._generate_game_events` (fuel-bounded). -/
def generateGameEventsLoop (end_date : ℤ) :
    ℕ → ℤ → ℤ → Rng → List GameEvent × Rng
  | 0, _, _, r => ([], r)
  | fuel + 1, current, event_num, r =>
      if current < end_date - 7 then
        let event_type := gameEventTypes.getD (event_num % 4).toNat ""
        let (nm, r1) := Rng.choice (gameEventNames event_type) "" r
        let (duration, r2) := r1.randint 7 14
        let event_end := min (current + duration) end_date
        let milestones := gameEventMilestones event_type duration
        let game_event : GameEvent :=
          { event_id := "event_" ++ padInt 3 event_num
            event_type := event_type
            event_name := nm ++ " #" ++ toString event_num
            start_date := current, end_date := event_end
            milestones := milestones }
        let (gap, r3) := r2.randint 3 7
        let (rest, r4) :=
          generateGameEventsLoop end_date fuel (event_end + gap) (event_num + 1) r3
        (game_event :: rest, r4)
      else ([], r)

/-- `WorldState._generate_game_events`. -/
def generateGameEvents (cfg : SimulationConfig) (r : Rng) : List GameEvent × Rng :=
  let start_date := cfg.start_date
  let end_date := start_date + cfg.duration_days
  generateGameEventsLoop end_date (cfg.duration_days.toNat + 2) (start_date + 3) 1 r

/-- `WorldState.initialize` (named `init` here): deterministic world
construction from config and the seeded stream. -/
def WorldState.init (cfg : SimulationConfig) (r : Rng) : WorldState × Rng :=
  let start_date := cfg.start_date
  let (hero_templates, r1) := generateHeroTemplates cfg r
  let (guilds, r2) := generateGuilds cfg r1
  let (banners, r3) := generateBanners cfg hero_templates r2
  let (game_events, r4) := generateGameEvents cfg r3
  ({ current_date := start_date, day_number := 1
     hero_templates := hero_templates, guilds := guilds
     banners := banners, game_events := game_events }, r4)

/-- `WorldState.advance_day`. -/
def WorldState.advance_day (w : WorldState) : WorldState :=
  { w with
    current_date := w.current_date + 1
    day_number := w.day_number + 1
    guilds := w.guilds.map (fun g => { g with boss_hp_remaining_pct := 100 }) }

/-- `WorldState.get_limited_banner`. -/
def WorldState.get_limited_banner (w : WorldState) : Option GachaBanner :=
  (w.banners.filter (fun b => b.is_active w.current_date)).find?
    (fun b => b.banner_type = "limited")

/-- `WorldState.get_standard_banner`. -/
def WorldState.get_standard_banner (w : WorldState) : Option GachaBanner :=
  w.banners.find? (fun b => b.banner_type = "standard")

/-- `WorldState.get_hero_template`. -/
def WorldState.get_hero_template (w : WorldState) (hero_id : String) :
    Option HeroTemplate :=
  w.hero_templates.lookup hero_id

/-- `WorldState.get_heroes_by_rarity`. -/
def WorldState.get_heroes_by_rarity (w : WorldState) (rarity : HeroRarity) :
    List HeroTemplate :=
  (w.hero_templates.map Prod.snd).filter (fun h => h.rarity = rarity)

/-- `WorldState.get_random_guild`: a random guild with space (drawing from
the stream only when one exists). -/
def WorldState.get_random_guild (w : WorldState) (r : Rng) : Option Guild × Rng :=
  let available := w.guilds.filter (fun g => ¬ g.is_full)
  if available.isEmpty then (none, r)
  else
    let (g, r') := Rng.choice available
      { guild_id := "", name := "" } r
    (some g, r')

/-- `WorldState.join_guild`. -/
def WorldState.join_guild (w : WorldState) (guild_id : String) : Bool × WorldState :=
  match w.guilds.find? (fun g => g.guild_id = guild_id) with
  | some g =>
      if ¬ g.is_full then
        (true,
         { w with
           guilds := w.guilds.map (fun g' =>
             if g'.guild_id = guild_id then { g' with member_count := g'.member_count + 1 }
             else g') })
      else (false, w)
  | none => (false, w)

/-- `WorldState.damage_guild_boss`: returns the remaining HP percentage and
the updated world. -/
def WorldState.damage_guild_boss (w : WorldState) (guild_id : String) (damage_pct : ℚ) :
    ℚ × WorldState :=
  match w.guilds.find? (fun g => g.guild_id = guild_id) with
  | some g =>
      let hp := max 0 (g.boss_hp_remaining_pct - damage_pct)
      let (new_level, new_hp) :=
        if hp ≤ 0 then (g.boss_level + 1, (100 : ℚ)) else (g.boss_level, hp)
      (new_hp,
       { w with
         guilds := w.guilds.map (fun g' =>
           if g'.guild_id = guild_id then
             { g' with boss_level := new_level, boss_hp_remaining_pct := new_hp }
           else g') })
  | none => (100, w)

/-- `WorldState.get_stage_power_requirement`. -/
def WorldState.get_stage_power_requirement (cfg : SimulationConfig)
    (chapter stage : ℤ) : ℤ :=
  let stage_num := (chapter - 1) * cfg.stages_per_chapter + stage
  let base := (cfg.progression.stage_power.base.getD 100 : ℚ)
  let mult := cfg.progression.stage_power.per_stage_mult.getD (108/100)
  pyTrunc (base * pyPow mult (stage_num - 1))

/-- The reward pair of `WorldState.get_stage_rewards`. -/
structure StageRewards where
  gold : ℤ
  exp : ℤ
deriving DecidableEq

/-- `WorldState.get_stage_rewards`. -/
def WorldState.get_stage_rewards (cfg : SimulationConfig) (chapter stage : ℤ) :
    StageRewards :=
  let _ := stage
  let rewards := cfg.economy.stage_rewards
  let gold_base := rewards.gold_base.getD 100
  let gold_per_chapter := rewards.gold_per_chapter.getD 50
  let exp_base := rewards.exp_base.getD 20
  let exp_per_chapter := rewards.exp_per_chapter.getD 10
  { gold := gold_base + (chapter - 1) * gold_per_chapter
    exp := exp_base + (chapter - 1) * exp_per_chapter }

/-- The result of `WorldState.get_idle_rewards`. -/
structure IdleRewards where
  gold : ℤ
  exp : ℤ
  hours : ℚ
deriving DecidableEq

/-- `WorldState.get_idle_rewards`. -/
def WorldState.get_idle_rewards (cfg : SimulationConfig) (max_stage : ℤ) (hours : ℚ) :
    IdleRewards :=
  let idle_config := cfg.economy.idle_rewards
  let gold_per_hour := (idle_config.gold_per_hour_base.getD 500 : ℚ)
  let stage_mult := idle_config.gold_per_stage_mult.getD (5/100)
  let max_hours := idle_config.max_hours.getD 12
  let hours := min hours max_hours
  let gold := pyTrunc (gold_per_hour * (1 + (max_stage : ℚ) * stage_mult) * hours)
  let exp := pyTrunc ((gold : ℚ) * (1/10))
  { gold := gold, exp := exp, hours := hours }

/-- `WorldState.get_levelup_cost`. -/
def WorldState.get_levelup_cost (cfg : SimulationConfig) (current_level : ℤ) : ℤ :=
  let levelup := cfg.economy.hero_levelup
  let base := (levelup.gold_base.getD 100 : ℚ)
  let mult := levelup.gold_per_level_mult.getD (115/100)
  pyTrunc (base * pyPow mult (current_level - 1))

/-- `WorldState.get_exp_for_level`. -/
def WorldState.get_exp_for_level (cfg : SimulationConfig) (level : ℤ) : ℤ :=
  let player_level := cfg.progression.player_level
  let base := (player_level.exp_per_level_base.getD 100 : ℚ)
  let mult := player_level.exp_per_level_mult.getD (112/100)
  pyTrunc (base * pyPow mult (level - 1))

/-! ## Simulation state and the event emitter (`src/simulation.py`,
`src/events.py`, `src/writers.py`)

`SimState` combines the `Simulator`'s mutable attributes, the emitter's
buffer and the output sink (an ordered batch-append stream plus the
metadata counters, per §6 of the design).  The uuid4 call counter
`uuidCtr` indexes the external uuid oracle. -/

/-- Mutable simulation state. -/
structure SimState where
  rng : Rng
  uuidCtr : ℕ := 0
  world : WorldState
  agents : List AgentState := []
  active_agents : List String := []
  churned_agents : List String := []
  installs_per_day : List ℤ := []
  agent_counter : ℤ := 0
  emitter_events : List EventR := []
  output_events : List EventR := []
  installs_by_source : List (String × ℤ) := []
  installs_by_type : List (String × ℤ) := []
  current_date : ℤ
  day_number : ℤ := 0

/-- `generate_session_id` / `generate_event_id`: consume one uuid4 draw,
returning its index. -/
def SimState.fresh_uuid (s : SimState) : ℕ × SimState :=
  (s.uuidCtr, { s with uuidCtr := s.uuidCtr + 1 })

/-- `EventEmitter._create_event` followed by the buffer append. -/
def SimState.create_event (s : SimState) (event_name : String) (timestamp : ℤ)
    (a : AgentState) (event_properties : List (String × Val)) : SimState :=
  let (eid, s') := s.fresh_uuid
  let event : EventR :=
    { event_id := eid
      event_name := event_name
      event_timestamp := timestamp
      user_id := a.user_id
      session_id := a.current_session_id
      device := a.get_device_info
      user_properties := a.get_user_properties s.current_date
      ab_tests := a.ab_tests
      event_properties := event_properties }
  { s' with emitter_events := s'.emitter_events ++ [event] }

/-- `EventEmitter.emit_session_start`. -/
def SimState.emit_session_start (s : SimState) (a : AgentState) (timestamp : ℤ)
    (session_number : ℤ) (is_first_session : Bool)
    (time_since_last_session_sec : Option ℤ) : SimState :=
  s.create_event "session_start" timestamp a
    [("session_number", .i session_number),
     ("is_first_session", .b is_first_session),
     ("time_since_last_session_sec", .optI time_since_last_session_sec),
     ("install_source", .s a.install_source)]

/-- `EventEmitter.emit_session_end`. -/
def SimState.emit_session_end (s : SimState) (a : AgentState) (timestamp : ℤ)
    (session_duration_sec events_count stages_played gems_spent gold_spent : ℤ) :
    SimState :=
  s.create_event "session_end" timestamp a
    [("session_duration_sec", .i session_duration_sec),
     ("events_count", .i events_count),
     ("stages_played", .i stages_played),
     ("gems_spent", .i gems_spent),
     ("gold_spent", .i gold_spent)]

/-- `EventEmitter.emit_economy_source`. -/
def SimState.emit_economy_source (s : SimState) (a : AgentState) (timestamp : ℤ)
    (currency : String) (amount balance_after : ℤ) (source : String)
    (source_id : Option String := none) : SimState :=
  let props :=
    [("currency", Val.s currency), ("amount", Val.i amount),
     ("balance_after", Val.i balance_after), ("source", Val.s source)]
  let props :=
    match source_id with
    | some sid => if sid ≠ "" then props ++ [("source_id", Val.s sid)] else props
    | none => props
  s.create_event "economy_source" timestamp a props

/-- `EventEmitter.emit_economy_sink`. -/
def SimState.emit_economy_sink (s : SimState) (a : AgentState) (timestamp : ℤ)
    (currency : String) (amount balance_after : ℤ) (sink : String)
    (sink_id : Option String := none) : SimState :=
  let props :=
    [("currency", Val.s currency), ("amount", Val.i amount),
     ("balance_after", Val.i balance_after), ("sink", Val.s sink)]
  let props :=
    match sink_id with
    | some sid => if sid ≠ "" then props ++ [("sink_id", Val.s sid)] else props
    | none => props
  s.create_event "economy_sink" timestamp a props

/-- Stage id rendering `f"ch{chapter:02d}_st{stage:02d}"`. -/
def stageId (chapter stage : ℤ) : String :=
  "ch" ++ padInt 2 chapter ++ "_st" ++ padInt 2 stage

/-- `EventEmitter.emit_stage_start`. -/
def SimState.emit_stage_start (s : SimState) (a : AgentState) (timestamp : ℤ)
    (chapter stage attempt_number team_power team_size : ℤ) (hero_ids : List String) :
    SimState :=
  s.create_event "stage_start" timestamp a
    [("chapter", .i chapter), ("stage", .i stage), ("stage_id", .s (stageId chapter stage)),
     ("attempt_number", .i attempt_number), ("team_power", .i team_power),
     ("team_size", .i team_size), ("hero_ids", .list (hero_ids.map Val.s))]

/-- `EventEmitter.emit_stage_complete`. -/
def SimState.emit_stage_complete (s : SimState) (a : AgentState) (timestamp : ℤ)
    (chapter stage duration_sec stars : ℤ) (is_first_clear : Bool)
    (gold_reward exp_reward : ℤ) (loot_items : List (List (String × Val))) : SimState :=
  s.create_event "stage_complete" timestamp a
    [("chapter", .i chapter), ("stage", .i stage), ("stage_id", .s (stageId chapter stage)),
     ("duration_sec", .i duration_sec), ("stars", .i stars),
     ("is_first_clear", .b is_first_clear), ("gold_reward", .i gold_reward),
     ("exp_reward", .i exp_reward), ("loot_items", .list (loot_items.map Val.obj))]

/-- `EventEmitter.emit_stage_fail`. -/
def SimState.emit_stage_fail (s : SimState) (a : AgentState) (timestamp : ℤ)
    (chapter stage duration_sec : ℤ) (fail_reason : String)
    (team_power required_power : ℤ) : SimState :=
  s.create_event "stage_fail" timestamp a
    [("chapter", .i chapter), ("stage", .i stage), ("stage_id", .s (stageId chapter stage)),
     ("duration_sec", .i duration_sec), ("fail_reason", .s fail_reason),
     ("team_power", .i team_power), ("required_power", .i required_power)]

/-- `EventEmitter.emit_idle_reward_claim`. -/
def SimState.emit_idle_reward_claim (s : SimState) (a : AgentState) (timestamp : ℤ)
    (idle_duration_sec gold_earned exp_earned : ℤ) (max_stage_id : String) : SimState :=
  s.create_event "idle_reward_claim" timestamp a
    [("idle_duration_sec", .i idle_duration_sec), ("gold_earned", .i gold_earned),
     ("exp_earned", .i exp_earned), ("max_stage_id", .s max_stage_id)]

/-- `EventEmitter.emit_player_levelup`. -/
def SimState.emit_player_levelup (s : SimState) (a : AgentState) (timestamp : ℤ)
    (old_level new_level : ℤ) (unlocked_features : List String) : SimState :=
  s.create_event "player_levelup" timestamp a
    [("old_level", .i old_level), ("new_level", .i new_level),
     ("unlocked_features", .list (unlocked_features.map Val.s))]

/-- `EventEmitter.emit_gacha_banner_view`. -/
def SimState.emit_gacha_banner_view (s : SimState) (a : AgentState) (timestamp : ℤ)
    (banner : GachaBanner) (player_gems player_tickets : ℤ)
    (can_afford_single can_afford_multi : Bool) : SimState :=
  s.create_event "gacha_banner_view" timestamp a
    [("banner_id", .s banner.banner_id), ("banner_type", .s banner.banner_type),
     ("featured_hero_id", .optS banner.featured_hero_id),
     ("player_gems", .i player_gems), ("player_tickets", .i player_tickets),
     ("can_afford_single", .b can_afford_single),
     ("can_afford_multi", .b can_afford_multi)]

/-- `EventEmitter.emit_gacha_summon`. -/
def SimState.emit_gacha_summon (s : SimState) (a : AgentState) (timestamp : ℤ)
    (banner : GachaBanner) (summon_type : String) (summon_index : ℤ)
    (summon_cost_currency : String) (summon_cost_amount : ℤ) (hero : HeroTemplate)
    (is_new is_duplicate : Bool) (pity_counter_before pity_counter_after : ℤ)
    (pity_triggered : Bool) : SimState :=
  s.create_event "gacha_summon" timestamp a
    [("banner_id", .s banner.banner_id), ("banner_type", .s banner.banner_type),
     ("summon_type", .s summon_type), ("summon_index", .i summon_index),
     ("summon_cost_currency", .s summon_cost_currency),
     ("summon_cost_amount", .i summon_cost_amount),
     ("hero_id", .s hero.hero_id), ("hero_name", .s hero.name),
     ("hero_rarity", .s hero.rarity.value), ("hero_class", .s hero.hero_class.value),
     ("is_new", .b is_new), ("is_duplicate", .b is_duplicate),
     ("is_featured", .b (banner.featured_hero_id = some hero.hero_id)),
     ("pity_counter_before", .i pity_counter_before),
     ("pity_counter_after", .i pity_counter_after),
     ("pity_triggered", .b pity_triggered)]

/-- `EventEmitter.emit_hero_levelup`. -/
def SimState.emit_hero_levelup (s : SimState) (a : AgentState) (timestamp : ℤ)
    (hero : HeroInstance) (old_level new_level gold_spent power_before power_after : ℤ) :
    SimState :=
  s.create_event "hero_levelup" timestamp a
    [("hero_id", .s hero.hero_id), ("hero_name", .s hero.template.name),
     ("hero_rarity", .s hero.template.rarity.value),
     ("old_level", .i old_level), ("new_level", .i new_level),
     ("gold_spent", .i gold_spent), ("power_before", .i power_before),
     ("power_after", .i power_after)]

/-- `EventEmitter.emit_shop_view`. -/
def SimState.emit_shop_view (s : SimState) (a : AgentState) (timestamp : ℤ)
    (shop_tab : String) (player_gems : ℤ) : SimState :=
  s.create_event "shop_view" timestamp a
    [("shop_tab", .s shop_tab), ("player_gems", .i player_gems)]

/-- `EventEmitter.emit_iap_initiated`. -/
def SimState.emit_iap_initiated (s : SimState) (a : AgentState) (timestamp : ℤ)
    (product_id product_name : String) (price_usd : ℚ) : SimState :=
  s.create_event "iap_initiated" timestamp a
    [("product_id", .s product_id), ("product_name", .s product_name),
     ("price_usd", .q price_usd)]

/-- `generate_transaction_id`. -/
def generate_transaction_id (timestamp : ℤ) : String :=
  "txn_" ++ toString (timestamp * 1000)

/-- `EventEmitter.emit_iap_purchase`. -/
def SimState.emit_iap_purchase (s : SimState) (a : AgentState) (timestamp : ℤ)
    (product_id product_name : String) (price_usd : ℚ) (gems_received : ℤ)
    (items_received : List (List (String × Val))) (is_first_purchase : Bool)
    (purchase_number vip_points_earned : ℤ) : SimState :=
  s.create_event "iap_purchase" timestamp a
    [("product_id", .s product_id), ("product_name", .s product_name),
     ("price_usd", .q price_usd), ("gems_received", .i gems_received),
     ("items_received", .list (items_received.map Val.obj)),
     ("is_first_purchase", .b is_first_purchase),
     ("purchase_number", .i purchase_number),
     ("transaction_id", .s (generate_transaction_id timestamp)),
     ("vip_points_earned", .i vip_points_earned)]

/-- `EventEmitter.emit_iap_failed`. -/
def SimState.emit_iap_failed (s : SimState) (a : AgentState) (timestamp : ℤ)
    (product_id : String) (price_usd : ℚ) (fail_reason : String) : SimState :=
  s.create_event "iap_failed" timestamp a
    [("product_id", .s product_id), ("price_usd", .q price_usd),
     ("fail_reason", .s fail_reason)]

/-- `EventEmitter.emit_ad_opportunity`. -/
def SimState.emit_ad_opportunity (s : SimState) (a : AgentState) (timestamp : ℤ)
    (placement : String) (ads_watched_today ads_available : ℤ) : SimState :=
  s.create_event "ad_opportunity" timestamp a
    [("placement", .s placement), ("ads_watched_today", .i ads_watched_today),
     ("ads_available", .i ads_available)]

/-- `EventEmitter.emit_ad_started`. -/
def SimState.emit_ad_started (s : SimState) (a : AgentState) (timestamp : ℤ)
    (placement ad_network : String) : SimState :=
  s.create_event "ad_started" timestamp a
    [("placement", .s placement), ("ad_network", .s ad_network)]

/-- `EventEmitter.emit_ad_completed`. -/
def SimState.emit_ad_completed (s : SimState) (a : AgentState) (timestamp : ℤ)
    (placement ad_network reward_currency : String)
    (reward_amount watch_duration_sec : ℤ) : SimState :=
  s.create_event "ad_completed" timestamp a
    [("placement", .s placement), ("ad_network", .s ad_network),
     ("reward_currency", .s reward_currency), ("reward_amount", .i reward_amount),
     ("watch_duration_sec", .i watch_duration_sec)]

/-- `EventEmitter.emit_ad_skipped`. -/
def SimState.emit_ad_skipped (s : SimState) (a : AgentState) (timestamp : ℤ)
    (placement ad_network : String) (skip_after_sec : ℤ) (skip_reason : String) :
    SimState :=
  s.create_event "ad_skipped" timestamp a
    [("placement", .s placement), ("ad_network", .s ad_network),
     ("skip_after_sec", .i skip_after_sec), ("skip_reason", .s skip_reason)]

/-- `EventEmitter.emit_arena_battle_start`. -/
def SimState.emit_arena_battle_start (s : SimState) (a : AgentState) (timestamp : ℤ)
    (opponent_user_id : String) (opponent_power opponent_rank player_power
    player_rank attempt_number : ℤ) (is_paid_attempt : Bool) : SimState :=
  s.create_event "arena_battle_start" timestamp a
    [("opponent_user_id", .s opponent_user_id), ("opponent_power", .i opponent_power),
     ("opponent_rank", .i opponent_rank), ("player_power", .i player_power),
     ("player_rank", .i player_rank), ("attempt_number", .i attempt_number),
     ("is_paid_attempt", .b is_paid_attempt)]

/-- `EventEmitter.emit_arena_battle_end`. -/
def SimState.emit_arena_battle_end (s : SimState) (a : AgentState) (timestamp : ℤ)
    (opponent_user_id result : String) (duration_sec rank_before rank_after
    rating_change : ℤ) (reward_currency : Option String) (reward_amount : Option ℤ) :
    SimState :=
  let props :=
    [("opponent_user_id", Val.s opponent_user_id), ("result", Val.s result),
     ("duration_sec", Val.i duration_sec), ("rank_before", Val.i rank_before),
     ("rank_after", Val.i rank_after), ("rating_change", Val.i rating_change)]
  let props :=
    if truthyOptStr reward_currency then
      props ++ [("reward_currency", Val.optS reward_currency),
                ("reward_amount", Val.optI reward_amount)]
    else props
  s.create_event "arena_battle_end" timestamp a props

/-- `EventEmitter.emit_guild_join`. -/
def SimState.emit_guild_join (s : SimState) (a : AgentState) (timestamp : ℤ)
    (guild : Guild) (join_method : String) : SimState :=
  s.create_event "guild_join" timestamp a
    [("guild_id", .s guild.guild_id), ("guild_name", .s guild.name),
     ("guild_member_count", .i guild.member_count), ("join_method", .s join_method)]

/-- `EventEmitter.emit_guild_boss_attack`. -/
def SimState.emit_guild_boss_attack (s : SimState) (a : AgentState) (timestamp : ℤ)
    (guild_id boss_id : String) (boss_level damage_dealt team_power attempt_number : ℤ)
    (boss_hp_remaining_pct : ℚ) : SimState :=
  s.create_event "guild_boss_attack" timestamp a
    [("guild_id", .s guild_id), ("boss_id", .s boss_id),
     ("boss_level", .i boss_level), ("damage_dealt", .i damage_dealt),
     ("team_power", .i team_power), ("attempt_number", .i attempt_number),
     ("boss_hp_remaining_pct", .q boss_hp_remaining_pct)]

/-- `EventEmitter.emit_daily_login`. -/
def SimState.emit_daily_login (s : SimState) (a : AgentState) (timestamp : ℤ)
    (login_streak reward_day : ℤ) (reward_currency : String) (reward_amount : ℤ)
    (is_streak_bonus : Bool) : SimState :=
  s.create_event "daily_login" timestamp a
    [("login_streak", .i login_streak), ("reward_day", .i reward_day),
     ("reward_currency", .s reward_currency), ("reward_amount", .i reward_amount),
     ("is_streak_bonus", .b is_streak_bonus)]

/-- `EventEmitter.emit_player_state_snapshot`. -/
def SimState.emit_player_state_snapshot (s : SimState) (a : AgentState)
    (timestamp : ℤ) : SimState :=
  s.create_event "player_state_snapshot" timestamp a
    [("snapshot_date", .i s.current_date),
     ("player_level", .i a.player_level),
     ("vip_level", .i a.vip_level),
     ("total_spent_usd", .q (pyRound2 a.total_spent_usd)),
     ("gold_balance", .i a.gold),
     ("gems_balance", .i a.gems),
     ("energy_balance", .i a.energy),
     ("summon_tickets_balance", .i a.summon_tickets),
     ("heroes_count", .i a.heroes.length),
     ("heroes_by_rarity", .obj (a.get_heroes_by_rarity.map (fun p => (p.1, Val.i p.2)))),
     ("max_hero_level", .i a.get_max_hero_level),
     ("max_hero_stars", .i a.get_max_hero_stars),
     ("team_power", .i a.team_power),
     ("max_chapter", .i a.max_chapter),
     ("max_stage", .i a.max_stage),
     ("total_stages_cleared", .i a.total_stages_cleared),
     ("arena_rank", if a.arena_rank > 0 then .i a.arena_rank else .null),
     ("arena_rating", if a.arena_rank > 0 then .i a.arena_rating else .null),
     ("guild_id", .optS a.guild_id),
     ("total_sessions", .i a.total_sessions),
     ("total_playtime_sec", .i a.total_playtime_sec),
     ("total_gacha_pulls", .i a.total_gacha_pulls),
     ("pity_counter", .i a.pity_counter),
     ("last_active_date", .i s.current_date)]

/-- `EventEmitter.emit_tutorial_step`. -/
def SimState.emit_tutorial_step (s : SimState) (a : AgentState) (timestamp : ℤ)
    (step_id : String) (step_number : ℤ) (step_name : String) (duration_sec : ℤ)
    (is_skipped : Bool) : SimState :=
  s.create_event "tutorial_step" timestamp a
    [("step_id", .s step_id), ("step_number", .i step_number),
     ("step_name", .s step_name), ("duration_sec", .i duration_sec),
     ("is_skipped", .b is_skipped)]

/-- `EventEmitter.emit_tutorial_complete`. -/
def SimState.emit_tutorial_complete (s : SimState) (a : AgentState) (timestamp : ℤ)
    (total_duration_sec steps_completed steps_skipped : ℤ) : SimState :=
  s.create_event "tutorial_complete" timestamp a
    [("total_duration_sec", .i total_duration_sec),
     ("steps_completed", .i steps_completed),
     ("steps_skipped", .i steps_skipped)]

/-- `Simulator._flush_events`: hand the emitter's buffer to the output
sink (`OutputManager.write_events` appends the batch in order). -/
def SimState.flush_events (s : SimState) : SimState :=
  { s with
    output_events := s.output_events ++ s.emitter_events
    emitter_events := [] }

/-- `OutputManager.record_install`. -/
def SimState.record_install (s : SimState) (source ptype : String) : SimState :=
  { s with
    installs_by_source := AList.incr source s.installs_by_source
    installs_by_type := AList.incr ptype s.installs_by_type }

/-! ## Simulation engine (`src/simulation.py`) -/

/-- Draw `rng.random()` from the state's generator. -/
def SimState.draw (s : SimState) : ℚ × SimState :=
  let (q, r') := s.rng.random
  (q, { s with rng := r' })

/-- Draw `rng.randint(a, b)` from the state's generator. -/
def SimState.drawInt (s : SimState) (a b : ℤ) : ℤ × SimState :=
  let (v, r') := Rng.randint a b s.rng
  (v, { s with rng := r' })

/-- Draw `rng.choice(l)` from the state's generator. -/
def SimState.drawChoice (s : SimState) (l : List α) (d : α) : α × SimState :=
  let (v, r') := Rng.choice l d s.rng
  (v, { s with rng := r' })

/-- Increment `agent.current_session_events`. -/
def AgentState.bumpEvents (a : AgentState) : AgentState :=
  { a with current_session_events := a.current_session_events + 1 }

/-- Python `//` (floor division). -/
def pyFloorDiv (a b : ℤ) : ℤ := Int.fdiv a b

/-- Fuel bound for the `while True` of `Simulator._check_level_up`; the
source loop performs at most `100 - player_level + 1` iterations because
each one increments the level and the loop stops at level 100. -/
def levelUpFuel : ℕ := 200

/-- One tutorial step definition. -/
structure TutorialStep where
  id : String
  name : String
  lo : ℤ
  hi : ℤ
deriving DecidableEq

/-- `TUTORIAL_STEPS`. -/
def TUTORIAL_STEPS : List TutorialStep :=
  [{ id := "tut_welcome", name := "Welcome", lo := 5, hi := 15 },
   { id := "tut_first_battle", name := "First Battle", lo := 20, hi := 60 },
   { id := "tut_hero_summon", name := "Hero Summon", lo := 20, hi := 50 },
   { id := "tut_hero_levelup", name := "Hero Level Up", lo := 15, hi := 40 },
   { id := "tut_team_setup", name := "Team Setup", lo := 15, hi := 35 },
   { id := "tut_campaign", name := "Campaign Intro", lo := 20, hi := 45 },
   { id := "tut_idle_rewards", name := "Idle Rewards", lo := 10, hi := 25 },
   { id := "tut_complete", name := "Tutorial Complete", lo := 5, hi := 10 }]

/-- `EXTENDED_TUTORIAL_STEPS`. -/
def EXTENDED_TUTORIAL_STEPS : List TutorialStep :=
  [{ id := "tut_arena_preview", name := "Arena Preview", lo := 20, hi := 40 },
   { id := "tut_shop_tour", name := "Shop Tour", lo := 15, hi := 30 },
   { id := "tut_guild_preview", name := "Guild Preview", lo := 15, hi := 35 },
   { id := "tut_advanced_tips", name := "Advanced Tips", lo := 10, hi := 25 }]

/-- `AD_NETWORKS`. -/
def AD_NETWORKS : List String := ["unity_ads", "applovin", "ironsource", "admob"]

/-- `PRODUCT_NAMES`. -/
def PRODUCT_NAMES : List (String × String) :=
  [("starter_pack", "Starter Pack"), ("gems_tier1", "Pile of Gems"),
   ("gems_tier2", "Bag of Gems"), ("gems_tier3", "Chest of Gems"),
   ("gems_tier4", "Vault of Gems"), ("gems_tier5", "Treasury of Gems"),
   ("monthly_pass", "Monthly Pass")]

/-- `Simulator._check_level_up` (fuel-bounded; see `levelUpFuel`). -/
def checkLevelUp (cfg : SimulationConfig) :
    ℕ → SimState → AgentState → ℤ → SimState × AgentState
  | 0, s, a, _ => (s, a)
  | fuel + 1, s, a, timestamp =>
      let exp_needed := WorldState.get_exp_for_level cfg (a.player_level + 1)
      if a.player_exp < exp_needed then (s, a)
      else if a.player_level ≥ 100 then (s, a)
      else
        let old_level := a.player_level
        let a := { a with
          player_exp := a.player_exp - exp_needed
          player_level := a.player_level + 1 }
        let unlocks :=
          (cfg.feature_unlocks.filter (fun u => u.2 = a.player_level)).map Prod.fst
        let s := s.emit_player_levelup a timestamp old_level a.player_level unlocks
        let a := a.bumpEvents
        checkLevelUp cfg fuel s a timestamp

/-- `Simulator._claim_idle_rewards`. -/
def claimIdleRewards (cfg : SimulationConfig) (s : SimState) (a : AgentState)
    (timestamp : ℤ) : SimState × AgentState × ℤ :=
  if a.claimed_idle_today then (s, a, timestamp)
  else
    let idle_hours : ℚ :=
      match a.last_session_end with
      | some lse => ((timestamp - lse : ℤ) : ℚ) / 3600
      | none => 12
    let max_stage := (a.max_chapter - 1) * cfg.stages_per_chapter + a.max_stage
    let rewards := WorldState.get_idle_rewards cfg max_stage idle_hours
    let (s, a) :=
      if rewards.gold > 0 then
        let a := { a with
          gold := a.gold + rewards.gold
          player_exp := a.player_exp + rewards.exp }
        let max_stage_id := stageId a.max_chapter a.max_stage
        let s := s.emit_idle_reward_claim a timestamp (pyTrunc (rewards.hours * 3600))
          rewards.gold rewards.exp max_stage_id
        let a := a.bumpEvents
        let s := s.emit_economy_source a timestamp "gold" rewards.gold a.gold "idle_reward"
        let a := a.bumpEvents
        checkLevelUp cfg levelUpFuel s a timestamp
      else (s, a)
    let a := { a with claimed_idle_today := true }
    let (d, s) := s.drawInt 5 15
    (s, a, timestamp + d)

/-- `Simulator._claim_daily_login`. -/
def claimDailyLogin (s : SimState) (a : AgentState) (timestamp : ℤ) :
    SimState × AgentState × ℤ :=
  if a.claimed_daily_login then (s, a, timestamp)
  else
    let reward_day := (a.login_streak - 1) % 30 + 1
    let is_streak_bonus := a.login_streak % 7 = 0
    let reward_currency := if is_streak_bonus then "gems" else "gold"
    let reward_amount :=
      if is_streak_bonus then 50 * pyFloorDiv a.login_streak 7 else 100 * reward_day
    let a :=
      if reward_currency = "gems" then { a with gems := a.gems + reward_amount }
      else { a with gold := a.gold + reward_amount }
    let s := s.emit_daily_login a timestamp a.login_streak reward_day reward_currency
      reward_amount is_streak_bonus
    let a := a.bumpEvents
    let s := s.emit_economy_source a timestamp reward_currency reward_amount
      (if reward_currency = "gems" then a.gems else a.gold) "login_reward"
    let a := a.bumpEvents
    let a := { a with claimed_daily_login := true }
    let (d, s) := s.drawInt 3 10
    (s, a, timestamp + d)

/-- `Simulator._claim_monthly_pass`. -/
def claimMonthlyPass (cfg : SimulationConfig) (s : SimState) (a : AgentState)
    (timestamp : ℤ) : SimState × AgentState × ℤ :=
  if ¬ a.has_active_monthly then (s, a, timestamp)
  else
    match a.monthly_pass_start with
    | some mps =>
        let days_active := s.current_date - mps
        if days_active ≥ 30 then (s, { a with has_active_monthly := false }, timestamp)
        else
          let daily_gems :=
            ((cfg.shop_products.lookup "monthly_pass").getD {}).gems_daily.getD 100
          let a := { a with
            gems := a.gems + daily_gems
            monthly_pass_day := a.monthly_pass_day + 1 }
          let s := s.emit_economy_source a timestamp "gems" daily_gems a.gems "vip_bonus"
          let a := a.bumpEvents
          let (d, s) := s.drawInt 2 5
          (s, a, timestamp + d)
    | none =>
        let (d, s) := s.drawInt 2 5
        (s, a, timestamp + d)

/-- Loop of `Simulator._simulate_tutorial` over the step list; `i` is the
running `enumerate` index, the accumulators mirror `total_duration`,
`steps_completed` and `steps_skipped`. -/
def tutorialStepsLoop (s : SimState) (a : AgentState) :
    List TutorialStep → ℤ → ℤ → ℤ → ℤ → ℤ →
    SimState × AgentState × ℤ × ℤ × ℤ × ℤ
  | [], current_time, i, total_duration, steps_completed, steps_skipped =>
      let _ := i
      (s, a, current_time, total_duration, steps_completed, steps_skipped)
  | step :: rest, current_time, i, total_duration, steps_completed, steps_skipped =>
      let (is_skipped, s) :=
        if i ≥ 2 then
          let (q, s) := s.draw
          (q < 1/10, s)
        else (false, s)
      let (duration, steps_completed, steps_skipped, s) :=
        if is_skipped then
          let (d, s) := s.drawInt 1 3
          (d, steps_completed, steps_skipped + 1, s)
        else
          let (d, s) := s.drawInt step.lo step.hi
          (d, steps_completed + 1, steps_skipped, s)
      let s := s.emit_tutorial_step a current_time step.id (i + 1) step.name duration
        is_skipped
      let a := a.bumpEvents
      let a := { a with tutorial_step := i + 1 }
      tutorialStepsLoop s a rest (current_time + duration) (i + 1)
        (total_duration + duration) steps_completed steps_skipped

/-- `Simulator._simulate_tutorial`. -/
def simulateTutorial (s : SimState) (a : AgentState) (start_time : ℤ) :
    SimState × AgentState :=
  let variant := (a.ab_tests.lookup "onboarding_length").getD "control"
  let steps :=
    if variant = "short" then TUTORIAL_STEPS.take 4
    else if variant = "extended" then TUTORIAL_STEPS ++ EXTENDED_TUTORIAL_STEPS
    else TUTORIAL_STEPS
  let (s, a, current_time, total_duration, steps_completed, steps_skipped) :=
    tutorialStepsLoop s a steps start_time 0 0 0 0
  let s := s.emit_tutorial_complete a current_time total_duration steps_completed
    steps_skipped
  let a := a.bumpEvents
  (s, { a with tutorial_completed := true })

/-- `Simulator._give_starting_heroes`. -/
def giveStartingHeroes (s : SimState) (a : AgentState) (timestamp : ℤ) :
    SimState × AgentState :=
  let _ := timestamp
  let common_heroes := s.world.get_heroes_by_rarity .COMMON
  let (s, a) :=
    (List.range 3).foldl
      (fun (acc : SimState × AgentState) _ =>
        let (hero_template, s) := acc.1.drawChoice common_heroes dummyHero
        let (a, _, _) := acc.2.add_hero hero_template
        (s, a))
      (s, a)
  (s, a.calculate_team_power)

/-- `Simulator._simulate_first_session`. -/
def simulateFirstSession (cfg : SimulationConfig) (s : SimState) (a : AgentState) :
    SimState × AgentState :=
  let (session_tod, rng') := AgentBehavior.get_session_start_time s.rng
  let s := { s with rng := rng' }
  let timestamp := s.current_date * 86400 + session_tod
  let (sid, s) := s.fresh_uuid
  let a := { a with
    current_session_id := some sid
    current_session_start := some timestamp
    current_session_events := 0
    session_stages_played := 0
    session_gems_spent := 0
    session_gold_spent := 0 }
  let s := s.emit_session_start a timestamp 1 true none
  let a := a.bumpEvents
  let (s, a) := simulateTutorial s a timestamp
  let (s, a) := giveStartingHeroes s a timestamp
  let (s, a, _) := claimDailyLogin s a timestamp
  let (duration_min, rng'') := AgentBehavior.get_session_duration_minutes cfg a 1 s.rng
  let s := { s with rng := rng'' }
  let end_timestamp := timestamp + duration_min * 60
  let s := s.emit_session_end a end_timestamp (duration_min * 60)
    a.current_session_events a.session_stages_played a.session_gems_spent
    a.session_gold_spent
  let a := { a with
    total_sessions := 1
    sessions_today := 1
    total_playtime_sec := duration_min * 60
    last_session_date := some s.current_date
    last_session_end := some end_timestamp
    current_session_id := none }
  (s.flush_events, a)

/-- The daily-quest progress update pattern
(`for quest in agent.daily_quests: if quest.quest_id == qid and not completed: ...`). -/
def updateQuest (quest_id : String) (inc : ℤ) (qs : List DailyQuestProgress) :
    List DailyQuestProgress :=
  qs.map (fun q =>
    if q.quest_id = quest_id ∧ ¬ q.completed then
      let q := { q with current := q.current + inc }
      if q.current ≥ q.target then { q with completed := true } else q
    else q)

/-- `Simulator._play_stage`. -/
def playStage (cfg : SimulationConfig) (s : SimState) (a : AgentState) (timestamp : ℤ) :
    SimState × AgentState × ℤ :=
  let chapter := a.current_chapter
  let stage := a.current_stage
  let energy_cost := cfg.stage_energy_cost
  if a.energy < energy_cost then (s, a, timestamp)
  else
    let a := { a with
      energy := a.energy - energy_cost
      session_stages_played := a.session_stages_played + 1 }
    let s := s.emit_economy_sink a timestamp "energy" energy_cost a.energy "stage_entry"
      (some (stageId chapter stage))
    let a := a.bumpEvents
    let required_power := WorldState.get_stage_power_requirement cfg chapter stage
    let s := s.emit_stage_start a timestamp chapter stage 1 a.team_power a.team.length a.team
    let a := a.bumpEvents
    let ((success, stars), rng') := AgentBehavior.simulate_stage_result a required_power s.rng
    let s := { s with rng := rng' }
    let (duration, s) := s.drawInt 30 120
    let end_time := timestamp + duration
    if success then
      let is_first :=
        chapter > a.max_chapter ∨ (chapter = a.max_chapter ∧ stage > a.max_stage)
      let rewards := WorldState.get_stage_rewards cfg chapter stage
      let a := { a with
        gold := a.gold + rewards.gold
        player_exp := a.player_exp + rewards.exp
        total_stages_cleared := a.total_stages_cleared + 1 }
      let (lootq, s) := s.draw
      let (loot, s) :=
        if lootq < 3/10 then
          let (eq, s) := s.drawInt 1 50
          ([[("item_id", Val.s ("equip_" ++ padInt 3 eq)),
             ("item_type", Val.s "equipment")]], s)
        else ([], s)
      let s := s.emit_stage_complete a end_time chapter stage duration stars is_first
        rewards.gold rewards.exp loot
      let a := a.bumpEvents
      let s := s.emit_economy_source a end_time "gold" rewards.gold a.gold "stage_reward"
        (some (stageId chapter stage))
      let a := a.bumpEvents
      let a :=
        if is_first then
          if stage < cfg.stages_per_chapter then
            { a with current_stage := stage + 1, max_stage := stage + 1 }
          else if chapter < cfg.total_chapters then
            { a with current_chapter := chapter + 1, current_stage := 1
                     max_chapter := chapter + 1, max_stage := 1 }
          else a
        else a
      let a := { a with consecutive_losses := 0 }
      let (s, a) := checkLevelUp cfg levelUpFuel s a end_time
      (s, a, end_time)
    else
      let s := s.emit_stage_fail a end_time chapter stage duration "defeat" a.team_power
        required_power
      let a := a.bumpEvents
      let a := { a with consecutive_losses := a.consecutive_losses + 1 }
      (s, a, end_time)

/-- `Simulator._upgrade_hero`: the best-hero scan
(`cost <= agent.gold and cost < best_cost` over `heroes.values()`). -/
def findBestUpgrade (cfg : SimulationConfig) (a : AgentState) :
    Option (HeroInstance × ℤ) :=
  a.heroes.foldl
    (fun best (h : String × HeroInstance) =>
      if h.2.level ≥ 100 then best
      else
        let cost := WorldState.get_levelup_cost cfg h.2.level
        if cost ≤ a.gold then
          match best with
          | some b => if cost < b.2 then some (h.2, cost) else best
          | none => some (h.2, cost)
        else best)
    none

/-- `Simulator._upgrade_hero`. -/
def upgradeHero (cfg : SimulationConfig) (s : SimState) (a : AgentState) (timestamp : ℤ) :
    SimState × AgentState × ℤ :=
  if a.heroes.isEmpty then (s, a, timestamp)
  else
    match findBestUpgrade cfg a with
    | none => (s, a, timestamp)
    | some (best_hero, best_cost) =>
        let old_level := best_hero.level
        let old_power := best_hero.power
        let a := { a with
          gold := a.gold - best_cost
          session_gold_spent := a.session_gold_spent + best_cost }
        let upgraded := { best_hero with level := best_hero.level + 1 }
        let a := { a with heroes := AList.set best_hero.hero_id upgraded a.heroes }
        let s := s.emit_economy_sink a timestamp "gold" best_cost a.gold "hero_levelup"
          (some best_hero.hero_id)
        let a := a.bumpEvents
        let s := s.emit_hero_levelup a timestamp upgraded old_level upgraded.level
          best_cost old_power upgraded.power
        let a := a.bumpEvents
        let a := a.calculate_team_power
        let a := { a with daily_quests := updateQuest "dq_levelup" 1 a.daily_quests }
        let (d, s) := s.drawInt 5 15
        (s, a, timestamp + d)

/-- Fallback banner for `rng.choice`-style lookups (never reached: the
generated world always contains the standard banner). -/
def dummyBanner : GachaBanner := { banner_id := "", banner_type := "" }

/-- One pull of the `for i in range(num_pulls)` loop of
`Simulator._do_gacha` (`i` is the zero-based pull index). -/
def gachaPullStep (cfg : SimulationConfig) (banner : GachaBanner) (summon_type : String)
    (cost_currency : String) (cost : ℤ) (i : ℤ) (s : SimState) (a : AgentState)
    (timestamp : ℤ) : SimState × AgentState × ℤ :=
  let pity_before := a.pity_counter
  let (rarity, rng') := AgentBehavior.roll_gacha cfg a s.rng
  let s := { s with rng := rng' }
  let heroes_pool := s.world.get_heroes_by_rarity rarity
  let (hero_template, s) := s.drawChoice heroes_pool dummyHero
  let (hero_template, s) :=
    if truthyOptStr banner.featured_hero_id ∧ rarity = .LEGENDARY then
      let (q, s) := s.draw
      if q < 5/10 then
        match s.world.get_hero_template (banner.featured_hero_id.getD "") with
        | some featured => (featured, s)
        | none => (hero_template, s)
      else (hero_template, s)
    else (hero_template, s)
  let (a, _, is_new) := a.add_hero hero_template
  let (pity_triggered, a) :=
    if rarity = .LEGENDARY then
      (decide (pity_before ≥ cfg.soft_pity_start),
       { a with pity_counter := 0, got_legendary_recently := true })
    else (false, { a with pity_counter := a.pity_counter + 1 })
  let a := { a with total_gacha_pulls := a.total_gacha_pulls + 1 }
  let s := s.emit_gacha_summon a timestamp banner summon_type (i + 1)
    cost_currency (if i = 0 then cost else 0) hero_template is_new (¬ is_new)
    pity_before a.pity_counter pity_triggered
  let a := a.bumpEvents
  let (d, s) := s.drawInt 1 3
  (s, a, timestamp + d)

/-- The pull loop of `Simulator._do_gacha`. -/
def gachaPullLoop (cfg : SimulationConfig) (banner : GachaBanner) (summon_type : String)
    (cost_currency : String) (cost : ℤ) :
    ℕ → ℤ → SimState → AgentState → ℤ → SimState × AgentState × ℤ
  | 0, _, s, a, timestamp => (s, a, timestamp)
  | n + 1, i, s, a, timestamp =>
      let (s, a, timestamp) :=
        gachaPullStep cfg banner summon_type cost_currency cost i s a timestamp
      gachaPullLoop cfg banner summon_type cost_currency cost n (i + 1) s a timestamp

/-- `Simulator._do_gacha`. -/
def doGacha (cfg : SimulationConfig) (s : SimState) (a : AgentState) (timestamp : ℤ) :
    SimState × AgentState × ℤ :=
  let pull_info := AgentBehavior.get_gacha_pull_type cfg a
  if pull_info.ptype = "none" then (s, a, timestamp)
  else
    let banner := s.world.get_standard_banner.getD dummyBanner
    let (banner, s) :=
      match s.world.get_limited_banner with
      | some limited =>
          let (q, s) := s.draw
          (if q < 6/10 then limited else banner, s)
      | none => (banner, s)
    let s := s.emit_gacha_banner_view a timestamp banner a.gems a.summon_tickets
      (a.gems ≥ cfg.gacha_single_cost ∨ a.summon_tickets ≥ 1)
      (a.gems ≥ cfg.gacha_multi_cost ∨ a.summon_tickets ≥ 10)
    let a := a.bumpEvents
    let (d, s) := s.drawInt 3 10
    let timestamp := timestamp + d
    let num_pulls := pull_info.count
    let currency := pull_info.currency
    let (cost, a) :=
      if currency = some "tickets" then
        (num_pulls, { a with summon_tickets := a.summon_tickets - num_pulls })
      else
        let cost :=
          if num_pulls = 10 then cfg.gacha_multi_cost else cfg.gacha_single_cost
        (cost, { a with
          gems := a.gems - cost
          session_gems_spent := a.session_gems_spent + cost })
    let cost_currency := if currency = some "tickets" then "summon_tickets" else "gems"
    let s := s.emit_economy_sink a timestamp cost_currency cost
      (if currency = some "tickets" then a.summon_tickets else a.gems) "gacha_summon"
    let a := a.bumpEvents
    let summon_type := if num_pulls = 10 then "multi_10" else "single"
    let (s, a, timestamp) :=
      gachaPullLoop cfg banner summon_type cost_currency cost num_pulls.toNat 0 s a
        timestamp
    let a := a.calculate_team_power
    let a := { a with daily_quests := updateQuest "dq_gacha" num_pulls a.daily_quests }
    (s, a, timestamp)

/-- `Simulator._do_arena`. -/
def doArena (cfg : SimulationConfig) (s : SimState) (a : AgentState) (timestamp : ℤ) :
    SimState × AgentState × ℤ :=
  let is_paid := a.arena_attempts_today ≤ 0
  if is_paid ∧ a.gems < cfg.arena_attempt_cost_gems then (s, a, timestamp)
  else
    let (s, a) :=
      if is_paid then
        let a := { a with
          gems := a.gems - cfg.arena_attempt_cost_gems
          session_gems_spent := a.session_gems_spent + cfg.arena_attempt_cost_gems }
        let s := s.emit_economy_sink a timestamp "gems" cfg.arena_attempt_cost_gems
          a.gems "arena_attempt"
        (s, a.bumpEvents)
      else (s, { a with arena_attempts_today := a.arena_attempts_today - 1 })
    let (u, s) :=
      let (v, r') := Rng.uniform (8/10) (12/10) s.rng
      (v, { s with rng := r' })
    let opponent_power := pyTrunc ((a.team_power : ℚ) * u)
    let (dr, s) := s.drawInt (-100) 100
    let opponent_rank := max 1 (a.arena_rank + dr)
    let (oid, s) := s.drawInt 1 100000
    let opponent_id := "u_arena_" ++ padInt 6 oid
    let attempt_num := 5 - a.arena_attempts_today
    let s := s.emit_arena_battle_start a timestamp opponent_id opponent_power
      opponent_rank a.team_power a.arena_rank attempt_num is_paid
    let a := a.bumpEvents
    let (duration, s) := s.drawInt 30 90
    let end_time := timestamp + duration
    let (won, rng') := AgentBehavior.simulate_arena_result a opponent_power s.rng
    let s := { s with rng := rng' }
    let rating_change :=
      AgentBehavior.calculate_arena_rating_change cfg a.arena_rating 1000 won
    let old_rank := a.arena_rank
    let a := { a with arena_rating := a.arena_rating + rating_change }
    let a := { a with
      arena_rank := max 1 (pyTrunc (2000 - (a.arena_rating : ℚ) / 10)) }
    let reward_currency : Option String := if won then some "gold" else none
    let reward_amount : Option ℤ := if won then some (100 + a.arena_rank) else none
    let a := if won then { a with gold := a.gold + (100 + a.arena_rank) } else a
    let s := s.emit_arena_battle_end a end_time opponent_id
      (if won then "win" else "lose") duration old_rank a.arena_rank rating_change
      reward_currency reward_amount
    let a := a.bumpEvents
    if won then
      let s := s.emit_economy_source a end_time "gold" ((reward_amount).getD 0) a.gold
        "arena_reward"
      let a := a.bumpEvents
      let a := { a with daily_quests := updateQuest "dq_arena" 1 a.daily_quests }
      (s, a, end_time)
    else (s, a, end_time)

/-- `Simulator._attack_guild_boss`. -/
def attackGuildBoss (s : SimState) (a : AgentState) (timestamp : ℤ) :
    SimState × AgentState × ℤ :=
  if ¬ truthyOptStr a.guild_id ∨ a.attacked_guild_boss_today then (s, a, timestamp)
  else
    match s.world.guilds.find? (fun g => some g.guild_id = a.guild_id) with
    | none => (s, a, timestamp)
    | some guild =>
        let (u, s) :=
          let (v, r') := Rng.uniform (8/10) (12/10) s.rng
          (v, { s with rng := r' })
        let damage_pct := min ((a.team_power : ℚ) / 1000 * u) 10
        let damage_dealt := pyTrunc (damage_pct * 10000)
        let (hp_remaining, world') :=
          s.world.damage_guild_boss (a.guild_id.getD "") damage_pct
        let s := { s with world := world' }
        let guild :=
          (s.world.guilds.find? (fun g => some g.guild_id = a.guild_id)).getD guild
        let s := s.emit_guild_boss_attack a timestamp guild.guild_id
          ("boss_" ++ padInt 3 guild.boss_level) guild.boss_level damage_dealt
          a.team_power 1 hp_remaining
        let a := a.bumpEvents
        let a := { a with attacked_guild_boss_today := true }
        let reward_gold : ℤ := 500 + guild.boss_level * 100
        let a := { a with gold := a.gold + reward_gold }
        let s := s.emit_economy_source a timestamp "gold" reward_gold a.gold
          "guild_reward"
        let a := a.bumpEvents
        let (d, s) := s.drawInt 30 60
        (s, a, timestamp + d)

/-- `Simulator._join_guild`. -/
def joinGuild (s : SimState) (a : AgentState) (timestamp : ℤ) :
    SimState × AgentState × ℤ :=
  if truthyOptStr a.guild_id then (s, a, timestamp)
  else
    let (gopt, rng') := s.world.get_random_guild s.rng
    let s := { s with rng := rng' }
    match gopt with
    | none => (s, a, timestamp)
    | some guild =>
        let (joined, world') := s.world.join_guild guild.guild_id
        let s := { s with world := world' }
        let (s, a) :=
          if joined then
            let a := { a with
              guild_id := some guild.guild_id
              guild_joined_date := some s.current_date }
            let guild :=
              (s.world.guilds.find? (fun g => g.guild_id = guild.guild_id)).getD guild
            let s := s.emit_guild_join a timestamp guild "search"
            (s, a.bumpEvents)
          else (s, a)
        let (d, s) := s.drawInt 10 30
        (s, a, timestamp + d)

/-- `Simulator._watch_ad`. -/
def watchAd (cfg : SimulationConfig) (s : SimState) (a : AgentState) (timestamp : ℤ) :
    SimState × AgentState × ℤ :=
  if a.ads_watched_today ≥ cfg.max_ads_per_day then (s, a, timestamp)
  else
    let (placement, s) := s.drawChoice ["main_screen", "shop", "energy_refill"] ""
    let (ad_network, s) := s.drawChoice AD_NETWORKS ""
    let s := s.emit_ad_opportunity a timestamp placement a.ads_watched_today
      (cfg.max_ads_per_day - a.ads_watched_today)
    let a := a.bumpEvents
    let timestamp := timestamp + 2
    let s := s.emit_ad_started a timestamp placement ad_network
    let a := a.bumpEvents
    let (q, s) := s.draw
    if q < 5/100 then
      let (skip_time, s) := s.drawInt 5 15
      let s := s.emit_ad_skipped a (timestamp + skip_time) placement ad_network
        skip_time "user_closed"
      let a := a.bumpEvents
      (s, a, timestamp + skip_time)
    else
      let (watch_duration, s) := s.drawInt 15 30
      let end_time := timestamp + watch_duration
      let reward_amount := cfg.ad_reward_gems
      let reward_amount :=
        match a.ab_tests.lookup "ad_reward_amount" with
        | some ad_test =>
            if ad_test = "" then reward_amount
            else
              let effects := ((cfg.ab_tests.lookup "ad_reward_amount").getD {}).effects
              match ((effects.lookup ad_test).getD []).lookup "reward_gems" with
              | some v => pyTrunc v
              | none => reward_amount
        | none => reward_amount
      let a := { a with
        gems := a.gems + reward_amount
        ads_watched_today := a.ads_watched_today + 1 }
      let s := s.emit_ad_completed a end_time placement ad_network "gems" reward_amount
        watch_duration
      let a := a.bumpEvents
      let s := s.emit_economy_source a end_time "gems" reward_amount a.gems "ad_reward"
      let a := a.bumpEvents
      (s, a, end_time)

/-- `Simulator._make_purchase`. -/
def makePurchase (cfg : SimulationConfig) (s : SimState) (a : AgentState)
    (timestamp : ℤ) (trigger : String) : SimState × AgentState × ℤ :=
  let (product_id, rng') := AgentBehavior.select_iap_product a trigger s.rng
  let s := { s with rng := rng' }
  let product_config := (cfg.shop_products.lookup product_id).getD {}
  let price := product_config.price_usd.getD (99/100)
  let product_name := (PRODUCT_NAMES.lookup product_id).getD product_id
  let price :=
    if product_id = "starter_pack" then
      match a.ab_tests.lookup "starter_pack_price" with
      | some t =>
          if t = "" then price
          else
            let effects := ((cfg.ab_tests.lookup "starter_pack_price").getD {}).effects
            (((effects.lookup t).getD []).lookup "price_usd").getD price
      | none => price
    else price
  let s := s.emit_iap_initiated a timestamp product_id product_name price
  let a := a.bumpEvents
  let (d, s) := s.drawInt 5 15
  let timestamp := timestamp + d
  let (q, s) := s.draw
  if q < 1/10 then
    let (reason, s) := s.drawChoice ["cancelled", "payment_error", "network_error"] ""
    let s := s.emit_iap_failed a timestamp product_id price reason
    let a := a.bumpEvents
    (s, a, timestamp)
  else
    let gems := product_config.gems.getD 0
    let gems :=
      if product_id = "monthly_pass" then product_config.gems_immediate.getD 300
      else gems
    let tickets := product_config.summon_tickets.getD 0
    let items : List (List (String × Val)) :=
      if tickets ≠ 0 then
        [[("item_id", Val.s "summon_ticket"), ("amount", Val.i tickets)]]
      else []
    let a :=
      if tickets ≠ 0 then { a with summon_tickets := a.summon_tickets + tickets } else a
    let a := { a with
      gems := a.gems + gems
      total_spent_usd := a.total_spent_usd + price
      purchase_count := a.purchase_count + 1 }
    let vip_points := pyTrunc (price * 100)
    let a := { a with vip_points := a.vip_points + vip_points }
    let a := { a with vip_level := cfg.get_vip_level_for_spend a.total_spent_usd }
    let is_first := a.purchase_count = 1
    let a :=
      if product_id = "starter_pack" then { a with bought_starter_pack := true }
      else if product_id = "monthly_pass" then
        { a with
          has_active_monthly := true
          monthly_pass_start := some s.current_date
          monthly_pass_day := 0 }
      else a
    let s := s.emit_iap_purchase a timestamp product_id product_name price gems items
      is_first a.purchase_count vip_points
    let a := a.bumpEvents
    let s := s.emit_economy_source a timestamp "gems" gems a.gems "iap_purchase"
      (some product_id)
    let a := a.bumpEvents
    (s, a, timestamp)

/-- `Simulator._browse_shop`. -/
def browseShop (cfg : SimulationConfig) (s : SimState) (a : AgentState)
    (timestamp : ℤ) : SimState × AgentState × ℤ :=
  let (tab, s) := s.drawChoice ["iap", "gems", "daily", "special"] ""
  let s := s.emit_shop_view a timestamp tab a.gems
  let a := a.bumpEvents
  let (d, s) := s.drawInt 5 20
  let timestamp := timestamp + d
  let (trigger, s) :=
    if ¬ a.bought_starter_pack then (some "starter_pack_offer", s)
    else if a.pity_counter ≥ 70 then (some "pity_close", s)
    else if a.energy < 20 then (some "out_of_energy", s)
    else if ¬ a.has_active_monthly then
      let (q, s) := s.draw
      if q < 3/10 then (some "monthly_pass_reminder", s)
      else if s.current_date - a.install_date ≥ 30 then (some "late_game_offer", s)
      else (none, s)
    else if s.current_date - a.install_date ≥ 30 then (some "late_game_offer", s)
    else (none, s)
  match trigger with
  | some trig =>
      let (ok, rng') := AgentBehavior.should_attempt_iap cfg a trig s.rng
      let s := { s with rng := rng' }
      if ok then makePurchase cfg s a timestamp trig else (s, a, timestamp)
  | none => (s, a, timestamp)

/-- Fuel bound for the session action loop of `Simulator._simulate_session`
(the source `while` has no static bound: an iteration may leave the clock
unchanged; all properties below hold for every fuel value). -/
def sessionFuel : ℕ := 5000

/-- One pass of the weighted-priority action chain of
`Simulator._simulate_session` (the body of the `while` loop after the
`action_time` draw): the `elif` chain evaluates its guards in order, each
guard consuming stream draws only when reached. -/
def sessionActionStep (cfg : SimulationConfig) (s : SimState) (a : AgentState)
    (current_time : ℤ) (action_time : ℤ) : SimState × AgentState × ℤ :=
  let (cond_stage, s) :=
    if a.energy ≥ cfg.stage_energy_cost then
      let (q, s) := s.draw
      (q < 85/100, s)
    else (false, s)
  if cond_stage then playStage cfg s a current_time
  else
    let (q2, s) := s.draw
    if q2 < 70/100 then upgradeHero cfg s a current_time
    else
      let (g, rng') := AgentBehavior.should_do_gacha cfg a s.rng
      let s := { s with rng := rng' }
      if g then doGacha cfg s a current_time
      else
        let (ar, rng') := AgentBehavior.should_do_arena cfg a s.rng
        let s := { s with rng := rng' }
        if ar then doArena cfg s a current_time
        else
          let (gb, rng') := AgentBehavior.should_attack_guild_boss cfg a s.rng
          let s := { s with rng := rng' }
          if gb then attackGuildBoss s a current_time
          else
            let (jg, rng') := AgentBehavior.should_join_guild cfg a s.rng
            let s := { s with rng := rng' }
            if jg then joinGuild s a current_time
            else
              let (wa, rng') := AgentBehavior.should_watch_ad cfg a s.rng
              let s := { s with rng := rng' }
              if wa then watchAd cfg s a current_time
              else
                let (q3, s) := s.draw
                if q3 < 30/100 then browseShop cfg s a current_time
                else (s, a, current_time + action_time)

/-- The `while remaining_time > 1` loop of `Simulator._simulate_session`
(fuel-bounded, see `sessionFuel`). -/
def sessionActionLoop (cfg : SimulationConfig) :
    ℕ → SimState → AgentState → ℤ → ℤ → SimState × AgentState × ℤ
  | 0, s, a, current_time, _ => (s, a, current_time)
  | fuel + 1, s, a, current_time, end_time =>
      let remaining_time : ℚ := ((end_time - current_time : ℤ) : ℚ) / 60
      if remaining_time > 1 then
        let (action_time, s) := s.drawInt 10 60
        let (s, a, current_time) := sessionActionStep cfg s a current_time action_time
        if current_time ≥ end_time then (s, a, current_time)
        else sessionActionLoop cfg fuel s a current_time end_time
      else (s, a, current_time)

/-- `Simulator._simulate_session`. -/
def simulateSession (cfg : SimulationConfig) (s : SimState) (a : AgentState)
    (start_time : ℤ) (session_number : ℤ) : SimState × AgentState :=
  let a := { a with
    total_sessions := a.total_sessions + 1
    sessions_today := a.sessions_today + 1 }
  let time_since_last : Option ℤ :=
    match a.last_session_end with
    | some lse => some (start_time - lse)
    | none => none
  let (sid, s) := s.fresh_uuid
  let a := { a with
    current_session_id := some sid
    current_session_start := some start_time
    current_session_events := 0
    session_stages_played := 0
    session_gems_spent := 0
    session_gold_spent := 0 }
  let s := s.emit_session_start a start_time a.total_sessions false time_since_last
  let a := a.bumpEvents
  let current_time := start_time
  let (duration_min, rng') :=
    AgentBehavior.get_session_duration_minutes cfg a session_number s.rng
  let s := { s with rng := rng' }
  let end_time := start_time + duration_min * 60
  let (s, a, current_time) :=
    if session_number = 1 then
      let (s, a, t) := claimIdleRewards cfg s a current_time
      let (s, a, t) := claimDailyLogin s a t
      claimMonthlyPass cfg s a t
    else (s, a, current_time)
  let (s, a, current_time) := sessionActionLoop cfg sessionFuel s a current_time end_time
  let actual_duration := current_time - start_time
  let s := s.emit_session_end a current_time actual_duration a.current_session_events
    a.session_stages_played a.session_gems_spent a.session_gold_spent
  let a := { a with
    total_playtime_sec := a.total_playtime_sec + actual_duration
    last_session_date := some s.current_date
    last_session_end := some current_time
    current_session_id := none }
  (s.flush_events, a)

/-- Ascending insertion into a sorted list (used for `list.sort()` on
session start times). -/
def insertSorted (x : ℤ) : List ℤ → List ℤ
  | [] => [x]
  | y :: ys => if x ≤ y then x :: y :: ys else y :: insertSorted x ys

/-- `session_times.sort()`: ascending sort of the drawn session times. -/
def sortTimes (l : List ℤ) : List ℤ := l.foldl (fun acc x => insertSorted x acc) []

/-- The session-time generation loop of `Simulator._simulate_agent_day`. -/
def genSessionTimes (current_date : ℤ) : ℕ → SimState → List ℤ × SimState
  | 0, s => ([], s)
  | n + 1, s =>
      let (tod, rng') := AgentBehavior.get_session_start_time s.rng
      let s := { s with rng := rng' }
      let (rest, s) := genSessionTimes current_date n s
      ((current_date * 86400 + tod) :: rest, s)

/-- The per-session loop of `Simulator._simulate_agent_day`
(`for i, session_start in enumerate(session_times)`). -/
def runSessions (cfg : SimulationConfig) :
    List ℤ → ℤ → SimState → AgentState → SimState × AgentState
  | [], _, s, a => (s, a)
  | t :: rest, i, s, a =>
      let (s, a) := simulateSession cfg s a t i
      runSessions cfg rest (i + 1) s a

/-- The lazy `late_game_offer` A/B activation of
`Simulator._simulate_agent_day` (assigned once the agent is 30 or more
days past install, through the same `get_ab_group` hash as the install-time
assignment). -/
def lateGameAssign (cfg : SimulationConfig) (md5 : String → ℕ) (current_date : ℤ)
    (a : AgentState) : AgentState :=
  let days_since := current_date - a.install_date
  if days_since ≥ 30 ∧ (a.ab_tests.lookup "late_game_offer").isNone then
    let test_config := (cfg.ab_tests.lookup "late_game_offer").getD {}
    if test_config.enabled then
      if test_config.variants ≠ [] ∧ test_config.weights ≠ [] then
        { a with
          ab_tests :=
            AList.set "late_game_offer"
              (get_ab_group md5 a.user_id "late_game_offer" test_config.variants
                test_config.weights cfg.seed)
              a.ab_tests }
      else a
    else a
  else a

/-- `Simulator._simulate_agent_day`. -/
def simulateAgentDay (cfg : SimulationConfig) (md5 : String → ℕ) (s : SimState)
    (a : AgentState) : SimState × AgentState :=
  let a := a.reset_daily_state
  let a := { a with daily_quests := AgentBehavior.generate_daily_quests cfg a }
  let a := lateGameAssign cfg md5 s.current_date a
  let a :=
    match a.last_session_date with
    | some lsd =>
        if s.current_date - lsd = 1 then { a with login_streak := a.login_streak + 1 }
        else { a with login_streak := 1 }
    | none => { a with login_streak := 1 }
  let (num_sessions, rng') := AgentBehavior.get_sessions_count cfg a s.current_date s.rng
  let s := { s with rng := rng' }
  let (session_times, s) := genSessionTimes s.current_date num_sessions.toNat s
  let session_times := sortTimes session_times
  let (s, a) := runSessions cfg session_times 1 s a
  if num_sessions > 0 then
    let s := s.emit_player_state_snapshot a (session_times.headD 0)
    (s.flush_events, a)
  else (s, a)

/-- `Simulator._select_install_source`. -/
def selectInstallSource (cfg : SimulationConfig) (s : SimState) : String × SimState :=
  let (value, s) := s.draw
  match cumPick value (cfg.install_sources.map (fun p => (p.1, p.2.share))) 0 with
  | some src => (src, s)
  | none => ((cfg.install_sources.map Prod.fst).getLastD "", s)

/-- `Simulator._get_permanent_churn_probability` (its `agent` parameter is
unused in the source and therefore omitted). -/
def getPermanentChurnProbability (days_since : ℤ) : ℚ :=
  if days_since ≤ 7 then 1/10
  else if days_since ≤ 30 then 3/10
  else if days_since ≤ 60 then 1/2
  else 7/10

/-- `set.add` on the user-id bookkeeping lists. -/
def addUnique (uid : String) (l : List String) : List String :=
  if uid ∈ l then l else l ++ [uid]

/-- The normal-install loop of `Simulator._create_daily_installs`. -/
def normalInstallLoop (cfg : SimulationConfig) (md5 : String → ℕ) :
    ℕ → SimState → SimState
  | 0, s => s
  | n + 1, s =>
      let (source, s) := selectInstallSource cfg s
      let (agent, counter', rng') :=
        AgentFactory.create_agent cfg md5 cfg.seed s.agent_counter s.current_date source
          s.rng false
      let s := { s with rng := rng', agent_counter := counter' }
      let s := { s with
        agents := s.agents ++ [agent]
        active_agents := addUnique agent.user_id s.active_agents }
      let s := s.record_install source agent.agent_type.value
      let (s, agent) := simulateFirstSession cfg s agent
      let s := { s with agents := (s.agents.dropLast) ++ [agent] }
      normalInstallLoop cfg md5 n s

/-- The bad-traffic install loop of `Simulator._create_daily_installs`. -/
def badInstallLoop (cfg : SimulationConfig) (md5 : String → ℕ) (bt : BadTrafficCfg) :
    ℕ → SimState → SimState
  | 0, s => s
  | n + 1, s =>
      let source_name := bt.source_name.getD "fake_network"
      let bot_ratio := bt.bot_ratio.getD (4/10)
      let (q, s) := s.draw
      let is_bot := q < bot_ratio
      let (agent, counter', rng') :=
        AgentFactory.create_agent cfg md5 cfg.seed s.agent_counter s.current_date
          source_name s.rng is_bot
      let agent := { agent with
        source_retention_mod := bt.retention_modifier.getD (3/10)
        source_monetization_mod := bt.monetization_modifier.getD (1/10) }
      let s := { s with rng := rng', agent_counter := counter' }
      let s := { s with
        agents := s.agents ++ [agent]
        active_agents := addUnique agent.user_id s.active_agents }
      let s := s.record_install source_name agent.agent_type.value
      let (s, agent) := simulateFirstSession cfg s agent
      let s := { s with agents := (s.agents.dropLast) ++ [agent] }
      badInstallLoop cfg md5 bt n s

/-- `Simulator._create_daily_installs`. -/
def createDailyInstalls (cfg : SimulationConfig) (md5 : String → ℕ) (s : SimState) :
    SimState :=
  let day_index := s.day_number - 1
  let num_installs := s.installs_per_day.getD day_index.toNat 0
  let bad_traffic := cfg.bad_traffic_config
  let is_bad_traffic_day :=
    match bad_traffic with
    | some bt => bt.day == some s.day_number
    | none => false
  let bad_installs :=
    if is_bad_traffic_day then ((bad_traffic.getD {}).volume).getD 0 else 0
  let normal_installs := if is_bad_traffic_day then num_installs - bad_installs
    else num_installs
  let s := normalInstallLoop cfg md5 normal_installs.toNat s
  if bad_installs > 0 then
    badInstallLoop cfg md5 (bad_traffic.getD {}) bad_installs.toNat s
  else s

/-- The body of the existing-agent loop of `Simulator._simulate_day` for a
single agent: the churned guard, the return decision, and the
permanent-churn decision. -/
def simulateExistingAgentStep (cfg : SimulationConfig) (md5 : String → ℕ)
    (s : SimState) (a : AgentState) : SimState × AgentState :=
  if a.is_churned then (s, a)
  else
    let (willRet, rng') := AgentBehavior.will_return_today cfg a s.current_date s.rng
    let s := { s with rng := rng' }
    if willRet then simulateAgentDay cfg md5 s a
    else
      let days_since := s.current_date - a.install_date
      let churn_prob := getPermanentChurnProbability days_since
      let (q, s) := s.draw
      if q < churn_prob then
        let a := { a with is_churned := true, churn_date := some s.current_date }
        let s := { s with
          churned_agents := addUnique a.user_id s.churned_agents
          active_agents := s.active_agents.filter (· ≠ a.user_id) }
        (s, a)
      else (s, a)

/-- `Simulator._simulate_day`: installs, then the pass over all agents
(today's installs included, as in the source, where the loop iterates the
list just extended by `_create_daily_installs`). -/
def simulateDay (cfg : SimulationConfig) (md5 : String → ℕ) (s : SimState) : SimState :=
  let s := createDailyInstalls cfg md5 s
  let agents := s.agents
  let (s, processed) :=
    agents.foldl
      (fun (acc : SimState × List AgentState) a =>
        let (s', a') := simulateExistingAgentStep cfg md5 acc.1 a
        (s', acc.2 ++ [a']))
      (s, [])
  { s with agents := processed }

/-- Rational surrogate for `math.exp` (truncated Taylor series; the decay
install distribution only needs a deterministic positive weight
function). -/
def expQ (x : ℚ) : ℚ :=
  ((List.range 25).foldl
    (fun (acc : ℚ × ℚ) k =>
      let term := if k = 0 then (1 : ℚ) else acc.2 * x / (k : ℚ)
      (acc.1 + term, term))
    (0, 0)).1

/-- Add `delta` to the first `k` entries of a list (the source writes this
as `for i in range(k): l[i] += delta`, which never runs out of range for
the remainder/rounding slacks that arise). -/
def bumpFirst (k : ℤ) (delta : ℤ) (l : List ℤ) : List ℤ :=
  l.enum.map (fun p => if (p.1 : ℤ) < k then p.2 + delta else p.2)

/-- `Simulator._calculate_install_distribution`. -/
def calculateInstallDistribution (cfg : SimulationConfig) (s : SimState) : SimState :=
  let total := cfg.total_installs
  let duration := cfg.duration_days
  let distribution := cfg.install_distribution
  let decay_rate := cfg.install_decay_rate
  let installs :=
    if distribution = "uniform" then
      let daily := pyFloorDiv total duration
      let base := List.replicate duration.toNat daily
      let remainder := total - daily * duration
      bumpFirst remainder 1 base
    else if distribution = "decay" then
      let weights := (List.range duration.toNat).map (fun d => expQ (-decay_rate * d))
      let total_weight := weights.sum
      let base := weights.map (fun w => pyTrunc ((total : ℚ) * w / total_weight))
      let diff := total - base.sum
      bumpFirst (abs diff) (if diff > 0 then 1 else -1) base
    else
      List.replicate duration.toNat (pyFloorDiv total duration)
  let installs :=
    match cfg.bad_traffic_config with
    | some bt =>
        let bad_day := bt.day.getD 25 - 1
        if 0 ≤ bad_day ∧ bad_day < duration then
          installs.set bad_day.toNat (installs.getD bad_day.toNat 0 + bt.volume.getD 0)
        else installs
    | none => installs
  { s with installs_per_day := installs }

/-- `Simulator.run`: the full simulation as a function of the
configuration, the md5 digest function, and the seeded random stream.
uuid4 draws are indexed by `uuidCtr`; the emitted event stream is
`(run ...).output_events`. -/
def Simulator.run (cfg : SimulationConfig) (md5 : String → ℕ) (stream : ℕ → ℚ) :
    SimState :=
  let r : Rng := { stream := stream, pos := 0 }
  let (world, r1) := WorldState.init cfg r
  let s : SimState :=
    { rng := r1, world := world, current_date := cfg.start_date }
  let s := calculateInstallDistribution cfg s
  (List.range cfg.duration_days.toNat).foldl
    (fun s day =>
      let day_number : ℤ := (day : ℤ) + 1
      let current_date := cfg.start_date + (day : ℤ)
      let s := { s with
        day_number := day_number
        current_date := current_date
        world := { s.world with current_date := current_date, day_number := day_number } }
      let s := simulateDay cfg md5 s
      { s with world := s.world.advance_day })
    s

/-- The rendered event stream of a run: engine events with their uuid draw
indices resolved through the uuid oracle `u`. -/
def renderRun (cfg : SimulationConfig) (md5 : String → ℕ) (stream : ℕ → ℚ)
    (u : ℕ → String) : List Event :=
  ((Simulator.run cfg md5 stream).output_events).map (renderEvent u)

/-! ## Configuration validation (`src/validators.py`)

The validator's error strings are modelled structurally: each appended
f-string becomes a `VError` constructor carrying the data interpolated into
the message, and `VError.path` names the configuration path the message
starts with.  The typed configuration tree always contains the required
sections and typed scalars, so the checks that merely test presence or
Python types of required keys are vacuous here (noted per check). -/

/-- One validation error of `ConfigValidator` (a structured rendering of
the appended message). -/
inductive VError where
  | missing_section (name : String)
  | duration_not_positive
  | duration_too_long
  | share_sum (path : String) (total : ℚ) (expected : ℚ)
  | retention_order (name : String) (d1 d7 d30 d90 : ℚ)
  | retention_range (name : String) (day : String)
  | ab_length_mismatch (test : String)
  | ab_weight_sum (test : String) (total : ℚ)
  | unlock_exceeds_max (feature : String) (level maxLevel : ℤ)
  | installs_total_too_small
  | installs_total_too_large
  | soft_pity_start_ge_threshold (soft thr : ℤ)
  | vip_threshold_decreasing (level : ℤ) (threshold : ℚ)
deriving DecidableEq

/-- The configuration path named at the start of an error message. -/
def VError.path : VError → String
  | .missing_section n => n
  | .duration_not_positive => "simulation.duration_days"
  | .duration_too_long => "simulation.duration_days"
  | .share_sum p _ _ => p
  | .retention_order n _ _ _ _ => "player_types." ++ n
  | .retention_range n d => "player_types." ++ n ++ ".retention." ++ d
  | .ab_length_mismatch t => "ab_tests." ++ t
  | .ab_weight_sum t _ => "ab_tests." ++ t
  | .unlock_exceeds_max f _ _ => "progression.unlocks." ++ f
  | .installs_total_too_small => "installs.total"
  | .installs_total_too_large => "installs.total"
  | .soft_pity_start_ge_threshold _ _ => "gacha.pity.soft_pity_start"
  | .vip_threshold_decreasing l _ => "vip.levels." ++ toString l

/-- `ConfigValidator._validate_required_sections`: vacuous on the typed
tree, where every required section is present by construction. -/
def validateRequiredSections (cfg : SimulationConfig) : List VError :=
  let _ := cfg
  []

/-- `ConfigValidator._validate_simulation_params` (the presence and
integer-type checks on `seed`/`start_date`/`duration_days` hold by typing;
the numeric range checks remain). -/
def validateSimulationParams (cfg : SimulationConfig) : List VError :=
  if cfg.duration_days < 1 then [.duration_not_positive]
  else if cfg.duration_days > 365 then [.duration_too_long]
  else []

/-- `ConfigValidator._validate_share_sum`. -/
def validateShareSum (shares : List ℚ) (path : String) : List VError :=
  let total := shares.sum
  if |total - 1| > 1/100 then [.share_sum path total 1] else []

/-- `ConfigValidator._validate_player_type_shares`. -/
def validatePlayerTypeShares (cfg : SimulationConfig) : List VError :=
  validateShareSum (cfg.player_types.map (fun p => p.2.share)) "player_types"

/-- `ConfigValidator._validate_install_source_shares`. -/
def validateInstallSourceShares (cfg : SimulationConfig) : List VError :=
  validateShareSum (cfg.install_sources.map (fun p => p.2.share)) "installs.sources"

/-- `ConfigValidator._validate_retention_order`. -/
def validateRetentionOrder (cfg : SimulationConfig) : List VError :=
  cfg.player_types.flatMap (fun (p : String × PlayerTypeCfg) =>
    let ret := p.2.retention
    let d1 := ret.d1.getD 1
    let d7 := ret.d7.getD 0
    let d30 := ret.d30.getD 0
    let d90 := ret.d90.getD 0
    let order_errors :=
      if ¬ (d1 ≥ d7 ∧ d7 ≥ d30 ∧ d30 ≥ d90) then
        [VError.retention_order p.1 d1 d7 d30 d90]
      else []
    let range_errors :=
      [("d1", d1), ("d7", d7), ("d30", d30), ("d90", d90)].filterMap
        (fun dv => if ¬ (0 ≤ dv.2 ∧ dv.2 ≤ 1) then
            some (VError.retention_range p.1 dv.1)
          else none)
    order_errors ++ range_errors)

/-- `ConfigValidator._validate_platform_shares` (empty mappings are
skipped by the `if platforms:` guard). -/
def validatePlatformShares (cfg : SimulationConfig) : List VError :=
  let platforms := cfg.devices.platforms
  if platforms.isEmpty then []
  else
    let total := (platforms.map Prod.snd).sum
    if |total - 1| > 1/100 then [.share_sum "devices.platforms" total 1] else []

/-- `ConfigValidator._validate_country_shares` (empty mappings are
skipped by the `if countries:` guard). -/
def validateCountryShares (cfg : SimulationConfig) : List VError :=
  let countries := cfg.devices.countries
  if countries.isEmpty then []
  else
    let total := (countries.map Prod.snd).sum
    if |total - 1| > 1/100 then [.share_sum "devices.countries" total 1] else []

/-- `ConfigValidator._validate_gacha_rates` (the typed `rates` record is
always present, so the `if rates:` guard is always taken). -/
def validateGachaRates (cfg : SimulationConfig) : List VError :=
  let rates := cfg.gacha.rates
  let total := rates.common + rates.rare + rates.epic + rates.legendary
  if |total - 1| > 1/100 then [.share_sum "gacha.rates" total 1] else []

/-- `ConfigValidator._validate_ab_test_weights`. -/
def validateAbTestWeights (cfg : SimulationConfig) : List VError :=
  cfg.ab_tests.flatMap (fun (t : String × ABTestCfg) =>
    if ¬ t.2.enabled then []
    else if t.2.variants.length ≠ t.2.weights.length then [.ab_length_mismatch t.1]
    else
      let total := t.2.weights.sum
      if |total - 1| > 1/100 then [.ab_weight_sum t.1 total] else [])

/-- `ConfigValidator._validate_references`. -/
def validateReferences (cfg : SimulationConfig) : List VError :=
  let max_level := cfg.progression.player_level.max.getD 100
  cfg.progression.unlocks.filterMap (fun u =>
    if u.2 > max_level then some (VError.unlock_exceeds_max u.1 u.2 max_level) else none)

/-- Ascending insertion sort of the vip levels by integer key
(`sorted(vip_levels.keys(), key=int)`). -/
def insertVip (x : ℤ × VipLevelCfg) :
    List (ℤ × VipLevelCfg) → List (ℤ × VipLevelCfg)
  | [] => [x]
  | y :: ys => if x.1 ≤ y.1 then x :: y :: ys else y :: insertVip x ys

/-- Sort the vip-level entries by key. -/
def sortVip (l : List (ℤ × VipLevelCfg)) : List (ℤ × VipLevelCfg) :=
  l.foldl (fun acc x => insertVip x acc) []

/-- `ConfigValidator._validate_numeric_ranges`. -/
def validateNumericRanges (cfg : SimulationConfig) : List VError :=
  let installs_errors :=
    (if cfg.total_installs < 100 then [VError.installs_total_too_small] else []) ++
    (if cfg.total_installs > 10000000 then [VError.installs_total_too_large] else [])
  let pity_errors :=
    let threshold := cfg.gacha.pity.threshold
    let soft_start := cfg.gacha.pity.soft_pity_start
    if soft_start ≥ threshold then
      [VError.soft_pity_start_ge_threshold soft_start threshold]
    else []
  let vip_errors :=
    ((sortVip cfg.vip_levels).foldl
      (fun (acc : ℚ × List VError) lv =>
        let threshold := lv.2.threshold
        let errs :=
          if threshold < acc.1 then
            acc.2 ++ [VError.vip_threshold_decreasing lv.1 threshold]
          else acc.2
        (threshold, errs))
      (-1, [])).2
  installs_errors ++ pity_errors ++ vip_errors

/-- `ConfigValidator.validate`: all validations in source order, errors
aggregated into one list. -/
def ConfigValidator.validate (cfg : SimulationConfig) : List VError :=
  validateRequiredSections cfg ++
  validateSimulationParams cfg ++
  validatePlayerTypeShares cfg ++
  validateInstallSourceShares cfg ++
  validateRetentionOrder cfg ++
  validatePlatformShares cfg ++
  validateCountryShares cfg ++
  validateGachaRates cfg ++
  validateAbTestWeights cfg ++
  validateReferences cfg ++
  validateNumericRanges cfg

/-! ## Concrete fixtures for witnesses and counterexamples -/

/-- A small, fully valid configuration (uniform installs, one source, one
player type, standard gacha rates and pity settings). -/
def baseCfg : SimulationConfig :=
  { simulation := { seed := 42, start_date := 20089, duration_days := 7 }
    installs :=
      { total := 100, distribution := "uniform"
        sources := [("organic", { share := 1 })] }
    player_types :=
      [("free_casual",
        { share := 1
          retention :=
            { d1 := some (5/10), d7 := some (3/10), d30 := some (15/100)
              d90 := some (5/100) }
          sessions_per_day := some (1, 2)
          session_duration_min := some (5, 15)
          gacha_desire := some (3/10)
          ad_watch_probability := some (5/10)
          guild_engagement := some (4/10)
          arena_engagement := some (4/10) })]
    economy :=
      { initial := { gold := 1000, gems := 100, summon_tickets := 5, energy := 120 }
        energy := { max := 120, regen_minutes := 6, stage_cost := 6 } }
    gacha :=
      { single_gems := 300, multi_gems := 2700
        rates := { common := 55/100, rare := 30/100, epic := 12/100, legendary := 3/100 }
        pity := { threshold := 90, soft_pity_start := 75, soft_pity_rate_boost := 6/100 } }
    shop :=
      { products := []
        ads := { reward_gems := 50, max_per_day := 5, cooldown_minutes := 30 } }
    progression := { chapters := 20, stages_per_chapter := 10 }
    heroes := { pool := [("common", 2)], base_power := [("common", 100)] }
    social :=
      { arena :=
          { daily_attempts := 5, attempt_cost_gems := 50, rating_start := 1000
            rating_k_factor := 32 }
        guilds := { count := 2, max_members := 30 } }
    devices :=
      { platforms := [("ios", 45/100), ("android", 55/100)]
        countries := [("US", 1)]
        ios_models := ["iPhone 15"]
        android_models := ["Pixel 8"]
        app_versions := ["1.0.0"]
        app_version_weights := [1] } }

/-- A concrete agent (fields beyond identity left at their defaults). -/
def testAgent : AgentState :=
  { user_id := "u_000001", device_id := "d_000001", agent_type := .FREE_CASUAL
    install_date := 20089, install_source := "organic", country := "US"
    platform := .IOS, device_model := "iPhone 15", os_version := "17.0"
    app_version := "1.0.0" }

/-- A constant random stream with all draws `1/2`. -/
def testRngHalf : Rng := { stream := fun _ => 1/2, pos := 0 }

/-- A constant random stream with all draws `9/10`. -/
def testRngHigh : Rng := { stream := fun _ => 9/10, pos := 0 }

/-- An empty world fixture. -/
def emptyWorld : WorldState := { current_date := 0 }

/-- A minimal simulation-state fixture over `emptyWorld`. -/
def testState : SimState :=
  { rng := testRngHalf, world := emptyWorld, current_date := 20089 }

/-- An enabled A/B test fixture with two equally weighted variants and no
deferred activation. -/
def tcC5 : ABTestCfg :=
  { enabled := true, variants := ["control", "offer"], weights := [1/2, 1/2] }

/-- Configuration carrying an enabled `late_game_offer` A/B test. -/
def c5Cfg : SimulationConfig :=
  { baseCfg with ab_tests := [("late_game_offer", tcC5)] }

/-- A concrete stand-in for the md5 oracle. -/
def c5md5 : String → ℕ := fun s => s.length * 1234 + 7

/-- An agent 30 days past install with no A/B assignments yet. -/
def c5Agent : AgentState :=
  { testAgent with install_date := 20000, ab_tests := [] }

/-- A configuration whose only player type gives a `d7` retention anchor
but no `d1` anchor: the validator checks the order with the default
`d1 = 1.0` while the runtime interpolation uses the default `d1 = 0.5`. -/
def c6Cfg : SimulationConfig :=
  { baseCfg with
    player_types :=
      [("free_casual", { share := 1, retention := { d7 := some (6/10) } })] }

/-- A configuration with an empty platform mapping: its platform shares
sum to 0, far outside the 0.01 tolerance. -/
def c9Cfg : SimulationConfig :=
  { baseCfg with devices := { baseCfg.devices with platforms := [] } }

/-- A configuration with a single platform share of 0.5 (nonempty, out of
tolerance). -/
def c9WitCfg : SimulationConfig :=
  { baseCfg with devices := { baseCfg.devices with platforms := [("ios", 1/2)] } }

/-- Degenerate configuration refuting C4 as stated: rates `(0,0,0,1)` sum
to 1 and `soft_pity_start < threshold`, but the soft-pity boost is
negative. -/
def c4CfgA : SimulationConfig :=
  { baseCfg with
    gacha :=
      { baseCfg.gacha with
        rates := { common := 0, rare := 0, epic := 0, legendary := 1 }
        pity :=
          { threshold := 90, soft_pity_start := 75
            soft_pity_rate_boost := -(1/10) } } }

/-- Degenerate configuration refuting C4 as stated with a nonnegative
boost: a negative common rate balanced by a legendary rate above 1. -/
def c4CfgB : SimulationConfig :=
  { baseCfg with
    gacha :=
      { baseCfg.gacha with
        rates := { common := -(1/2), rare := 0, epic := 0, legendary := 3/2 }
        pity :=
          { threshold := 90, soft_pity_start := 75, soft_pity_rate_boost := 0 } } }

/-- An agent installed 100 days before `c2State.current_date` whose last
session was yesterday: absent for exactly 1 day. -/
def c2Agent : AgentState :=
  { testAgent with install_date := 20000, last_session_date := some 20099 }

/-- State on day 20100 with a constant-`1/2` random stream. -/
def c2State : SimState :=
  { rng := testRngHalf, world := emptyWorld, current_date := 20100 }

/-- C8's invariant: every team slot references an owned hero instance and
the cached `team_power` equals the exact sum of the powers of the hero
instances referenced by the current team list. -/
def TeamInv (a : AgentState) : Prop :=
  (∀ hid ∈ a.team, (a.heroes.lookup hid).isSome = true) ∧
  a.team_power = a.team_power_sum

/-! ## C1 — determinism up to unique identifiers -/

/-- Soundness of the scrub: erasing the identifier fields of a rendered
event yields the same record for every uuid oracle. -/
theorem scrubEvent_renderEvent (u u' : ℕ → String) (e : EventR) :
    scrubEvent (renderEvent u e) = scrubEvent (renderEvent u' e) := rfl

/-- C1: two runs of the simulation with identical seed and configuration
produce byte-identical event streams except for the inherently unique
identifiers (event id, session id).  The seeded generator is the stream
`stream` (identical seed ⟹ identical stream), and the uuid4 oracles `u1`,
`u2` are the only inputs that differ between the two runs; after erasing
exactly the `event_id` and `session_id` fields (`scrubEvent`), the two
rendered output streams agree event-for-event — same names, order,
timestamps, user ids, device and user-property snapshots (balances), and
all event properties (decision outcomes). -/
theorem C1_determinism (cfg : SimulationConfig) (md5 : String → ℕ) (stream : ℕ → ℚ)
    (u1 u2 : ℕ → String) :
    (renderRun cfg md5 stream u1).map scrubEvent
      = (renderRun cfg md5 stream u2).map scrubEvent := by
  unfold renderRun
  have h : scrubEvent ∘ renderEvent u1 = scrubEvent ∘ renderEvent u2 := by
    funext e
    rfl
  rw [List.map_map, List.map_map, h]

/-! ## C10 — hard pity consumes no randomness -/

/-- C10: when the agent's pity counter has reached `pity_threshold - 1`,
`roll_gacha` returns `LEGENDARY` without consuming any value from the
random stream — the generator state after the call equals the state before
it — while every non-hard-pity roll consumes exactly one uniform draw (the
underlying stream is unchanged and the cursor advances by one). -/
theorem C10_hard_pity_frame (cfg : SimulationConfig) (a : AgentState) (r : Rng) :
    (a.pity_counter ≥ cfg.pity_threshold - 1 →
      AgentBehavior.roll_gacha cfg a r = (HeroRarity.LEGENDARY, r)) ∧
    (a.pity_counter < cfg.pity_threshold - 1 →
      (AgentBehavior.roll_gacha cfg a r).2.stream = r.stream ∧
      (AgentBehavior.roll_gacha cfg a r).2.pos = r.pos + 1) := by
  constructor
  · intro h
    simp [AgentBehavior.roll_gacha, h]
  · intro h
    have h' : ¬ (a.pity_counter ≥ cfg.pity_threshold - 1) := by omega
    simp [AgentBehavior.roll_gacha, h', Rng.random, Rng.next]

/-- Witness for C10 at concrete inputs: a pity counter of 89 against a
threshold of 90 triggers the stream-preserving hard pity, while a fresh
counter consumes one draw. -/
theorem C10_hard_pity_frame_witness :
    AgentBehavior.roll_gacha baseCfg { testAgent with pity_counter := 89 } testRngHalf
      = (HeroRarity.LEGENDARY, testRngHalf) ∧
    (AgentBehavior.roll_gacha baseCfg testAgent testRngHalf).2.pos
      = testRngHalf.pos + 1 :=
  ⟨(C10_hard_pity_frame baseCfg { testAgent with pity_counter := 89 } testRngHalf).1
      (by decide),
   ((C10_hard_pity_frame baseCfg testAgent testRngHalf).2 (by decide)).2⟩

/-! ## C7 — churn is terminal -/

/-- C7: once `is_churned` is true the state is terminal.  The day loop's
processing of a churned agent is the identity on the whole simulation
state and on the agent — no session, economy, or progression events are
emitted (the emitter and output buffers are unchanged), no randomness is
consumed, the flag is never reset — and `will_return_today` never selects
a churned agent for a session again, on any later date.  Since every
subsequent simulated day processes the agent through exactly this step,
induction over days extends the statement to the entire remaining run. -/
theorem C7_churn_terminal (cfg : SimulationConfig) (md5 : String → ℕ) (s : SimState)
    (a : AgentState) (h : a.is_churned = true) :
    simulateExistingAgentStep cfg md5 s a = (s, a) ∧
    (∀ (d : ℤ) (r : Rng), AgentBehavior.will_return_today cfg a d r = (false, r)) := by
  constructor
  · simp [simulateExistingAgentStep, h]
  · intro d r
    simp [AgentBehavior.will_return_today, h]

/-- Witness for C7 at a concrete churned agent and state. -/
theorem C7_churn_terminal_witness :
    simulateExistingAgentStep baseCfg (fun _ => 0) testState
        { testAgent with is_churned := true }
      = (testState, { testAgent with is_churned := true }) ∧
    AgentBehavior.will_return_today baseCfg { testAgent with is_churned := true }
        20100 testRngHalf = (false, testRngHalf) :=
  ⟨(C7_churn_terminal baseCfg (fun _ => 0) testState
      { testAgent with is_churned := true } rfl).1,
   (C7_churn_terminal baseCfg (fun _ => 0) testState
      { testAgent with is_churned := true } rfl).2 20100 testRngHalf⟩

/-! ## C3 — pity reset invariant -/

/-- `add_hero` never touches the pity counter. -/
theorem add_hero_pity (a : AgentState) (t : HeroTemplate) :
    (a.add_hero t).1.pity_counter = a.pity_counter := by
  unfold AgentState.add_hero
  cases h : a.heroes.lookup t.hero_id <;>
    simp [AgentState.calculate_team_power]
  split <;> simp [AgentState.calculate_team_power]

/-- C3: for every gacha pull — one iteration of the pull loop of
`Simulator._do_gacha`, i.e. one `gachaPullStep` — the pity counter is
exactly 0 immediately after a roll whose result is legendary, and exactly
its previous value plus one immediately after a roll of any non-legendary
rarity.  (`_do_gacha` performs every pull through `gachaPullStep`, see
`gachaPullLoop`.) -/
theorem C3_pity_reset (cfg : SimulationConfig) (banner : GachaBanner)
    (summon_type cost_currency : String) (cost i : ℤ) (s : SimState) (a : AgentState)
    (ts : ℤ) :
    ((AgentBehavior.roll_gacha cfg a s.rng).1 = HeroRarity.LEGENDARY →
      (gachaPullStep cfg banner summon_type cost_currency cost i s a ts).2.1.pity_counter
        = 0) ∧
    ((AgentBehavior.roll_gacha cfg a s.rng).1 ≠ HeroRarity.LEGENDARY →
      (gachaPullStep cfg banner summon_type cost_currency cost i s a ts).2.1.pity_counter
        = a.pity_counter + 1) := by
  rcases hroll : AgentBehavior.roll_gacha cfg a s.rng with ⟨rar, rng'⟩
  constructor
  · intro h
    simp only at h
    subst h
    simp [gachaPullStep, hroll, AgentState.bumpEvents]
  · intro h
    simp only at h
    simp [gachaPullStep, hroll, AgentState.bumpEvents, add_hero_pity, h]

/-- Witness for C3 at concrete pulls: a hard-pity pull resets the counter
to 0, and a common pull increments it by one. -/
theorem C3_pity_reset_witness :
    (gachaPullStep baseCfg dummyBanner "single" "gems" 300 0 testState
        { testAgent with pity_counter := 89 } 0).2.1.pity_counter = 0 ∧
    (gachaPullStep baseCfg dummyBanner "single" "gems" 300 0 testState testAgent
        0).2.1.pity_counter = testAgent.pity_counter + 1 :=
  ⟨(C3_pity_reset baseCfg dummyBanner "single" "gems" 300 0 testState
      { testAgent with pity_counter := 89 } 0).1 (by decide),
   (C3_pity_reset baseCfg dummyBanner "single" "gems" 300 0 testState testAgent 0).2
      (by
        norm_num [AgentBehavior.roll_gacha, AgentBehavior.soft_adjusted_rates, baseCfg,
          testAgent, testState, testRngHalf, Rng.random, Rng.next,
          SimulationConfig.pity_threshold, SimulationConfig.soft_pity_start,
          SimulationConfig.soft_pity_rate_boost, SimulationConfig.gacha_rates]
        decide)⟩

/-! ## C4 — gacha rate conservation -/

/-- Counterexample to C4 as stated: both configurations satisfy the
claim's hypotheses (rates summing to 1.0, `soft_pity_start < threshold`),
yet at pity 75 the four rarity probabilities used by the roll sum to 9/10
(resp. 1/2), farther than 1e-9 from 1. -/
theorem C4_counterexample :
    (c4CfgA.gacha_rates.common + c4CfgA.gacha_rates.rare + c4CfgA.gacha_rates.epic +
        c4CfgA.gacha_rates.legendary = 1 ∧
      c4CfgA.soft_pity_start < c4CfgA.pity_threshold ∧
      |(AgentBehavior.effective_gacha_rates c4CfgA 75).common +
          (AgentBehavior.effective_gacha_rates c4CfgA 75).rare +
          (AgentBehavior.effective_gacha_rates c4CfgA 75).epic +
          (AgentBehavior.effective_gacha_rates c4CfgA 75).legendary - 1|
        > 1/1000000000) ∧
    (c4CfgB.gacha_rates.common + c4CfgB.gacha_rates.rare + c4CfgB.gacha_rates.epic +
        c4CfgB.gacha_rates.legendary = 1 ∧
      c4CfgB.soft_pity_start < c4CfgB.pity_threshold ∧
      |(AgentBehavior.effective_gacha_rates c4CfgB 75).common +
          (AgentBehavior.effective_gacha_rates c4CfgB 75).rare +
          (AgentBehavior.effective_gacha_rates c4CfgB 75).epic +
          (AgentBehavior.effective_gacha_rates c4CfgB 75).legendary - 1|
        > 1/1000000000) := by
  constructor
  · refine ⟨by norm_num [c4CfgA, baseCfg, SimulationConfig.gacha_rates],
      by norm_num [c4CfgA, baseCfg, SimulationConfig.soft_pity_start,
        SimulationConfig.pity_threshold], ?_⟩
    norm_num [AgentBehavior.effective_gacha_rates, AgentBehavior.soft_adjusted_rates,
      c4CfgA, baseCfg, SimulationConfig.gacha_rates, SimulationConfig.pity_threshold,
      SimulationConfig.soft_pity_start, SimulationConfig.soft_pity_rate_boost]
    rw [abs_of_pos] <;> norm_num
  · refine ⟨by norm_num [c4CfgB, baseCfg, SimulationConfig.gacha_rates],
      by norm_num [c4CfgB, baseCfg, SimulationConfig.soft_pity_start,
        SimulationConfig.pity_threshold], ?_⟩
    norm_num [AgentBehavior.effective_gacha_rates, AgentBehavior.soft_adjusted_rates,
      c4CfgB, baseCfg, SimulationConfig.gacha_rates, SimulationConfig.pity_threshold,
      SimulationConfig.soft_pity_start, SimulationConfig.soft_pity_rate_boost]
    rw [abs_of_pos] <;> norm_num

/-- C4 (amended): additionally assuming the four configured rarity rates
are nonnegative and the soft-pity rate boost is nonnegative, the four
rarity probabilities used by the gacha roll sum to exactly 1 at every pity
counter value (hence within 1e-9 of 1.0), and at `pity ≥ threshold − 1`
the roll returns legendary for every random stream, i.e. with
probability 1. -/
theorem C4_rate_conservation (cfg : SimulationConfig)
    (hc : 0 ≤ cfg.gacha_rates.common) (hr : 0 ≤ cfg.gacha_rates.rare)
    (he : 0 ≤ cfg.gacha_rates.epic) (hl : 0 ≤ cfg.gacha_rates.legendary)
    (hsum : cfg.gacha_rates.common + cfg.gacha_rates.rare + cfg.gacha_rates.epic +
      cfg.gacha_rates.legendary = 1)
    (hsoft : cfg.soft_pity_start < cfg.pity_threshold)
    (hboost : 0 ≤ cfg.soft_pity_rate_boost) (pity : ℤ) :
    ((AgentBehavior.effective_gacha_rates cfg pity).common +
        (AgentBehavior.effective_gacha_rates cfg pity).rare +
        (AgentBehavior.effective_gacha_rates cfg pity).epic +
        (AgentBehavior.effective_gacha_rates cfg pity).legendary = 1) ∧
    (|(AgentBehavior.effective_gacha_rates cfg pity).common +
        (AgentBehavior.effective_gacha_rates cfg pity).rare +
        (AgentBehavior.effective_gacha_rates cfg pity).epic +
        (AgentBehavior.effective_gacha_rates cfg pity).legendary - 1|
      ≤ 1/1000000000) ∧
    (pity ≥ cfg.pity_threshold - 1 → ∀ (a : AgentState) (r : Rng),
      a.pity_counter = pity →
      (AgentBehavior.roll_gacha cfg a r).1 = HeroRarity.LEGENDARY) := by
  have hmain : (AgentBehavior.effective_gacha_rates cfg pity).common +
      (AgentBehavior.effective_gacha_rates cfg pity).rare +
      (AgentBehavior.effective_gacha_rates cfg pity).epic +
      (AgentBehavior.effective_gacha_rates cfg pity).legendary = 1 := by
    by_cases h1 : pity ≥ cfg.pity_threshold - 1
    · simp [AgentBehavior.effective_gacha_rates, h1]
    · by_cases h2 : pity ≥ cfg.soft_pity_start
      · have hba : 0 ≤ ((pity - cfg.soft_pity_start + 1 : ℤ) : ℚ) *
            cfg.soft_pity_rate_boost := by
          apply mul_nonneg _ hboost
          exact_mod_cast (by omega : (0 : ℤ) ≤ pity - cfg.soft_pity_start + 1)
        by_cases h3 : cfg.gacha_rates.common + cfg.gacha_rates.rare +
            cfg.gacha_rates.epic > 0
        · have hne : cfg.gacha_rates.common + cfg.gacha_rates.rare +
              cfg.gacha_rates.epic ≠ 0 := ne_of_gt h3
          simp only [AgentBehavior.effective_gacha_rates,
            AgentBehavior.soft_adjusted_rates, h1, h2, h3, if_true, if_false,
            ite_true, ite_false]
          field_simp
          ring
        · have hz : cfg.gacha_rates.common + cfg.gacha_rates.rare +
              cfg.gacha_rates.epic = 0 :=
            le_antisymm (not_lt.mp h3) (by positivity)
          have hl1 : cfg.gacha_rates.legendary = 1 := by linarith
          simp only [AgentBehavior.effective_gacha_rates,
            AgentBehavior.soft_adjusted_rates, h1, h2, h3, if_true, if_false,
            ite_true, ite_false]
          rw [hl1, min_eq_right (by linarith : (1 : ℚ) ≤ 1 +
            ((pity - cfg.soft_pity_start + 1 : ℤ) : ℚ) * cfg.soft_pity_rate_boost)]
          linarith
      · simp only [AgentBehavior.effective_gacha_rates,
          AgentBehavior.soft_adjusted_rates, h1, h2, if_false, ite_false]
        exact hsum
  refine ⟨hmain, by rw [hmain]; norm_num, ?_⟩
  intro hp a r hpc
  simp [AgentBehavior.roll_gacha, hpc, hp]

/-- Witness for the amended C4 at the concrete base configuration: the
in-soft-pity rates at pity 80 sum to 1, and a pull at pity 89 (threshold
90) is legendary. -/
theorem C4_rate_conservation_witness :
    ((AgentBehavior.effective_gacha_rates baseCfg 80).common +
        (AgentBehavior.effective_gacha_rates baseCfg 80).rare +
        (AgentBehavior.effective_gacha_rates baseCfg 80).epic +
        (AgentBehavior.effective_gacha_rates baseCfg 80).legendary = 1) ∧
    (AgentBehavior.roll_gacha baseCfg { testAgent with pity_counter := 89 }
        testRngHalf).1 = HeroRarity.LEGENDARY :=
  ⟨(C4_rate_conservation baseCfg
      (by norm_num [baseCfg, SimulationConfig.gacha_rates])
      (by norm_num [baseCfg, SimulationConfig.gacha_rates])
      (by norm_num [baseCfg, SimulationConfig.gacha_rates])
      (by norm_num [baseCfg, SimulationConfig.gacha_rates])
      (by norm_num [baseCfg, SimulationConfig.gacha_rates])
      (by decide)
      (by norm_num [baseCfg, SimulationConfig.soft_pity_rate_boost]) 80).1,
   (C4_rate_conservation baseCfg
      (by norm_num [baseCfg, SimulationConfig.gacha_rates])
      (by norm_num [baseCfg, SimulationConfig.gacha_rates])
      (by norm_num [baseCfg, SimulationConfig.gacha_rates])
      (by norm_num [baseCfg, SimulationConfig.gacha_rates])
      (by norm_num [baseCfg, SimulationConfig.gacha_rates])
      (by decide)
      (by norm_num [baseCfg, SimulationConfig.soft_pity_rate_boost]) 89).2.2
      (by decide) { testAgent with pity_counter := 89 } testRngHalf rfl⟩

/-! ## C2 — permanent-churn probability buckets -/

/-- `will_return_today` draws one value and leaves the rest of the
generator untouched when the agent is not churned. -/
theorem will_return_today_rng (cfg : SimulationConfig) (a : AgentState) (d : ℤ)
    (r : Rng) (h : a.is_churned = false) :
    (AgentBehavior.will_return_today cfg a d r).2 = { r with pos := r.pos + 1 } := by
  simp [AgentBehavior.will_return_today, h, Rng.random, Rng.next]

/-- Counterexample to C2 as stated: this agent has been absent for exactly
one day (elapsed absence ≤ 7 days), so by the claim the permanent-churn
threshold at this decision would be 10% and the churn draw `1/2` would not
mark it churned; the code nevertheless marks it permanently churned,
because the bucket is computed from the 100 days elapsed since *install*
(probability 70%). -/
theorem C2_counterexample :
    c2State.current_date - c2Agent.last_session_date.getD 0 = 1 ∧
    ¬ ((1 : ℚ)/2 < 1/10) ∧
    (simulateExistingAgentStep baseCfg (fun _ => 0) c2State c2Agent).2.is_churned
      = true := by
  refine ⟨by decide, by norm_num, ?_⟩
  norm_num [simulateExistingAgentStep, AgentBehavior.will_return_today,
    AgentBehavior.get_retention_probability, AgentBehavior.get_ab_retention_modifier,
    SimulationConfig.player_type_config, PlayerTypeCfg.empty, truthyOptStr,
    getPermanentChurnProbability, SimState.draw, Rng.random, Rng.next,
    baseCfg, c2State, c2Agent, testAgent, testRngHalf, emptyWorld, addUnique,
    PlayerType.value, List.lookup, Option.getD]

/-- C2 (amended): for every existing non-churned agent that the behavior
model decides does not return on a given day, the engine marks it
permanently churned exactly when the next uniform draw falls below the
bucket probability 10% / 30% / 50% / 70% — where the bucket is determined
by the number of days elapsed since the agent's *install*
(≤7 / ≤30 / ≤60 / >60 days since install), not by how long it has been
absent. -/
theorem C2_churn_buckets (cfg : SimulationConfig) (md5 : String → ℕ) (s : SimState)
    (a : AgentState) (h1 : a.is_churned = false)
    (h2 : (AgentBehavior.will_return_today cfg a s.current_date s.rng).1 = false) :
    ((simulateExistingAgentStep cfg md5 s a).2.is_churned = true ↔
      s.rng.stream (s.rng.pos + 1) <
        getPermanentChurnProbability (s.current_date - a.install_date)) ∧
    (∀ d : ℤ, getPermanentChurnProbability d =
      if d ≤ 7 then 1/10 else if d ≤ 30 then 3/10 else if d ≤ 60 then 1/2
      else 7/10) := by
  constructor
  · rcases hwr : AgentBehavior.will_return_today cfg a s.current_date s.rng
      with ⟨wr, rng2⟩
    have hwrf : wr = false := by
      have := h2
      rw [hwr] at this
      exact this
    have hrng2 : rng2 = { s.rng with pos := s.rng.pos + 1 } := by
      have := will_return_today_rng cfg a s.current_date s.rng h1
      rw [hwr] at this
      exact this
    subst hwrf
    subst hrng2
    simp only [simulateExistingAgentStep, h1, hwr, SimState.draw, Rng.random,
      Rng.next, Bool.false_eq_true, if_false]
    split
    next hq => simpa using hq
    next hq => simpa [h1] using hq
  · intro d
    rfl

/-- Witness for the amended C2 at the concrete fixture (install 100 days
ago, non-returning on the current day). -/
theorem C2_churn_buckets_witness :
    ((simulateExistingAgentStep baseCfg (fun _ => 0) c2State c2Agent).2.is_churned
        = true ↔
      c2State.rng.stream (c2State.rng.pos + 1) <
        getPermanentChurnProbability (c2State.current_date - c2Agent.install_date)) ∧
    (∀ d : ℤ, getPermanentChurnProbability d =
      if d ≤ 7 then 1/10 else if d ≤ 30 then 3/10 else if d ≤ 60 then 1/2
      else 7/10) :=
  C2_churn_buckets baseCfg (fun _ => 0) c2State c2Agent rfl
    (by
      norm_num [AgentBehavior.will_return_today,
        AgentBehavior.get_retention_probability,
        AgentBehavior.get_ab_retention_modifier,
        SimulationConfig.player_type_config, PlayerTypeCfg.empty, truthyOptStr,
        Rng.random, Rng.next, baseCfg, c2State, c2Agent, testAgent, testRngHalf,
        PlayerType.value, List.lookup, Option.getD])

/-! ## C8 — team power consistency -/

/-- `AList.set` binds the written key. -/
theorem lookup_set_self (k : String) (v : α) (l : List (String × α)) :
    (AList.set k v l).lookup k = some v := by
  induction l with
  | nil => simp [AList.set, List.lookup]
  | cons p rest ih =>
      by_cases h : p.1 = k
      · simp [AList.set, h, List.lookup]
      · have hb : (k == p.1) = false := beq_eq_false_iff_ne.mpr (fun hk => h hk.symm)
        simp [AList.set, h, List.lookup, hb, ih]

/-- `AList.set` leaves other keys untouched. -/
theorem lookup_set_other (k k' : String) (v : α) (l : List (String × α))
    (h : k' ≠ k) : (AList.set k v l).lookup k' = l.lookup k' := by
  have hb : (k' == k) = false := beq_eq_false_iff_ne.mpr h
  induction l with
  | nil => simp [AList.set, List.lookup, hb]
  | cons p rest ih =>
      by_cases hp : p.1 = k
      · simp [AList.set, hp, List.lookup, hb]
      · cases hkp : (k' == p.1) <;> simp [AList.set, hp, List.lookup, hkp, ih]

/-- Lookups of keys already bound are unaffected by appending. -/
theorem lookup_append_left (k : String) (l l2 : List (String × α))
    (h : (l.lookup k).isSome = true) : (l ++ l2).lookup k = l.lookup k := by
  induction l with
  | nil => simp [List.lookup] at h
  | cons p rest ih =>
      cases hkp : (k == p.1) with
      | true => simp [List.lookup, hkp]
      | false =>
          simp only [List.lookup, hkp] at h
          simp [List.lookup, hkp, ih h]

/-- Appending a binding makes its key bound. -/
theorem lookup_append_isSome (k : String) (v : α) (l : List (String × α)) :
    ((l ++ [(k, v)]).lookup k).isSome = true := by
  induction l with
  | nil => simp [List.lookup]
  | cons p rest ih =>
      cases hkp : (k == p.1) with
      | true => simp [List.lookup, hkp]
      | false => simp [List.lookup, hkp, ih]

/-- Hero power does not depend on the duplicate count. -/
theorem power_set_duplicates (h : HeroInstance) (d : ℤ) :
    HeroInstance.power { h with duplicates := d } = h.power := rfl

/-- Congruence for the team power sum. -/
theorem team_power_sum_congr (a a' : AgentState) (hteam : a'.team = a.team)
    (h : ∀ hid ∈ a.team,
      (match a'.heroes.lookup hid with | some hh => hh.power | none => 0)
        = (match a.heroes.lookup hid with | some hh => hh.power | none => 0)) :
    a'.team_power_sum = a.team_power_sum := by
  unfold AgentState.team_power_sum
  rw [hteam]
  exact congrArg List.sum (List.map_congr_left h)

/-- `calculate_team_power` establishes the cached-power equation. -/
theorem calculate_team_power_inv (a : AgentState)
    (hsub : ∀ hid ∈ a.team, (a.heroes.lookup hid).isSome = true) :
    TeamInv a.calculate_team_power :=
  ⟨hsub, rfl⟩

/-- `add_hero` preserves the team-power invariant. -/
theorem add_hero_TeamInv (a : AgentState) (t : HeroTemplate) (hInv : TeamInv a) :
    TeamInv (a.add_hero t).1 := by
  obtain ⟨hsub, hpow⟩ := hInv
  unfold AgentState.add_hero
  cases hlk : a.heroes.lookup t.hero_id with
  | some existing =>
      simp only
      constructor
      · intro hid hmem
        by_cases h : hid = t.hero_id
        · subst h
          simp [lookup_set_self]
        · simp only [lookup_set_other _ _ _ _ h]
          exact hsub hid hmem
      · show a.team_power = _
        rw [hpow]
        symm
        refine team_power_sum_congr a _ ?ht ?hp
        case ht => rfl
        intro hid hmem
        by_cases h : hid = t.hero_id
        · subst h
          simp [lookup_set_self, hlk, power_set_duplicates]
        · simp [lookup_set_other _ _ _ _ h]
  | none =>
      simp only
      by_cases hlen : a.team.length < 5
      · simp only [hlen, if_true, ite_true]
        apply calculate_team_power_inv
        intro hid hmem
        simp only [List.mem_append, List.mem_singleton] at hmem
        rcases hmem with hmem | hmem
        · rw [lookup_append_left _ _ _ (hsub hid hmem)]
          exact hsub hid hmem
        · subst hmem
          exact lookup_append_isSome _ _ _
      · simp only [hlen, if_false, ite_false]
        constructor
        · intro hid hmem
          rw [lookup_append_left _ _ _ (hsub hid hmem)]
          exact hsub hid hmem
        · show a.team_power = _
          rw [hpow]
          symm
          refine team_power_sum_congr a _ ?ht2 ?hp2
          case ht2 => rfl
          intro hid hmem
          rw [lookup_append_left _ _ _ (hsub hid hmem)]

set_option maxHeartbeats 1600000 in
/-- `_upgrade_hero` preserves (indeed re-establishes) the invariant. -/
theorem upgradeHero_TeamInv (cfg : SimulationConfig) (s : SimState) (a : AgentState)
    (ts : ℤ) (hInv : TeamInv a) : TeamInv (upgradeHero cfg s a ts).2.1 := by
  obtain ⟨hsub, hpow⟩ := hInv
  unfold upgradeHero
  cases hemp : a.heroes.isEmpty with
  | true => exact ⟨hsub, hpow⟩
  | false =>
      cases hfind : findBestUpgrade cfg a with
      | none => exact ⟨hsub, hpow⟩
      | some best =>
          rcases best with ⟨best_hero, best_cost⟩
          constructor
          · intro hid hmem
            have hmem' : hid ∈ a.team := hmem
            by_cases h : hid = best_hero.hero_id
            · subst h
              show ((AList.set best_hero.hero_id
                  { best_hero with level := best_hero.level + 1 }
                  a.heroes).lookup best_hero.hero_id).isSome = true
              rw [lookup_set_self]
              rfl
            · show ((AList.set best_hero.hero_id
                  { best_hero with level := best_hero.level + 1 }
                  a.heroes).lookup hid).isSome = true
              rw [lookup_set_other _ _ _ _ h]
              exact hsub hid hmem'
          · rfl

/-- C8: after every operation that adds a hero to an agent's collection
(`AgentState.add_hero`, used by the starting-hero grant and by every gacha
pull) or levels a hero up (`Simulator._upgrade_hero`), the cached
`agent.team_power` equals the exact sum of the power values of the hero
instances referenced by the agent's current team list (no hero-ascension
operation exists in the engine, so that part of the claim is vacuous). -/
theorem C8_team_power (cfg : SimulationConfig) :
    (∀ (a : AgentState) (t : HeroTemplate), TeamInv a → TeamInv (a.add_hero t).1) ∧
    (∀ (s : SimState) (a : AgentState) (ts : ℤ), TeamInv a →
      TeamInv (upgradeHero cfg s a ts).2.1) :=
  ⟨add_hero_TeamInv, upgradeHero_TeamInv cfg⟩

/-- Witness for C8 at a concrete agent (fresh agent with an empty
collection, then a hero added, then an upgrade attempt). -/
theorem C8_team_power_witness :
    TeamInv (testAgent.add_hero dummyHero).1 ∧
    TeamInv (upgradeHero baseCfg testState testAgent 0).2.1 :=
  ⟨(C8_team_power baseCfg).1 testAgent dummyHero
      ⟨by simp [testAgent], by simp [testAgent, AgentState.team_power_sum]⟩,
   (C8_team_power baseCfg).2 testState testAgent 0
      ⟨by simp [testAgent], by simp [testAgent, AgentState.team_power_sum]⟩⟩

/-! ## C5 — A/B assignment stability -/

/-- The normalized cumulative scan of `get_ab_group` agrees with the
proportional (spec) scan over the raw weights whenever the total weight
is positive. -/
theorem cumPick_normalized (value total : ℚ) (htot : 0 < total)
    (vs : List String) (ws : List ℚ) (c : ℚ) :
    cumPick value (vs.zip (ws.map (fun w => w / total))) (c / total) =
      cumPick (value * total) (vs.zip ws) c := by
  induction vs generalizing ws c with
  | nil => rfl
  | cons v vs ih =>
      cases ws with
      | nil => rfl
      | cons w ws =>
          simp only [List.zip_cons_cons, List.map_cons, cumPick]
          have hcum : c / total + w / total = (c + w) / total := by ring
          rw [hcum]
          have hcond : value < (c + w) / total ↔ value * total < c + w :=
            lt_div_iff htot
          by_cases hc : value * total < c + w
          · rw [if_pos (hcond.mpr hc), if_pos hc]
          · rw [if_neg (fun hh => hc (hcond.mp hh)), if_neg hc]
            exact ih ws (c + w)

/-- `get_ab_group` computes the spec's weighted bucket of
`(md5(seed:test_name:user_id) mod 10000) / 10000` whenever the configured
weights have positive total. -/
theorem get_ab_group_spec (md5 : String → ℕ) (user_id test_name : String)
    (variants : List String) (weights : List ℚ) (seed : ℤ)
    (htot : 0 < weights.sum) :
    get_ab_group md5 user_id test_name variants weights seed =
      specWeightedBucket
        (((md5 (hashInput seed test_name user_id) % 10000 : ℕ) : ℚ) / 10000)
        variants weights := by
  simp only [get_ab_group, specWeightedBucket]
  have h0 : (0 : ℚ) = 0 / weights.sum := by simp
  conv_lhs => rw [h0]
  rw [cumPick_normalized _ _ htot]

/-- Folding the assignment step over tests that do not mention key `t`
leaves the binding of `t` unchanged. -/
theorem assign_foldl_preserve (md5 : String → ℕ) (seed : ℤ) (user_id : String)
    (l : List (String × ABTestCfg)) (acc : List (String × String)) (t : String)
    (hnot : t ∉ l.map Prod.fst) :
    ((l.foldl (AgentFactory.assignStep md5 seed user_id) acc).lookup t) =
      acc.lookup t := by
  induction l generalizing acc with
  | nil => rfl
  | cons p rest ih =>
      have hne : t ∉ rest.map Prod.fst := by
        intro hmem
        exact hnot (by simp [hmem])
      have hkey : p.1 ≠ t := by
        intro he
        exact hnot (by simp [he])
      rw [List.foldl_cons, ih _ hne]
      unfold AgentFactory.assignStep
      by_cases h1 : ¬ (p.2.enabled = true)
      · rw [if_pos h1]
      · rw [if_neg h1]
        by_cases h2 : p.2.activation_days_since_install.isSome = true
        · rw [if_pos h2]
        · rw [if_neg h2]
          by_cases h3 : p.2.variants ≠ [] ∧ p.2.weights ≠ []
          · rw [if_pos h3, lookup_set_other _ _ _ _ (Ne.symm hkey)]
          · rw [if_neg h3]

/-- If the test key occurs exactly once in the configured tests and its
test is enabled, non-deferred and well-formed, the install-time fold
stores the deterministic hash bucket for it. -/
theorem assign_foldl_lookup (md5 : String → ℕ) (seed : ℤ) (user_id : String)
    (l : List (String × ABTestCfg)) (acc : List (String × String)) (t : String)
    (tc : ABTestCfg) (hnd : (l.map Prod.fst).Nodup)
    (hmem : l.lookup t = some tc)
    (hen : tc.enabled = true) (hact : tc.activation_days_since_install = none)
    (hv : tc.variants ≠ []) (hw : tc.weights ≠ []) :
    ((l.foldl (AgentFactory.assignStep md5 seed user_id) acc).lookup t) =
      some (get_ab_group md5 user_id t tc.variants tc.weights seed) := by
  induction l generalizing acc with
  | nil => simp [List.lookup] at hmem
  | cons p rest ih =>
      rw [List.map_cons] at hnd
      obtain ⟨hhead, hrest⟩ := List.nodup_cons.mp hnd
      rw [List.foldl_cons]
      cases ht : (t == p.1) with
      | true =>
          have hteq : t = p.1 := eq_of_beq ht
          have htc : p.2 = tc := by
            simpa [List.lookup, ht] using hmem
          have hnotrest : t ∉ rest.map Prod.fst := by
            rw [hteq]
            exact hhead
          rw [assign_foldl_preserve md5 seed user_id rest _ t hnotrest]
          unfold AgentFactory.assignStep
          rw [htc]
          rw [if_neg (show ¬ ¬ (tc.enabled = true) by simp [hen])]
          rw [if_neg (show ¬ (tc.activation_days_since_install.isSome = true) by
            simp [hact])]
          rw [if_pos ⟨hv, hw⟩]
          subst hteq
          exact lookup_set_self _ _ _
      | false =>
          have hmem' : rest.lookup t = some tc := by
            simpa [List.lookup, ht] using hmem
          exact ih _ hrest hmem'

/-- The lazy day-30 `late_game_offer` assignment of
`_simulate_agent_day` stores the same hash bucket for the agent's user
id. -/
theorem lateGameAssign_lookup (cfg : SimulationConfig) (md5 : String → ℕ)
    (d : ℤ) (a : AgentState) (tc : ABTestCfg)
    (htc : cfg.ab_tests.lookup "late_game_offer" = some tc)
    (hen : tc.enabled = true) (hv : tc.variants ≠ []) (hw : tc.weights ≠ [])
    (hd : d - a.install_date ≥ 30)
    (hnone : (a.ab_tests.lookup "late_game_offer").isNone = true) :
    ((lateGameAssign cfg md5 d a).ab_tests.lookup "late_game_offer") =
      some (get_ab_group md5 a.user_id "late_game_offer" tc.variants tc.weights
        cfg.seed) := by
  simp only [lateGameAssign]
  rw [if_pos ⟨hd, hnone⟩, htc]
  simp only [Option.getD_some]
  rw [if_pos hen, if_pos ⟨hv, hw⟩]
  exact lookup_set_self _ _ _

/-- C5: for a fixed seed, test name, variant list and weight list, A/B
assignment is a pure function of the user id: the install-time assignment
(`AgentFactory._assign_ab_tests`) and the lazy day-30 assignment of
`Simulator._simulate_agent_day` both store exactly
`get_ab_group(user_id)` — so any two evaluations, at install time or
lazily at day 30 or later, return the same variant — and that variant is
the weighted bucket of `(md5(seed:test_name:user_id) mod 10000) / 10000`
over the configured variants and weights. -/
theorem C5_ab_assignment_stable (cfg : SimulationConfig) (md5 : String → ℕ)
    (t : String) (tc : ABTestCfg)
    (hnd : (cfg.ab_tests.map Prod.fst).Nodup)
    (hmem : cfg.ab_tests.lookup t = some tc)
    (hen : tc.enabled = true) (hv : tc.variants ≠ []) (hw : tc.weights ≠ [])
    (htot : 0 < tc.weights.sum) :
    (∀ user_id, tc.activation_days_since_install = none →
      (AgentFactory.assign_ab_tests cfg md5 cfg.seed user_id).lookup t =
        some (get_ab_group md5 user_id t tc.variants tc.weights cfg.seed)) ∧
    (∀ (d : ℤ) (a : AgentState), t = "late_game_offer" →
      d - a.install_date ≥ 30 →
      (a.ab_tests.lookup "late_game_offer").isNone = true →
      ((lateGameAssign cfg md5 d a).ab_tests.lookup "late_game_offer") =
        some (get_ab_group md5 a.user_id t tc.variants tc.weights cfg.seed)) ∧
    (∀ user_id,
      get_ab_group md5 user_id t tc.variants tc.weights cfg.seed =
        specWeightedBucket
          (((md5 (hashInput cfg.seed t user_id) % 10000 : ℕ) : ℚ) / 10000)
          tc.variants tc.weights) := by
  refine ⟨?h1, ?h2, ?h3⟩
  case h1 =>
    intro user_id hact
    exact assign_foldl_lookup md5 cfg.seed user_id cfg.ab_tests [] t tc hnd
      hmem hen hact hv hw
  case h2 =>
    intro d a hname hd hnone
    subst hname
    exact lateGameAssign_lookup cfg md5 d a tc hmem hen hv hw hd hnone
  case h3 =>
    intro user_id
    exact get_ab_group_spec md5 user_id t tc.variants tc.weights cfg.seed htot

/-- Witness for C5 at a concrete configuration, md5 oracle, user id and
agent. -/
theorem C5_ab_assignment_stable_witness :
    ((AgentFactory.assign_ab_tests c5Cfg c5md5 c5Cfg.seed "u_000001").lookup
        "late_game_offer" =
      some (get_ab_group c5md5 "u_000001" "late_game_offer" tcC5.variants
        tcC5.weights c5Cfg.seed)) ∧
    (((lateGameAssign c5Cfg c5md5 20030 c5Agent).ab_tests.lookup
        "late_game_offer") =
      some (get_ab_group c5md5 c5Agent.user_id "late_game_offer" tcC5.variants
        tcC5.weights c5Cfg.seed)) ∧
    (get_ab_group c5md5 "u_000001" "late_game_offer" tcC5.variants tcC5.weights
        c5Cfg.seed =
      specWeightedBucket
        (((c5md5 (hashInput c5Cfg.seed "late_game_offer" "u_000001") % 10000 : ℕ) : ℚ)
          / 10000)
        tcC5.variants tcC5.weights) := by
  have h := C5_ab_assignment_stable c5Cfg c5md5 "late_game_offer" tcC5
    (by decide) rfl rfl (by decide) (by decide) (by norm_num [tcC5])
  exact ⟨h.1 "u_000001" rfl, h.2.1 20030 c5Agent rfl (by decide) rfl,
    h.2.2 "u_000001"⟩

/-! ## C6 — retention monotonicity -/

/-- A successful association-list lookup yields a member of the list. -/
theorem lookup_mem (k : String) (v : α) (l : List (String × α))
    (h : l.lookup k = some v) : (k, v) ∈ l := by
  induction l with
  | nil => simp [List.lookup] at h
  | cons p rest ih =>
      rcases p with ⟨pk, pv⟩
      cases hk : (k == pk) with
      | true =>
          have hkey : k = pk := eq_of_beq hk
          have hv : pv = v := by simpa [List.lookup, hk] using h
          subst hkey
          subst hv
          exact List.mem_cons_self _ _
      | false =>
          exact List.mem_cons_of_mem _ (ih (by simpa [List.lookup, hk] using h))

/-- An empty `flatMap` has empty fibers at every member. -/
theorem flatMap_nil_of_mem {α β : Type} {l : List α} {f : α → List β} {x : α}
    (h : l.flatMap f = []) (hx : x ∈ l) : f x = [] := by
  induction l with
  | nil => cases hx
  | cons y ys ih =>
      rw [List.flatMap_cons] at h
      obtain ⟨h1, h2⟩ := List.append_eq_nil.mp h
      cases hx with
      | head => exact h1
      | tail _ hx => exact ih h2 hx

/-- A configuration that passes `_validate_retention_order` has ordered
anchors (with the validator's own defaults) for every player type. -/
theorem retention_order_of_valid (cfg : SimulationConfig) (name : String)
    (ptc : PlayerTypeCfg) (hro : validateRetentionOrder cfg = [])
    (hmem : (name, ptc) ∈ cfg.player_types) :
    ptc.retention.d1.getD 1 ≥ ptc.retention.d7.getD 0 ∧
    ptc.retention.d7.getD 0 ≥ ptc.retention.d30.getD 0 ∧
    ptc.retention.d30.getD 0 ≥ ptc.retention.d90.getD 0 := by
  have h := hro
  simp [validateRetentionOrder] at h
  obtain ⟨ho, -⟩ := h _ _ hmem
  exact ⟨ho.1, ho.2.1, ho.2.2⟩

/-- With neither relevant A/B test assigned, the retention modifier is 1
at every day. -/
theorem ab_retention_modifier_one (cfg : SimulationConfig) (a : AgentState)
    (hab1 : a.ab_tests.lookup "onboarding_length" = none)
    (hab2 : a.ab_tests.lookup "late_game_offer" = none) (d : ℤ) :
    AgentBehavior.get_ab_retention_modifier cfg a d = 1 := by
  simp [AgentBehavior.get_ab_retention_modifier, hab1, hab2]

/-- Counterexample to C6 as stated: `c6Cfg` passes the full validation
(the validator substitutes `d1 = 1.0` for the missing anchor), yet at
runtime the missing `d1` anchor defaults to `0.5 < d7 = 0.6`, so the
return probability at day 1 is strictly below the one at day 7. -/
theorem C6_counterexample :
    ConfigValidator.validate c6Cfg = [] ∧
    AgentBehavior.get_retention_probability c6Cfg testAgent 1 <
      AgentBehavior.get_retention_probability c6Cfg testAgent 7 := by
  constructor
  · norm_num [ConfigValidator.validate, validateRequiredSections,
      validateSimulationParams, validatePlayerTypeShares,
      validateInstallSourceShares, validateRetentionOrder,
      validatePlatformShares, validateCountryShares, validateGachaRates,
      validateAbTestWeights, validateReferences, validateNumericRanges,
      validateShareSum, sortVip, insertVip, c6Cfg, baseCfg,
      SimulationConfig.duration_days, SimulationConfig.total_installs,
      SimulationConfig.install_sources, List.lookup, Option.getD]
  · norm_num [AgentBehavior.get_retention_probability,
      AgentBehavior.get_ab_retention_modifier,
      SimulationConfig.player_type_config, PlayerTypeCfg.empty, c6Cfg,
      baseCfg, testAgent, PlayerType.value, List.lookup, Option.getD,
      truthyOptStr, min_def]

set_option maxHeartbeats 1600000 in
/-- C6 (amended): for every agent whose player type carries all four
retention anchors, whose configuration passes validation, with no
`onboarding_length` or `late_game_offer` A/B assignment and a nonnegative
install-source retention modifier, the return probability at day 0 is
exactly 1 and the probabilities at the anchor days are monotonically
non-increasing. -/
theorem C6_retention_monotonicity (cfg : SimulationConfig) (a : AgentState)
    (q1 q7 q30 q90 : ℚ)
    (hval : ConfigValidator.validate cfg = [])
    (h1 : (cfg.player_type_config a).retention.d1 = some q1)
    (h7 : (cfg.player_type_config a).retention.d7 = some q7)
    (h30 : (cfg.player_type_config a).retention.d30 = some q30)
    (h90 : (cfg.player_type_config a).retention.d90 = some q90)
    (hab1 : a.ab_tests.lookup "onboarding_length" = none)
    (hab2 : a.ab_tests.lookup "late_game_offer" = none)
    (hsrc : 0 ≤ a.source_retention_mod) :
    AgentBehavior.get_retention_probability cfg a 0 = 1 ∧
    AgentBehavior.get_retention_probability cfg a 7 ≤
      AgentBehavior.get_retention_probability cfg a 1 ∧
    AgentBehavior.get_retention_probability cfg a 30 ≤
      AgentBehavior.get_retention_probability cfg a 7 ∧
    AgentBehavior.get_retention_probability cfg a 90 ≤
      AgentBehavior.get_retention_probability cfg a 30 := by
  have hlk : ∃ ptc, cfg.player_types.lookup a.agent_type.value = some ptc := by
    cases hc : cfg.player_types.lookup a.agent_type.value with
    | some ptc => exact ⟨ptc, rfl⟩
    | none =>
        rw [SimulationConfig.player_type_config, hc] at h1
        simp [PlayerTypeCfg.empty] at h1
  obtain ⟨ptc, hlk⟩ := hlk
  have hptc : cfg.player_type_config a = ptc := by
    rw [SimulationConfig.player_type_config, hlk]
    rfl
  rw [hptc] at h1 h7 h30 h90
  have hro : validateRetentionOrder cfg = [] := by
    unfold ConfigValidator.validate at hval
    obtain ⟨hval, -⟩ := List.append_eq_nil.mp hval
    obtain ⟨hval, -⟩ := List.append_eq_nil.mp hval
    obtain ⟨hval, -⟩ := List.append_eq_nil.mp hval
    obtain ⟨hval, -⟩ := List.append_eq_nil.mp hval
    obtain ⟨hval, -⟩ := List.append_eq_nil.mp hval
    obtain ⟨hval, -⟩ := List.append_eq_nil.mp hval
    obtain ⟨-, hro⟩ := List.append_eq_nil.mp hval
    exact hro
  have hord := retention_order_of_valid cfg a.agent_type.value ptc hro
    (lookup_mem _ _ _ hlk)
  rw [h1, h7, h30, h90] at hord
  simp only [Option.getD_some] at hord
  obtain ⟨ho1, ho2, ho3⟩ := hord
  have hmod := ab_retention_modifier_one cfg a hab1 hab2
  refine ⟨?p0, ?p71, ?p307, ?p9030⟩
  case p0 => norm_num [AgentBehavior.get_retention_probability]
  case p71 =>
    norm_num [AgentBehavior.get_retention_probability, hptc, h1, h7, hmod]
    split_ifs
    all_goals refine Or.inl (mul_le_mul_of_nonneg_right ho1 ?_)
    all_goals linarith [hsrc]
  case p307 =>
    norm_num [AgentBehavior.get_retention_probability, hptc, h7, h30, hmod]
    split_ifs
    all_goals refine Or.inl (mul_le_mul_of_nonneg_right ho2 ?_)
    all_goals linarith [hsrc]
  case p9030 =>
    norm_num [AgentBehavior.get_retention_probability, hptc, h30, h90, hmod]
    split_ifs
    all_goals refine Or.inl (mul_le_mul_of_nonneg_right ho3 ?_)
    all_goals linarith [hsrc]

/-- Witness for the amended C6 at the base configuration (anchors
`0.5 ≥ 0.3 ≥ 0.15 ≥ 0.05`) and a concrete agent. -/
theorem C6_retention_monotonicity_witness :
    AgentBehavior.get_retention_probability baseCfg testAgent 0 = 1 ∧
    AgentBehavior.get_retention_probability baseCfg testAgent 7 ≤
      AgentBehavior.get_retention_probability baseCfg testAgent 1 ∧
    AgentBehavior.get_retention_probability baseCfg testAgent 30 ≤
      AgentBehavior.get_retention_probability baseCfg testAgent 7 ∧
    AgentBehavior.get_retention_probability baseCfg testAgent 90 ≤
      AgentBehavior.get_retention_probability baseCfg testAgent 30 :=
  C6_retention_monotonicity baseCfg testAgent (5/10) (3/10) (15/100) (5/100)
    (by norm_num [ConfigValidator.validate, validateRequiredSections,
      validateSimulationParams, validatePlayerTypeShares,
      validateInstallSourceShares, validateRetentionOrder,
      validatePlatformShares, validateCountryShares, validateGachaRates,
      validateAbTestWeights, validateReferences, validateNumericRanges,
      validateShareSum, sortVip, insertVip, baseCfg,
      SimulationConfig.duration_days, SimulationConfig.total_installs,
      SimulationConfig.install_sources, List.lookup, Option.getD])
    rfl rfl rfl rfl rfl rfl (by norm_num [testAgent])

/-! ## C9 — share-sum validation -/

/-- Counterexample to C9 as stated: `c9Cfg`'s platform shares sum to 0
(not within 0.01 of 1.0), yet the full validation accepts the
configuration because `_validate_platform_shares` skips empty mappings
behind its `if platforms:` guard. -/
theorem C9_counterexample :
    |(c9Cfg.devices.platforms.map Prod.snd).sum - 1| > 1/100 ∧
    ConfigValidator.validate c9Cfg = [] := by
  constructor
  · norm_num [c9Cfg, baseCfg]
  · norm_num [ConfigValidator.validate, validateRequiredSections,
      validateSimulationParams, validatePlayerTypeShares,
      validateInstallSourceShares, validateRetentionOrder,
      validatePlatformShares, validateCountryShares, validateGachaRates,
      validateAbTestWeights, validateReferences, validateNumericRanges,
      validateShareSum, sortVip, insertVip, c9Cfg, baseCfg,
      SimulationConfig.duration_days, SimulationConfig.total_installs,
      SimulationConfig.install_sources, List.lookup, Option.getD]

/-- C9 (amended): every out-of-tolerance share family among the
player-type shares, install-source shares, nonempty platform shares,
nonempty country shares, gacha rates, and the weights of every enabled
A/B test whose variant and weight lists have equal length, contributes an
error naming the offending path to the single aggregated list returned by
`ConfigValidator.validate` (empty platform and country mappings are
skipped by their `if` guards, and an enabled test with mismatched lengths
is reported as a length mismatch instead). -/
theorem C9_share_sum_validation (cfg : SimulationConfig) :
    (|(cfg.player_types.map (fun p => p.2.share)).sum - 1| > 1/100 →
      ∃ e ∈ ConfigValidator.validate cfg, VError.path e = "player_types") ∧
    (|(cfg.install_sources.map (fun p => p.2.share)).sum - 1| > 1/100 →
      ∃ e ∈ ConfigValidator.validate cfg, VError.path e = "installs.sources") ∧
    (cfg.devices.platforms ≠ [] →
      |(cfg.devices.platforms.map Prod.snd).sum - 1| > 1/100 →
      ∃ e ∈ ConfigValidator.validate cfg, VError.path e = "devices.platforms") ∧
    (cfg.devices.countries ≠ [] →
      |(cfg.devices.countries.map Prod.snd).sum - 1| > 1/100 →
      ∃ e ∈ ConfigValidator.validate cfg, VError.path e = "devices.countries") ∧
    (|(cfg.gacha.rates.common + cfg.gacha.rates.rare + cfg.gacha.rates.epic +
        cfg.gacha.rates.legendary) - 1| > 1/100 →
      ∃ e ∈ ConfigValidator.validate cfg, VError.path e = "gacha.rates") ∧
    (∀ t tc, (t, tc) ∈ cfg.ab_tests → tc.enabled = true →
      tc.variants.length = tc.weights.length →
      |tc.weights.sum - 1| > 1/100 →
      ∃ e ∈ ConfigValidator.validate cfg,
        VError.path e = "ab_tests." ++ t) := by
  refine ⟨?pt, ?src, ?plat, ?cty, ?gacha, ?ab⟩
  case pt =>
    intro h
    refine ⟨VError.share_sum "player_types"
      ((cfg.player_types.map (fun p => p.2.share)).sum) 1, ?_, rfl⟩
    have hcomp : VError.share_sum "player_types"
        ((cfg.player_types.map (fun p => p.2.share)).sum) 1 ∈
        validatePlayerTypeShares cfg := by
      unfold validatePlayerTypeShares validateShareSum
      rw [if_pos h]
      exact List.mem_singleton.mpr rfl
    unfold ConfigValidator.validate
    simp only [List.mem_append]
    tauto
  case src =>
    intro h
    refine ⟨VError.share_sum "installs.sources"
      ((cfg.install_sources.map (fun p => p.2.share)).sum) 1, ?_, rfl⟩
    have hcomp : VError.share_sum "installs.sources"
        ((cfg.install_sources.map (fun p => p.2.share)).sum) 1 ∈
        validateInstallSourceShares cfg := by
      unfold validateInstallSourceShares validateShareSum
      rw [if_pos h]
      exact List.mem_singleton.mpr rfl
    unfold ConfigValidator.validate
    simp only [List.mem_append]
    tauto
  case plat =>
    intro hne h
    refine ⟨VError.share_sum "devices.platforms"
      ((cfg.devices.platforms.map Prod.snd).sum) 1, ?_, rfl⟩
    have hemp : cfg.devices.platforms.isEmpty = false := by
      cases hp : cfg.devices.platforms with
      | nil => exact absurd hp hne
      | cons x xs => rfl
    have hcomp : VError.share_sum "devices.platforms"
        ((cfg.devices.platforms.map Prod.snd).sum) 1 ∈
        validatePlatformShares cfg := by
      unfold validatePlatformShares
      simp only [hemp, Bool.false_eq_true, if_false]
      rw [if_pos h]
      exact List.mem_singleton.mpr rfl
    unfold ConfigValidator.validate
    simp only [List.mem_append]
    tauto
  case cty =>
    intro hne h
    refine ⟨VError.share_sum "devices.countries"
      ((cfg.devices.countries.map Prod.snd).sum) 1, ?_, rfl⟩
    have hemp : cfg.devices.countries.isEmpty = false := by
      cases hp : cfg.devices.countries with
      | nil => exact absurd hp hne
      | cons x xs => rfl
    have hcomp : VError.share_sum "devices.countries"
        ((cfg.devices.countries.map Prod.snd).sum) 1 ∈
        validateCountryShares cfg := by
      unfold validateCountryShares
      simp only [hemp, Bool.false_eq_true, if_false]
      rw [if_pos h]
      exact List.mem_singleton.mpr rfl
    unfold ConfigValidator.validate
    simp only [List.mem_append]
    tauto
  case gacha =>
    intro h
    refine ⟨VError.share_sum "gacha.rates"
      (cfg.gacha.rates.common + cfg.gacha.rates.rare + cfg.gacha.rates.epic +
        cfg.gacha.rates.legendary) 1, ?_, rfl⟩
    have hcomp : VError.share_sum "gacha.rates"
        (cfg.gacha.rates.common + cfg.gacha.rates.rare + cfg.gacha.rates.epic +
          cfg.gacha.rates.legendary) 1 ∈ validateGachaRates cfg := by
      unfold validateGachaRates
      rw [if_pos h]
      exact List.mem_singleton.mpr rfl
    unfold ConfigValidator.validate
    simp only [List.mem_append]
    tauto
  case ab =>
    intro t tc hmem hen hlen h
    refine ⟨VError.ab_weight_sum t tc.weights.sum, ?_, rfl⟩
    have hcomp : VError.ab_weight_sum t tc.weights.sum ∈
        validateAbTestWeights cfg := by
      unfold validateAbTestWeights
      refine List.mem_flatMap.mpr ⟨(t, tc), hmem, ?_⟩
      rw [if_neg (show ¬ ¬ (tc.enabled = true) by simp [hen])]
      rw [if_neg (show ¬ tc.variants.length ≠ tc.weights.length by simp [hlen])]
      rw [if_pos h]
      exact List.mem_singleton.mpr rfl
    unfold ConfigValidator.validate
    simp only [List.mem_append]
    tauto

/-- Witness for the amended C9: a nonempty platform mapping whose shares
sum to 0.5 yields a validation error naming `devices.platforms`. -/
theorem C9_share_sum_validation_witness :
    ∃ e ∈ ConfigValidator.validate c9WitCfg,
      VError.path e = "devices.platforms" :=
  (C9_share_sum_validation c9WitCfg).2.2.1 (by decide)
    (by norm_num [c9WitCfg, baseCfg, abs_of_pos])

end DataGen
